import Mathlib

/-! ClassiCube `Window.c`: native window, input and clipboard layer.

A shallow embedding of the three window backends of `src/Window.c` (Win32, X11 and
Carbon), one namespace per backend, and theorems about them.

Conventions of the embedding.

* C integers are `Nat` (unsigned native codes, atoms, handles) or `Int`.
* Every call into a collaborator (event hooks, key and mouse state, logging, sleeping) or
  into the native window system is appended to a `trace`, in program order.
* Values the program reads back from the native system are inputs of the model.
-/

set_option maxRecDepth 8000
set_option linter.unusedVariables false

/-! ## Collaborator types -/

/-- Modelled from the spec: the enumerators of the platform-independent key enumeration
`Key` of `Input.h`, a header that is not part of the sources at hand.  Only the names are
fixed here; the integer behind each name is a parameter of the key mappers (`KeyEnum`). -/
inductive Key where
  | Key_None
  | Key_ShiftLeft | Key_ShiftRight | Key_ControlLeft | Key_ControlRight
  | Key_AltLeft | Key_AltRight | Key_WinLeft | Key_WinRight | Key_Menu
  | Key_F1 | Key_F2 | Key_F3 | Key_F4 | Key_F5 | Key_F6 | Key_F7 | Key_F8 | Key_F9 | Key_F10
  | Key_F11 | Key_F12 | Key_F13 | Key_F14 | Key_F15 | Key_F16 | Key_F17 | Key_F18 | Key_F19
  | Key_F20 | Key_F21 | Key_F22 | Key_F23 | Key_F24 | Key_F25 | Key_F26 | Key_F27 | Key_F28
  | Key_F29 | Key_F30 | Key_F31 | Key_F32 | Key_F33 | Key_F34 | Key_F35
  | Key_Up | Key_Down | Key_Left | Key_Right
  | Key_Enter | Key_Escape | Key_Space | Key_Tab | Key_BackSpace | Key_Insert
  | Key_Delete | Key_PageUp | Key_PageDown | Key_Home | Key_End | Key_CapsLock
  | Key_ScrollLock | Key_PrintScreen | Key_Pause | Key_NumLock
  | Key_Keypad0 | Key_Keypad1 | Key_Keypad2 | Key_Keypad3 | Key_Keypad4
  | Key_Keypad5 | Key_Keypad6 | Key_Keypad7 | Key_Keypad8 | Key_Keypad9
  | Key_KeypadDivide | Key_KeypadMultiply | Key_KeypadSubtract
  | Key_KeypadAdd | Key_KeypadDecimal | Key_KeypadEnter
  | Key_A | Key_B | Key_C | Key_D | Key_E | Key_F | Key_G | Key_H | Key_I | Key_J
  | Key_K | Key_L | Key_M | Key_N | Key_O | Key_P | Key_Q | Key_R | Key_S | Key_T
  | Key_U | Key_V | Key_W | Key_X | Key_Y | Key_Z
  | Key_0 | Key_1 | Key_2 | Key_3 | Key_4 | Key_5 | Key_6 | Key_7 | Key_8 | Key_9
  | Key_Tilde | Key_Minus | Key_Plus | Key_BracketLeft | Key_BracketRight
  | Key_Semicolon | Key_Quote | Key_Comma | Key_Period | Key_Slash | Key_BackSlash
  | Key_XButton1 | Key_XButton2
  deriving DecidableEq, Repr

open Key

/-- The integer value the C compiler gives each enumerator of `Key`. -/
abbrev KeyEnum := Key → Nat

namespace KeyEnum

/-- The function keys `Key_F1 .. Key_F35`, in order. -/
def blockF : List Key :=
  [Key_F1, Key_F2, Key_F3, Key_F4, Key_F5, Key_F6, Key_F7, Key_F8, Key_F9, Key_F10,
   Key_F11, Key_F12, Key_F13, Key_F14, Key_F15, Key_F16, Key_F17, Key_F18, Key_F19, Key_F20,
   Key_F21, Key_F22, Key_F23, Key_F24, Key_F25, Key_F26, Key_F27, Key_F28, Key_F29, Key_F30,
   Key_F31, Key_F32, Key_F33, Key_F34, Key_F35]

/-- The digit keys `Key_0 .. Key_9`, in order. -/
def blockDigit : List Key :=
  [Key_0, Key_1, Key_2, Key_3, Key_4, Key_5, Key_6, Key_7, Key_8, Key_9]

/-- The letter keys `Key_A .. Key_Z`, in order. -/
def blockLetter : List Key :=
  [Key_A, Key_B, Key_C, Key_D, Key_E, Key_F, Key_G, Key_H, Key_I, Key_J,
   Key_K, Key_L, Key_M, Key_N, Key_O, Key_P, Key_Q, Key_R, Key_S, Key_T,
   Key_U, Key_V, Key_W, Key_X, Key_Y, Key_Z]

/-- The keypad digit keys `Key_Keypad0 .. Key_Keypad9`, in order. -/
def blockKeypad : List Key :=
  [Key_Keypad0, Key_Keypad1, Key_Keypad2, Key_Keypad3, Key_Keypad4,
   Key_Keypad5, Key_Keypad6, Key_Keypad7, Key_Keypad8, Key_Keypad9]

/-- The enumerators of each of the four blocks are declared one after another, so that
their values are consecutive integers.  The range shortcuts of `Window_MapKey`
(`Key_F1 + (key - VK_F1)` and the like) rely on exactly this. -/
def Blocks (K : KeyEnum) : Prop :=
  blockF.map K = List.range' (K Key_F1) 35 ∧
  blockDigit.map K = List.range' (K Key_0) 10 ∧
  blockLetter.map K = List.range' (K Key_A) 26 ∧
  blockKeypad.map K = List.range' (K Key_Keypad0) 10

instance (K : KeyEnum) : Decidable (Blocks K) := by
  unfold Blocks
  infer_instance

/-- The value is that of some declared enumerator (`Key_None` included). -/
def Declared (K : KeyEnum) (v : Nat) : Prop := ∃ k : Key, v = K k

/-- The numbering a C compiler gives when no enumerator has an explicit value and the
enumerators are listed in the order of `Key`: `Key_None = 0`, `Key_ShiftLeft = 1`, ... -/
def inOrder : KeyEnum := fun k => k.toCtorIdx

end KeyEnum

/-- The association list of a C `switch` whose cases all `return`: the first (and, in C,
only) case label equal to the scrutinee selects the result, otherwise control falls out
of the switch to `dflt`. -/
def switchReturn (cases : List (Nat × Key)) (dflt : Key) (scrutinee : Nat) : Key :=
  (cases.lookup scrutinee).getD dflt

/-! ## Win32 backend: key mapping -/

namespace Win32

/-! Virtual key codes of `<winuser.h>`. -/
def VK_BACK : Nat := 0x08
def VK_TAB : Nat := 0x09
def VK_RETURN : Nat := 0x0D
def VK_SHIFT : Nat := 0x10
def VK_CONTROL : Nat := 0x11
def VK_MENU : Nat := 0x12
def VK_PAUSE : Nat := 0x13
def VK_CAPITAL : Nat := 0x14
def VK_ESCAPE : Nat := 0x1B
def VK_SPACE : Nat := 0x20
def VK_PRIOR : Nat := 0x21
def VK_NEXT : Nat := 0x22
def VK_END : Nat := 0x23
def VK_HOME : Nat := 0x24
def VK_LEFT : Nat := 0x25
def VK_UP : Nat := 0x26
def VK_RIGHT : Nat := 0x27
def VK_DOWN : Nat := 0x28
def VK_PRINT : Nat := 0x2A
def VK_SNAPSHOT : Nat := 0x2C
def VK_INSERT : Nat := 0x2D
def VK_DELETE : Nat := 0x2E
def VK_LWIN : Nat := 0x5B
def VK_RWIN : Nat := 0x5C
def VK_APPS : Nat := 0x5D
def VK_NUMPAD0 : Nat := 0x60
def VK_NUMPAD9 : Nat := 0x69
def VK_MULTIPLY : Nat := 0x6A
def VK_ADD : Nat := 0x6B
def VK_SUBTRACT : Nat := 0x6D
def VK_DECIMAL : Nat := 0x6E
def VK_DIVIDE : Nat := 0x6F
def VK_F1 : Nat := 0x70
def VK_F24 : Nat := 0x87
def VK_NUMLOCK : Nat := 0x90
def VK_SCROLL : Nat := 0x91
def VK_LSHIFT : Nat := 0xA0
def VK_RSHIFT : Nat := 0xA1
def VK_LCONTROL : Nat := 0xA2
def VK_RCONTROL : Nat := 0xA3
def VK_LMENU : Nat := 0xA4
def VK_RMENU : Nat := 0xA5
def VK_OEM_1 : Nat := 0xBA
def VK_OEM_PLUS : Nat := 0xBB
def VK_OEM_COMMA : Nat := 0xBC
def VK_OEM_MINUS : Nat := 0xBD
def VK_OEM_PERIOD : Nat := 0xBE
def VK_OEM_2 : Nat := 0xBF
def VK_OEM_3 : Nat := 0xC0
def VK_OEM_4 : Nat := 0xDB
def VK_OEM_5 : Nat := 0xDC
def VK_OEM_6 : Nat := 0xDD
def VK_OEM_7 : Nat := 0xDE

/-- The character constants `'0'`, `'9'`, `'A'`, `'Z'` of the range tests. -/
def chr_0 : Nat := 0x30
def chr_9 : Nat := 0x39
def chr_A : Nat := 0x41
def chr_Z : Nat := 0x5A

/-- The `switch (key)` of `Window_MapKey`, case by case. -/
def Window_MapKey_switch : List (Nat × Key) :=
  [(VK_ESCAPE, Key_Escape), (VK_TAB, Key_Tab), (VK_CAPITAL, Key_CapsLock),
   (VK_LCONTROL, Key_ControlLeft), (VK_LSHIFT, Key_ShiftLeft), (VK_LWIN, Key_WinLeft),
   (VK_LMENU, Key_AltLeft), (VK_SPACE, Key_Space), (VK_RMENU, Key_AltRight),
   (VK_RWIN, Key_WinRight), (VK_APPS, Key_Menu), (VK_RCONTROL, Key_ControlRight),
   (VK_RSHIFT, Key_ShiftRight), (VK_RETURN, Key_Enter), (VK_BACK, Key_BackSpace),
   (VK_OEM_1, Key_Semicolon), (VK_OEM_2, Key_Slash), (VK_OEM_3, Key_Tilde),
   (VK_OEM_4, Key_BracketLeft), (VK_OEM_5, Key_BackSlash), (VK_OEM_6, Key_BracketRight),
   (VK_OEM_7, Key_Quote), (VK_OEM_PLUS, Key_Plus), (VK_OEM_COMMA, Key_Comma),
   (VK_OEM_MINUS, Key_Minus), (VK_OEM_PERIOD, Key_Period),
   (VK_HOME, Key_Home), (VK_END, Key_End), (VK_DELETE, Key_Delete), (VK_PRIOR, Key_PageUp),
   (VK_NEXT, Key_PageDown), (VK_PRINT, Key_PrintScreen), (VK_PAUSE, Key_Pause),
   (VK_NUMLOCK, Key_NumLock),
   (VK_SCROLL, Key_ScrollLock), (VK_SNAPSHOT, Key_PrintScreen), (VK_INSERT, Key_Insert),
   (VK_DECIMAL, Key_KeypadDecimal), (VK_ADD, Key_KeypadAdd),
   (VK_SUBTRACT, Key_KeypadSubtract), (VK_DIVIDE, Key_KeypadDivide),
   (VK_MULTIPLY, Key_KeypadMultiply),
   (VK_UP, Key_Up), (VK_DOWN, Key_Down), (VK_LEFT, Key_Left), (VK_RIGHT, Key_Right)]

/-- The function `static Key Window_MapKey(WPARAM key)` of the Win32 backend. -/
def Window_MapKey (K : KeyEnum) (key : Nat) : Nat :=
  if key ≥ VK_F1 ∧ key ≤ VK_F24 then K Key_F1 + (key - VK_F1)
  else if key ≥ chr_0 ∧ key ≤ chr_9 then K Key_0 + (key - chr_0)
  else if key ≥ chr_A ∧ key ≤ chr_Z then K Key_A + (key - chr_A)
  else if key ≥ VK_NUMPAD0 ∧ key ≤ VK_NUMPAD9 then K Key_Keypad0 + (key - VK_NUMPAD0)
  else K (switchReturn Window_MapKey_switch Key_None key)

end Win32

/-! ## X11 backend: key mapping -/

namespace X11

/-! Key symbols of `<X11/keysymdef.h>`. -/
def XK_BackSpace : Nat := 0xff08
def XK_Tab : Nat := 0xff09
def XK_Return : Nat := 0xff0d
def XK_Pause : Nat := 0xff13
def XK_Scroll_Lock : Nat := 0xff14
def XK_Sys_Req : Nat := 0xff15
def XK_Escape : Nat := 0xff1b
def XK_Delete : Nat := 0xffff
def XK_Home : Nat := 0xff50
def XK_Left : Nat := 0xff51
def XK_Up : Nat := 0xff52
def XK_Right : Nat := 0xff53
def XK_Down : Nat := 0xff54
def XK_Page_Up : Nat := 0xff55
def XK_Page_Down : Nat := 0xff56
def XK_End : Nat := 0xff57
def XK_Print : Nat := 0xff61
def XK_Insert : Nat := 0xff63
def XK_Menu : Nat := 0xff67
def XK_Break : Nat := 0xff6b
def XK_Num_Lock : Nat := 0xff7f
def XK_KP_Enter : Nat := 0xff8d
def XK_KP_Home : Nat := 0xff95
def XK_KP_Left : Nat := 0xff96
def XK_KP_Up : Nat := 0xff97
def XK_KP_Right : Nat := 0xff98
def XK_KP_Down : Nat := 0xff99
def XK_KP_Page_Up : Nat := 0xff9a
def XK_KP_Page_Down : Nat := 0xff9b
def XK_KP_End : Nat := 0xff9c
def XK_KP_Begin : Nat := 0xff9d
def XK_KP_Insert : Nat := 0xff9e
def XK_KP_Delete : Nat := 0xff9f
def XK_KP_Multiply : Nat := 0xffaa
def XK_KP_Add : Nat := 0xffab
def XK_KP_Subtract : Nat := 0xffad
def XK_KP_Decimal : Nat := 0xffae
def XK_KP_Divide : Nat := 0xffaf
def XK_KP_0 : Nat := 0xffb0
def XK_KP_9 : Nat := 0xffb9
def XK_F1 : Nat := 0xffbe
def XK_F35 : Nat := 0xffe0
def XK_Shift_L : Nat := 0xffe1
def XK_Shift_R : Nat := 0xffe2
def XK_Control_L : Nat := 0xffe3
def XK_Control_R : Nat := 0xffe4
def XK_Caps_Lock : Nat := 0xffe5
def XK_Meta_L : Nat := 0xffe7
def XK_Meta_R : Nat := 0xffe8
def XK_Alt_L : Nat := 0xffe9
def XK_Alt_R : Nat := 0xffea
def XK_Super_L : Nat := 0xffeb
def XK_Super_R : Nat := 0xffec
def XK_space : Nat := 0x20
def XK_quotedbl : Nat := 0x22
def XK_quoteright : Nat := 0x27
def XK_plus : Nat := 0x2b
def XK_comma : Nat := 0x2c
def XK_minus : Nat := 0x2d
def XK_period : Nat := 0x2e
def XK_slash : Nat := 0x2f
def XK_0 : Nat := 0x30
def XK_9 : Nat := 0x39
def XK_colon : Nat := 0x3a
def XK_semicolon : Nat := 0x3b
def XK_less : Nat := 0x3c
def XK_equal : Nat := 0x3d
def XK_greater : Nat := 0x3e
def XK_question : Nat := 0x3f
def XK_A : Nat := 0x41
def XK_Z : Nat := 0x5a
def XK_bracketleft : Nat := 0x5b
def XK_backslash : Nat := 0x5c
def XK_bracketright : Nat := 0x5d
def XK_quoteleft : Nat := 0x60
def XK_a : Nat := 0x61
def XK_z : Nat := 0x7a
def XK_braceleft : Nat := 0x7b
def XK_bar : Nat := 0x7c
def XK_braceright : Nat := 0x7d
def XK_asciitilde : Nat := 0x7e

/-- The `switch (key)` of `Window_MapKey`, case by case. -/
def Window_MapKey_switch : List (Nat × Key) :=
  [(XK_Escape, Key_Escape), (XK_Return, Key_Enter), (XK_space, Key_Space),
   (XK_BackSpace, Key_BackSpace),
   (XK_Shift_L, Key_ShiftLeft), (XK_Shift_R, Key_ShiftRight), (XK_Alt_L, Key_AltLeft),
   (XK_Alt_R, Key_AltRight), (XK_Control_L, Key_ControlLeft),
   (XK_Control_R, Key_ControlRight), (XK_Super_L, Key_WinLeft), (XK_Super_R, Key_WinRight),
   (XK_Meta_L, Key_WinLeft), (XK_Meta_R, Key_WinRight),
   (XK_Menu, Key_Menu), (XK_Tab, Key_Tab), (XK_minus, Key_Minus), (XK_plus, Key_Plus),
   (XK_equal, Key_Plus),
   (XK_Caps_Lock, Key_CapsLock), (XK_Num_Lock, Key_NumLock),
   (XK_Pause, Key_Pause), (XK_Break, Key_Pause), (XK_Scroll_Lock, Key_ScrollLock),
   (XK_Insert, Key_Insert), (XK_Print, Key_PrintScreen), (XK_Sys_Req, Key_PrintScreen),
   (XK_backslash, Key_BackSlash), (XK_bar, Key_BackSlash), (XK_braceleft, Key_BracketLeft),
   (XK_bracketleft, Key_BracketLeft), (XK_braceright, Key_BracketRight),
   (XK_bracketright, Key_BracketRight), (XK_colon, Key_Semicolon),
   (XK_semicolon, Key_Semicolon), (XK_quoteright, Key_Quote), (XK_quotedbl, Key_Quote),
   (XK_quoteleft, Key_Tilde), (XK_asciitilde, Key_Tilde),
   (XK_comma, Key_Comma), (XK_less, Key_Comma), (XK_period, Key_Period),
   (XK_greater, Key_Period), (XK_slash, Key_Slash), (XK_question, Key_Slash),
   (XK_Left, Key_Left), (XK_Down, Key_Down), (XK_Right, Key_Right), (XK_Up, Key_Up),
   (XK_Delete, Key_Delete), (XK_Home, Key_Home), (XK_End, Key_End),
   (XK_Page_Up, Key_PageUp), (XK_Page_Down, Key_PageDown),
   (XK_KP_Add, Key_KeypadAdd), (XK_KP_Subtract, Key_KeypadSubtract),
   (XK_KP_Multiply, Key_KeypadMultiply), (XK_KP_Divide, Key_KeypadDivide),
   (XK_KP_Decimal, Key_KeypadDecimal), (XK_KP_Insert, Key_Keypad0),
   (XK_KP_End, Key_Keypad1), (XK_KP_Down, Key_Keypad2), (XK_KP_Page_Down, Key_Keypad3),
   (XK_KP_Left, Key_Keypad4), (XK_KP_Begin, Key_Keypad5), (XK_KP_Right, Key_Keypad6),
   (XK_KP_Home, Key_Keypad7), (XK_KP_Up, Key_Keypad8), (XK_KP_Page_Up, Key_Keypad9),
   (XK_KP_Delete, Key_KeypadDecimal), (XK_KP_Enter, Key_KeypadEnter)]

/-- The function `static Key Window_MapKey(KeySym key)` of the X11 backend. -/
def Window_MapKey (K : KeyEnum) (key : Nat) : Nat :=
  if key ≥ XK_F1 ∧ key ≤ XK_F35 then K Key_F1 + (key - XK_F1)
  else if key ≥ XK_0 ∧ key ≤ XK_9 then K Key_0 + (key - XK_0)
  else if key ≥ XK_A ∧ key ≤ XK_Z then K Key_A + (key - XK_A)
  else if key ≥ XK_a ∧ key ≤ XK_z then K Key_A + (key - XK_a)
  else if key ≥ XK_KP_0 ∧ key ≤ XK_KP_9 then K Key_Keypad0 + (key - XK_KP_0)
  else K (switchReturn Window_MapKey_switch Key_None key)

end X11

/-! ## Carbon backend: key mapping -/

namespace Carbon

/-- The `switch (key)` of `Window_MapKey`, case by case. -/
def Window_MapKey_switch : List (Nat × Key) :=
  [(0x00, Key_A), (0x01, Key_S), (0x02, Key_D), (0x03, Key_F), (0x04, Key_H),
   (0x05, Key_G), (0x06, Key_Z), (0x07, Key_X), (0x08, Key_C), (0x09, Key_V),
   (0x0B, Key_B), (0x0C, Key_Q), (0x0D, Key_W), (0x0E, Key_E), (0x0F, Key_R),
   (0x10, Key_Y), (0x11, Key_T), (0x12, Key_1), (0x13, Key_2), (0x14, Key_3),
   (0x15, Key_4), (0x16, Key_6), (0x17, Key_5), (0x18, Key_Plus), (0x19, Key_9),
   (0x1A, Key_7), (0x1B, Key_Minus), (0x1C, Key_8), (0x1D, Key_0),
   (0x1E, Key_BracketRight), (0x1F, Key_O),
   (0x20, Key_U), (0x21, Key_BracketLeft), (0x22, Key_I), (0x23, Key_P),
   (0x24, Key_Enter), (0x25, Key_L), (0x26, Key_J), (0x27, Key_Quote), (0x28, Key_K),
   (0x29, Key_Semicolon), (0x2A, Key_BackSlash), (0x2B, Key_Comma), (0x2C, Key_Slash),
   (0x2D, Key_N), (0x2E, Key_M), (0x2F, Key_Period),
   (0x30, Key_Tab), (0x31, Key_Space), (0x32, Key_Tilde), (0x33, Key_BackSpace),
   (0x35, Key_Escape), (0x39, Key_CapsLock),
   (0x41, Key_KeypadDecimal), (0x43, Key_KeypadMultiply), (0x45, Key_KeypadAdd),
   (0x4B, Key_KeypadDivide), (0x4C, Key_KeypadEnter), (0x4E, Key_KeypadSubtract),
   (0x51, Key_KeypadEnter), (0x52, Key_Keypad0), (0x53, Key_Keypad1), (0x54, Key_Keypad2),
   (0x55, Key_Keypad3), (0x56, Key_Keypad4), (0x57, Key_Keypad5), (0x58, Key_Keypad6),
   (0x59, Key_Keypad7), (0x5B, Key_Keypad8), (0x5C, Key_Keypad9), (0x5D, Key_N),
   (0x5E, Key_M), (0x5F, Key_Period),
   (0x60, Key_F5), (0x61, Key_F6), (0x62, Key_F7), (0x63, Key_F3), (0x64, Key_F8),
   (0x65, Key_F9), (0x67, Key_F11), (0x69, Key_F13), (0x6B, Key_F14), (0x6D, Key_F10),
   (0x6F, Key_F12),
   (0x70, Key_U), (0x71, Key_F15), (0x72, Key_Insert), (0x73, Key_Home),
   (0x74, Key_PageUp), (0x75, Key_Delete), (0x76, Key_F4), (0x77, Key_End),
   (0x78, Key_F2), (0x79, Key_PageDown), (0x7A, Key_F1), (0x7B, Key_Left),
   (0x7C, Key_Right), (0x7D, Key_Down), (0x7E, Key_Up)]

/-- The function `static Key Window_MapKey(UInt32 key)` of the Carbon backend. -/
def Window_MapKey (K : KeyEnum) (key : Nat) : Nat :=
  K (switchReturn Window_MapKey_switch Key_None key)

end Carbon

/-! ## Shared data model -/

/-- The type `Rect2D` of the shared headers: an integer rectangle. -/
structure Rect2D where
  X : Int
  Y : Int
  Width : Int
  Height : Int
  deriving DecidableEq, Repr

/-- The type `Size2D` of the shared headers. -/
structure Size2D where
  Width : Int
  Height : Int
  deriving DecidableEq, Repr

/-- Modelled from the spec: the window states of `Window.h` (a header that is not part of
the sources at hand), "enumeration {Normal, Minimised, Maximised, Fullscreen}". -/
inductive WindowState where
  | WINDOW_STATE_NORMAL
  | WINDOW_STATE_MINIMISED
  | WINDOW_STATE_MAXIMISED
  | WINDOW_STATE_FULLSCREEN
  deriving DecidableEq, Repr

open WindowState

/-- The window notifications of `Event.h` raised through `Event_RaiseVoid`. -/
inductive WindowEvent where
  | WindowEvents_Moved
  | WindowEvents_Resized
  | WindowEvents_StateChanged
  | WindowEvents_FocusChanged
  | WindowEvents_VisibilityChanged
  | WindowEvents_Closing
  | WindowEvents_Closed
  | WindowEvents_Redraw
  deriving DecidableEq, Repr

open WindowEvent

/-- The mouse buttons of `Input.h`. -/
inductive MouseButton where
  | MouseButton_Left
  | MouseButton_Right
  | MouseButton_Middle
  deriving DecidableEq, Repr

open MouseButton

/-- The diagnostic lines the window layer hands to `Platform_Log*`. -/
inductive LogLine where
  /-- The line "Exit message received." -/
  | exitMessageReceived
  /-- The line "Window destroyed" -/
  | windowDestroyed
  /-- The line "keybard mapping refreshed" -/
  | keyboardMappingRefreshed
  /-- The line "Key %i not mapped, ignoring press." -/
  | keyNotMapped (code : Nat)
  /-- The line "Message Loop status: %i" -/
  | messageLoopStatus (res : Int)
  /-- The line "Display: %x, Screen %i, Root window: %h" -/
  | displayScreenRoot
  /-- The line "Opening render window... " -/
  | openingRenderWindow
  /-- The line "Context create failed. Trying indirect..." -/
  | contextCreateFailed
  /-- The line "== WARNING: Context is not direct ==" -/
  | contextNotDirect
  /-- The line "Set VSync failed, error: %i" -/
  | setVSyncFailed (res : Int)
  /-- The line "Falling back to glXChooseVisual." -/
  | fallingBackToChooseVisual
  /-- The line "Unsetting AGL fullscreen." -/
  | unsettingFullscreen
  /-- The line "Switching to AGL fullscreen" -/
  | switchingToFullscreen
  /-- The line "Processing apple event." -/
  | processingAppleEvent
  deriving DecidableEq, Repr

/-- A `String` of `String.h`: the characters in use (`length` of them) and the capacity of
the backing buffer. -/
structure CString where
  chars : List Nat
  capacity : Nat
  deriving DecidableEq, Repr

namespace CString

/-- The `length` field. -/
def length (s : CString) : Nat := s.chars.length

/-- The assignment `s->length = 0`. -/
def clear (s : CString) : CString := { s with chars := [] }

/-- Modelled from the spec: `String_Append` of `String.c` (not part of the sources at
hand): the character is stored when the string is below its "bounded capacity" and
dropped otherwise. -/
def String_Append (s : CString) (c : Nat) : CString :=
  if s.chars.length < s.capacity then { s with chars := s.chars ++ [c] } else s

/-- Modelled from the spec: `String_Copy` of `String.c` (not part of the sources at hand):
the destination is emptied and the source appended to it character by character. -/
def String_Copy (dst src : CString) : CString :=
  src.chars.foldl String_Append dst.clear

end CString

/-- The conversions of the text collaborator (`Funcs.h`, `String.h`), whose code is not
part of the sources at hand; the window layer is parameterised over them, and over the
numbering of the key enumeration. -/
structure Collab where
  K : KeyEnum
  Convert_TryUnicodeToCP437 : Nat → Option Nat
  Convert_CP437ToUnicode : Nat → Nat
  String_DecodeUtf8 : CString → List Nat → CString
  Platform_ConvertString : CString → List Nat

/-- Modelled from the spec: the requested pixel format `struct GraphicsMode` (declared in a
header that is not part of the sources at hand): "color channel bit depths (R,G,B,A),
depth/stencil bits, buffer count, indexed-vs-RGBA flag". -/
structure GraphicsMode where
  R : Int
  G : Int
  B : Int
  A : Int
  DepthBits : Int
  StencilBits : Int
  Buffers : Int
  IsIndexed : Bool
  deriving DecidableEq, Repr

/-- The swap-interval entry points the backends look up by name. -/
inductive GLProc where
  | wglSwapIntervalEXT
  | glXSwapIntervalMESA
  | glXSwapIntervalSGI
  deriving DecidableEq, Repr

/-- The swap-control extensions a driver can name in its extension string. -/
inductive GLExtension where
  | WGL_EXT_swap_control
  | GLX_MESA_swap_control
  | GLX_SGI_swap_control
  deriving DecidableEq, Repr

/-- The fields of a `PIXELFORMATDESCRIPTOR` that `GLContext_SelectGraphicsMode` fills in. -/
structure PIXELFORMATDESCRIPTOR where
  dwFlags : Nat
  iPixelType : Nat
  cColorBits : Int
  cRedBits : Int
  cGreenBits : Int
  cBlueBits : Int
  cAlphaBits : Int
  cDepthBits : Int
  cStencilBits : Int
  deriving DecidableEq, Repr

/-- The fields of an `XVisualInfo` the window layer reads. -/
structure XVisualInfo where
  visual : Nat
  depth : Int
  deriving DecidableEq, Repr

/-- How a function that can reach `ErrorHandler_Fail` ended: it returned a value, or the
error handler ended the process. -/
inductive Ended (α : Type) (σ : Type) where
  | returned (value : α) (s : σ)
  | failed (s : σ)
  deriving DecidableEq, Repr

/-- The state a function ended in. -/
def Ended.state {α σ : Type} : Ended α σ → σ
  | Ended.returned _ s => s
  | Ended.failed s => s

/-- The calls into the Carbon layers that `Window_Create` of the Carbon backend makes, with
the arguments that matter. -/
inductive CarbonCall where
  | CreateNewWindow (left top right bottom : Int)
  | MoveWindow (window : Nat) (x y : Int)
  | AcquireRootMenu
  | GetCurrentProcess
  | TransformProcessType
  | SetFrontProcess
  | InstallEventHandler
  deriving DecidableEq, Repr

/-- The calls into the native layers that window creation, resizing, the Carbon event loop
and the OpenGL contexts make, with the arguments that matter: Xlib, Carbon, WGL, GLX, and
AGL with the display capture calls that go with it. -/
inductive NativeCall where
  /- Xlib -/
  | XResizeWindow (window : Nat) (width height : Int)
  | XCreateColormap (visual : Nat)
  | XCreateWindow (x y width height depth : Int) (visual : Nat)
  | XSetWMNormalHints (window : Nat) (base_width base_height : Int)
  | XSetWMProtocols (window atom : Nat)
  | XkbSetDetectableAutoRepeat
  /- Carbon -/
  | ReceiveNextEvent
  | SendEventToEventTarget
  | ReleaseEvent
  | AEProcessAppleEvent
  | ZoomWindowIdeal (window : Nat) (zoomOut : Bool) (v h : Int)
  | CollapseWindow (window : Nat) (collapse : Bool)
  | SizeWindow (window : Nat) (width height : Int)
  | carbon (c : CarbonCall)
  /- WGL -/
  | ChoosePixelFormat (dc : Nat) (pfd : PIXELFORMATDESCRIPTOR)
  | DescribePixelFormat (dc : Nat) (index : Int)
  | SetPixelFormat (dc : Nat) (index : Int)
  | wglCreateContext (dc : Nat)
  | wglMakeCurrent (dc context : Nat)
  | wglGetCurrentDC
  | wglGetProcAddress (function : GLProc)
  | wglSwapIntervalEXT (interval : Nat)
  /- GLX -/
  | glXQueryVersion
  | glXChooseFBConfig (attribs : List Int)
  | glXGetVisualFromFBConfig
  | glXChooseVisual (attribs : List Int)
  | glXCreateContext (visual : Nat) (direct : Bool)
  | glXIsDirect (context : Nat)
  | glXMakeCurrent (window context : Nat)
  | glXQueryExtensionsString
  | glXGetProcAddress (function : GLProc)
  | glXSwapIntervalMESA (interval : Nat)
  | glXSwapIntervalSGI (interval : Nat)
  /- AGL -/
  | aglSetDrawable (context port : Nat)
  | aglUpdateContext (context : Nat)
  | aglSetCurrentContext (context : Nat)
  | aglSetFullScreen (context : Nat) (width height : Int)
  | aglGetError
  | CGDisplayCapture
  | CGDisplayRelease
  deriving DecidableEq, Repr

/-- One observable step of the window layer: a call into a collaborator or into the
native window system, with the arguments that matter. -/
inductive Call where
  /- collaborators -/
  | Event_RaiseVoid (e : WindowEvent)
  | Event_RaiseInt_KeyPress (c : Nat)
  | Key_SetPressed (key : Nat) (pressed : Bool)
  | Key_Clear
  | Mouse_SetPressed (button : MouseButton) (pressed : Bool)
  | Mouse_SetPosition (x y : Int)
  | Mouse_SetWheel (deltaNum : Int) (deltaDen : Nat)
  | Platform_Log (line : LogLine)
  | Thread_Sleep (milliseconds : Nat)
  | ErrorHandler_Fail
  /- Win32 -/
  | DestroyWindow (hwnd : Nat)
  | SetWindowPos (hwnd : Nat) (x y cx cy : Int) (flags : Nat)
  | SetWindowLong (hwnd : Nat) (index : Int) (value : Nat)
  | ShowWindow (hwnd : Nat) (command : Nat)
  | BringWindowToTop (hwnd : Nat)
  | SetForegroundWindow (hwnd : Nat)
  | DefWindowProc
  | UnregisterClass
  | ReleaseDC (hwnd dc : Nat)
  | PeekMessage
  | TranslateMessage
  | DispatchMessage
  | OpenClipboard (hwnd : Nat)
  | CloseClipboard
  | GetClipboardData (format : Nat)
  | GlobalAlloc (bytes : Nat)
  | GlobalLock
  | GlobalUnlock
  | EmptyClipboard
  | SetClipboardData (format : Nat) (text : List Nat)
  /- X11 -/
  | XSync (discard : Bool)
  | XDestroyWindow (window : Nat)
  | XCheckEvent
  | XGetSelectionOwner (selection : Nat)
  | XConvertSelection (selection target property requestor time : Nat)
  | XSetSelectionOwner (selection owner time : Nat)
  | XGetWindowProperty (window property : Nat)
  | XDeleteProperty (window property : Nat)
  | XChangeProperty (window property type format : Nat) (data : List Nat)
  | XSendEvent_SelectionNotify (requestor selection target property time : Nat)
  | XRefreshKeyboardMapping
  | XLookupString
  /- Carbon -/
  | DisposeWindow (window : Nat)
  /- further native calls -/
  | api (c : NativeCall)
  deriving DecidableEq, Repr

open Call

/-! ## Win32 backend: window procedure and window state -/

namespace Win32

/-! Constants of `<winuser.h>`. -/
def SIZE_RESTORED : Nat := 0
def SIZE_MINIMIZED : Nat := 1
def SIZE_MAXIMIZED : Nat := 2
def SW_HIDE : Nat := 0
def SW_MAXIMIZE : Nat := 3
def SW_SHOW : Nat := 5
def SW_MINIMIZE : Nat := 6
def SW_RESTORE : Nat := 9
def GWL_STYLE : Int := -16
def WS_POPUP : Nat := 0x80000000
def WS_THICKFRAME : Nat := 0x00040000
def WS_OVERLAPPEDWINDOW : Nat := 0x00CF0000
def WS_CLIPCHILDREN : Nat := 0x02000000
def WS_CLIPSIBLINGS : Nat := 0x04000000
def SWP_NOSIZE : Nat := 0x0001
def SWP_NOMOVE : Nat := 0x0002
def SWP_NOZORDER : Nat := 0x0004
def SWP_NOACTIVATE : Nat := 0x0010
def SWP_FRAMECHANGED : Nat := 0x0020
def SWP_NOOWNERZORDER : Nat := 0x0200
def SWP_NOSENDCHANGING : Nat := 0x0400
def WHEEL_DELTA : Nat := 120
def CF_TEXT : Nat := 1
def CF_UNICODETEXT : Nat := 13

/-- The macro `LOWORD` of `<windef.h>`. -/
def LOWORD (x : Nat) : Nat := x % 65536
/-- The macro `HIWORD` of `<windef.h>`. -/
def HIWORD (x : Nat) : Nat := (x / 65536) % 65536
/-- The cast `(short)` of a 16-bit word. -/
def toShort (w : Nat) : Int := if w < 32768 then (w : Int) else (w : Int) - 65536

/-- A `RECT` of `<windef.h>`. -/
structure RECT where
  left : Int
  top : Int
  right : Int
  bottom : Int
  deriving DecidableEq, Repr

/-- The macro `Rect_Width`. -/
def Rect_Width (rect : RECT) : Int := rect.right - rect.left
/-- The macro `Rect_Height`. -/
def Rect_Height (rect : RECT) : Int := rect.bottom - rect.top

/-- The four keyboard messages that share one `case` of `Window_Procedure`. -/
inductive KeyMessage where
  | WM_KEYDOWN
  | WM_KEYUP
  | WM_SYSKEYDOWN
  | WM_SYSKEYUP
  deriving DecidableEq, Repr

/-- A message as `Window_Procedure` receives it: the message number, the parts of `wParam`
and `lParam` the procedure reads, and the answers of the queries it makes while handling
the message (`GetClientRect` for `client`, `GetKeyState` for the two Shift keys). -/
inductive Msg where
  | WM_ACTIVATE (wParam : Nat)
  | WM_ENTERMENULOOP
  | WM_ENTERSIZEMOVE
  | WM_EXITMENULOOP
  | WM_EXITSIZEMOVE
  | WM_ERASEBKGND
  | WM_WINDOWPOSCHANGED (hwnd : Nat) (x y cx cy : Int) (client : RECT)
  | WM_STYLECHANGED (wParam : Int) (styleNew : Nat)
  | WM_SIZE (wParam : Nat)
  | WM_CHAR (wParam : Nat)
  | WM_MOUSEMOVE (wParam lParam : Nat)
  | WM_MOUSEWHEEL (wParam : Nat)
  | WM_LBUTTONDOWN
  | WM_MBUTTONDOWN
  | WM_RBUTTONDOWN
  | WM_XBUTTONDOWN (wParam : Nat)
  | WM_LBUTTONUP
  | WM_MBUTTONUP
  | WM_RBUTTONUP
  | WM_XBUTTONUP (wParam : Nat)
  | key (message : KeyMessage) (wParam lParam : Nat) (lShiftDown rShiftDown : Bool)
  | WM_SYSCHAR
  | WM_KILLFOCUS
  | WM_CREATE (hwndParent : Nat) (x y cx cy : Int) (client : RECT)
  | WM_CLOSE
  | WM_DESTROY
  | other (message : Nat)
  deriving DecidableEq, Repr

/-- The file-level variables of the Win32 backend (with the shared `Window_*` globals) and
the trace of calls made so far. -/
structure State where
  Window_Exists : Bool
  Window_Focused : Bool
  Window_Bounds : Rect2D
  Window_ClientSize : Size2D
  win_handle : Nat
  win_DC : Nat
  win_state : WindowState
  invisible_since_creation : Bool
  suppress_resize : Int
  prev_bounds : Rect2D
  win_hiddenBorder : Bool
  trace : List Call
  ctx_Handle : Nat := 0
  ctx_DC : Nat := 0
  wglSwapIntervalEXT : Nat := 0
  ctx_supports_vSync : Bool := false
  deriving DecidableEq, Repr

/-- What Windows answers.  Every answer may depend on all calls made so far (the trace,
whose last entry is the call being answered).
* `deliver`: the messages Windows hands to `Window_Procedure` on behalf of a call, before
  that call returns (for `PeekMessage`: the messages taken off the queue until it is empty);
* `isWindowVisible`, `foregroundWindow`, `openClipboard`, `globalAlloc`,
  `clipboardData`: the results of the queries of these names;
* `adjustWindowRect`: the frame arithmetic of `AdjustWindowRect` for a style. -/
structure OS where
  deliver : List Call → List Msg
  isWindowVisible : List Call → Bool
  foregroundWindow : List Call → Nat
  adjustWindowRect : RECT → Nat → RECT
  openClipboard : List Call → Bool
  globalAlloc : List Call → Bool
  clipboardData : List Call → Nat → Option (List Nat)

/-- Append one call to the trace. -/
def call (c : Call) (s : State) : State := { s with trace := s.trace ++ [c] }

/-- The function `static void Window_Destroy(void)`. -/
def Window_Destroy (s : State) : State :=
  if !s.Window_Exists then s
  else { call (DestroyWindow s.win_handle) s with Window_Exists := false }

/-- The function `static void Window_UpdateClientSize(HWND handle)`; `rect` is what `GetClientRect`
fills in. -/
def Window_UpdateClientSize (rect : RECT) (s : State) : State :=
  { s with Window_ClientSize := { Width := Rect_Width rect, Height := Rect_Height rect } }

/-- The `WM_SIZE` case of `Window_Procedure`: the new window state. -/
def sizeState (wParam : Nat) (s : State) : WindowState :=
  if wParam = SIZE_RESTORED then WINDOW_STATE_NORMAL
  else if wParam = SIZE_MINIMIZED then WINDOW_STATE_MINIMISED
  else if wParam = SIZE_MAXIMIZED then
    (if s.win_hiddenBorder then WINDOW_STATE_FULLSCREEN else WINDOW_STATE_MAXIMISED)
  else s.win_state

/-- The shared keyboard case of `Window_Procedure` (it ends in `return 0` on every path). -/
def Window_Procedure_key (C : Collab) (message : KeyMessage) (wParam lParam : Nat)
    (lShiftDown rShiftDown : Bool) (s : State) : State :=
  let pressed : Bool := message = KeyMessage.WM_KEYDOWN ∨ message = KeyMessage.WM_SYSKEYDOWN
  let extended : Bool := (lParam / 2 ^ 24) % 2 ≠ 0
  if wParam = VK_SHIFT then
    if !pressed ∨ lShiftDown ≠ rShiftDown then
      call (Key_SetPressed (C.K Key_ShiftRight) rShiftDown)
        (call (Key_SetPressed (C.K Key_ShiftLeft) lShiftDown) s)
    else s
  else if wParam = VK_CONTROL then
    if extended then call (Key_SetPressed (C.K Key_ControlRight) pressed) s
    else call (Key_SetPressed (C.K Key_ControlLeft) pressed) s
  else if wParam = VK_MENU then
    if extended then call (Key_SetPressed (C.K Key_AltRight) pressed) s
    else call (Key_SetPressed (C.K Key_AltLeft) pressed) s
  else if wParam = VK_RETURN then
    if extended then call (Key_SetPressed (C.K Key_KeypadEnter) pressed) s
    else call (Key_SetPressed (C.K Key_Enter) pressed) s
  else
    let mappedKey := Window_MapKey C.K wParam
    if mappedKey ≠ C.K Key_None then call (Key_SetPressed mappedKey pressed) s
    else s

/-- The function `static LRESULT CALLBACK Window_Procedure(HWND, UINT, WPARAM, LPARAM)`.  The cases
that `break` end in `DefWindowProc`; the cases that `return` do not.  Native calls made
from inside the procedure are recorded in the trace; messages Windows sends in response
to them are taken to arrive as later messages of the same delivery. -/
def Window_Procedure (C : Collab) (m : Msg) (s : State) : State :=
  match m with
  | Msg.WM_ACTIVATE wParam =>
    let wasFocused := s.Window_Focused
    let s := { s with Window_Focused := LOWORD wParam ≠ 0 }
    let s := if s.Window_Focused ≠ wasFocused then call (Event_RaiseVoid WindowEvents_FocusChanged) s
             else s
    call DefWindowProc s
  | Msg.WM_ENTERMENULOOP => call DefWindowProc s
  | Msg.WM_ENTERSIZEMOVE => call DefWindowProc s
  | Msg.WM_EXITMENULOOP => call DefWindowProc s
  | Msg.WM_EXITSIZEMOVE => call DefWindowProc s
  | Msg.WM_ERASEBKGND => call (Event_RaiseVoid WindowEvents_Redraw) s
  | Msg.WM_WINDOWPOSCHANGED hwnd x y cx cy client =>
    if hwnd ≠ s.win_handle then call DefWindowProc s
    else
      let s :=
        if x ≠ s.Window_Bounds.X ∨ y ≠ s.Window_Bounds.Y then
          call (Event_RaiseVoid WindowEvents_Moved)
            { s with Window_Bounds := { s.Window_Bounds with X := x, Y := y } }
        else s
      let s :=
        if cx ≠ s.Window_Bounds.Width ∨ cy ≠ s.Window_Bounds.Height then
          let s := { s with Window_Bounds := { s.Window_Bounds with Width := cx, Height := cy } }
          let s := Window_UpdateClientSize client s
          let s := call (SetWindowPos s.win_handle s.Window_Bounds.X s.Window_Bounds.Y
            s.Window_Bounds.Width s.Window_Bounds.Height
            (SWP_NOZORDER ||| SWP_NOOWNERZORDER ||| SWP_NOACTIVATE ||| SWP_NOSENDCHANGING)) s
          if s.suppress_resize ≤ 0 then call (Event_RaiseVoid WindowEvents_Resized) s else s
        else s
      call DefWindowProc s
  | Msg.WM_STYLECHANGED wParam styleNew =>
    let s :=
      if wParam = GWL_STYLE then
        if styleNew &&& WS_POPUP ≠ 0 then { s with win_hiddenBorder := true }
        else if styleNew &&& WS_THICKFRAME ≠ 0 then { s with win_hiddenBorder := false }
        else s
      else s
    call DefWindowProc s
  | Msg.WM_SIZE wParam =>
    let new_state := sizeState wParam s
    let s :=
      if new_state ≠ s.win_state then
        call (Event_RaiseVoid WindowEvents_StateChanged) { s with win_state := new_state }
      else s
    call DefWindowProc s
  | Msg.WM_CHAR wParam =>
    let s := match C.Convert_TryUnicodeToCP437 (wParam % 65536) with
      | some keyChar => call (Event_RaiseInt_KeyPress keyChar) s
      | none => s
    call DefWindowProc s
  | Msg.WM_MOUSEMOVE wParam lParam =>
    let s := call (Mouse_SetPressed MouseButton_Left (wParam &&& 0x01 ≠ 0)) s
    let s := call (Mouse_SetPressed MouseButton_Right (wParam &&& 0x02 ≠ 0)) s
    let s := call (Mouse_SetPressed MouseButton_Middle (wParam &&& 0x10 ≠ 0)) s
    let s := call (Mouse_SetPosition (LOWORD lParam) (HIWORD lParam)) s
    call DefWindowProc s
  | Msg.WM_MOUSEWHEEL wParam => call (Mouse_SetWheel (toShort (HIWORD wParam)) WHEEL_DELTA) s
  | Msg.WM_LBUTTONDOWN => call DefWindowProc (call (Mouse_SetPressed MouseButton_Left true) s)
  | Msg.WM_MBUTTONDOWN => call DefWindowProc (call (Mouse_SetPressed MouseButton_Middle true) s)
  | Msg.WM_RBUTTONDOWN => call DefWindowProc (call (Mouse_SetPressed MouseButton_Right true) s)
  | Msg.WM_XBUTTONDOWN wParam =>
    call DefWindowProc (call (Key_SetPressed
      (if HIWORD wParam = 1 then C.K Key_XButton1 else C.K Key_XButton2) true) s)
  | Msg.WM_LBUTTONUP => call DefWindowProc (call (Mouse_SetPressed MouseButton_Left false) s)
  | Msg.WM_MBUTTONUP => call DefWindowProc (call (Mouse_SetPressed MouseButton_Middle false) s)
  | Msg.WM_RBUTTONUP => call DefWindowProc (call (Mouse_SetPressed MouseButton_Right false) s)
  | Msg.WM_XBUTTONUP wParam =>
    call DefWindowProc (call (Key_SetPressed
      (if HIWORD wParam = 1 then C.K Key_XButton1 else C.K Key_XButton2) false) s)
  | Msg.key message wParam lParam lShiftDown rShiftDown =>
    Window_Procedure_key C message wParam lParam lShiftDown rShiftDown s
  | Msg.WM_SYSCHAR => s
  | Msg.WM_KILLFOCUS => call DefWindowProc (call Key_Clear s)
  | Msg.WM_CREATE hwndParent x y cx cy client =>
    let s :=
      if hwndParent = 0 then
        let s := { s with Window_Bounds := { X := x, Y := y, Width := cx, Height := cy } }
        let s := Window_UpdateClientSize client s
        { s with invisible_since_creation := true }
      else s
    call DefWindowProc s
  | Msg.WM_CLOSE =>
    call DefWindowProc (Window_Destroy (call (Event_RaiseVoid WindowEvents_Closing) s))
  | Msg.WM_DESTROY =>
    let s := { s with Window_Exists := false }
    let s := call UnregisterClass s
    let s := if s.win_DC ≠ 0 then call (ReleaseDC s.win_handle s.win_DC) s else s
    call DefWindowProc (call (Event_RaiseVoid WindowEvents_Closed) s)
  | Msg.other _ => call DefWindowProc s

/-- Run `Window_Procedure` on the messages of one delivery, in order. -/
def dispatch (C : Collab) (msgs : List Msg) (s : State) : State :=
  msgs.foldl (fun s m => Window_Procedure C m s) s

/-- A native call that Windows may answer by sending messages to the window procedure
before it returns (`ShowWindow`, `SetWindowPos`, `SetWindowLong`, ...). -/
def native (os : OS) (C : Collab) (c : Call) (s : State) : State :=
  let s := call c s
  dispatch C (os.deliver s.trace) s

/-- The function `void Window_ProcessEvents(void)`: the `PeekMessage` loop takes the queued messages
one by one and dispatches each; the last `PeekMessage` finds the queue empty. -/
def Window_ProcessEvents (os : OS) (C : Collab) (s : State) : State :=
  let queued := os.deliver (s.trace ++ [PeekMessage])
  let s := queued.foldl (fun s m =>
    Window_Procedure C m (call DispatchMessage (call TranslateMessage (call PeekMessage s)))) s
  let s := call PeekMessage s
  let foreground := os.foregroundWindow s.trace
  if foreground ≠ 0 then { s with Window_Focused := foreground = s.win_handle } else s

/-- The function `void Window_SetBounds(Rect2D rect)`. -/
def Window_SetBounds (os : OS) (C : Collab) (rect : Rect2D) (s : State) : State :=
  native os C (SetWindowPos s.win_handle rect.X rect.Y rect.Width rect.Height 0) s

/-- The function `bool Window_GetVisible(void)`. -/
def Window_GetVisible (os : OS) (s : State) : Bool := os.isWindowVisible s.trace

/-- The function `void Window_SetVisible(bool visible)`. -/
def Window_SetVisible (os : OS) (C : Collab) (visible : Bool) (s : State) : State :=
  if visible then
    let s := native os C (ShowWindow s.win_handle SW_SHOW) s
    if s.invisible_since_creation then
      let s := native os C (BringWindowToTop s.win_handle) s
      native os C (SetForegroundWindow s.win_handle) s
    else s
  else native os C (ShowWindow s.win_handle SW_HIDE) s

/-- The end of `Window_SetWindowState`, after the `switch`: show the window with the
chosen command, restore the border when leaving fullscreen (`restoreBorder` is the call
`Window_SetHiddenBorder(false)`), then restore the saved bounds. -/
def Window_SetWindowState_tail (os : OS) (C : Collab) (restoreBorder : State → Option State)
    (command : Nat) (exiting_fullscreen : Bool) (s : State) : Option State :=
  let s := if command ≠ 0 then native os C (ShowWindow s.win_handle command) s else s
  (if exiting_fullscreen then restoreBorder s else some s).map fun s =>
    if command = SW_RESTORE ∧ (s.prev_bounds.Width ≠ 0 ∨ s.prev_bounds.Height ≠ 0) then
      let s := Window_SetBounds os C s.prev_bounds s
      { s with prev_bounds := { s.prev_bounds with Width := 0, Height := 0 } }
    else s

mutual

/-- The function `void Window_SetWindowState(int state)`.  The functions of this group call each other
without a bound that the code itself enforces, so each takes the number of nested calls it
may still make and yields `none` when that runs out. -/
def Window_SetWindowState (os : OS) (C : Collab) :
    Nat → WindowState → State → Option State
  | 0, _, _ => none
  | fuel + 1, state, s =>
    if s.win_state = state then some s
    else
      match state with
      | WINDOW_STATE_NORMAL =>
        Window_SetWindowState_tail os C (Window_SetHiddenBorder os C fuel false)
          SW_RESTORE (s.win_state = WINDOW_STATE_FULLSCREEN) s
      | WINDOW_STATE_MAXIMISED =>
        (Window_ResetWindowState os C fuel s).bind fun s =>
          Window_SetWindowState_tail os C (Window_SetHiddenBorder os C fuel false)
            SW_MAXIMIZE false s
      | WINDOW_STATE_MINIMISED =>
        Window_SetWindowState_tail os C (Window_SetHiddenBorder os C fuel false)
          SW_MINIMIZE false s
      | WINDOW_STATE_FULLSCREEN =>
        (Window_ResetWindowState os C fuel s).bind fun s =>
          let s := { s with prev_bounds := s.Window_Bounds }
          (Window_SetHiddenBorder os C fuel true s).bind fun s =>
            let s := native os C (SetForegroundWindow s.win_handle) s
            Window_SetWindowState_tail os C (Window_SetHiddenBorder os C fuel false)
              SW_MAXIMIZE false s

/-- The function `static void Window_ResetWindowState(void)`. -/
def Window_ResetWindowState (os : OS) (C : Collab) : Nat → State → Option State
  | 0, _ => none
  | fuel + 1, s =>
    let s := { s with suppress_resize := s.suppress_resize + 1 }
    (Window_SetWindowState os C fuel WINDOW_STATE_NORMAL s).map fun s =>
      let s := Window_ProcessEvents os C s
      { s with suppress_resize := s.suppress_resize - 1 }

/-- The function `static void Window_DoSetHiddenBorder(bool value)`. -/
def Window_DoSetHiddenBorder (os : OS) (C : Collab) : Nat → Bool → State → Option State
  | 0, _, _ => none
  | fuel + 1, value, s =>
    if s.win_hiddenBorder = value then some s
    else
      let wasVisible := Window_GetVisible os s
      let state := s.win_state
      (Window_ResetWindowState os C fuel s).bind fun s =>
        let style := WS_CLIPCHILDREN ||| WS_CLIPSIBLINGS |||
          (if value then WS_POPUP else WS_OVERLAPPEDWINDOW)
        let rect : RECT :=
          { left := s.Window_Bounds.X, top := s.Window_Bounds.Y,
            right := s.Window_Bounds.X + s.Window_Bounds.Width,
            bottom := s.Window_Bounds.Y + s.Window_Bounds.Height }
        let rect := os.adjustWindowRect rect style
        let s := if wasVisible then Window_SetVisible os C false s else s
        let s := native os C (SetWindowLong s.win_handle GWL_STYLE style) s
        let s := native os C (SetWindowPos s.win_handle 0 0 (Rect_Width rect) (Rect_Height rect)
          (SWP_NOMOVE ||| SWP_NOZORDER ||| SWP_FRAMECHANGED)) s
        let s := if wasVisible then Window_SetVisible os C true s else s
        Window_SetWindowState os C fuel state s

/-- The function `static void Window_SetHiddenBorder(bool hidden)`. -/
def Window_SetHiddenBorder (os : OS) (C : Collab) : Nat → Bool → State → Option State
  | 0, _, _ => none
  | fuel + 1, hidden, s =>
    let s := { s with suppress_resize := s.suppress_resize + 1 }
    (Window_DoSetHiddenBorder os C fuel hidden s).map fun s =>
      let s := Window_ProcessEvents os C s
      { s with suppress_resize := s.suppress_resize - 1 }

end

end Win32

/-! ## Win32 backend: clipboard -/

namespace Win32

/-- The conversion of a `char` read from an ANSI clipboard text to the 16-bit `Codepoint`
argument of `Convert_TryUnicodeToCP437` (`char` is signed, so bytes from 128 up are
sign-extended). -/
def charToCodepoint (b : Nat) : Nat := if b < 128 then b else 0xFF00 + b % 256

/-- The two copy loops of `Window_GetClipboardText`: walk the text up to its terminating
NUL and append every unit that converts. -/
def appendConverted (C : Collab) (text : List Nat) (value : CString) : CString :=
  (text.takeWhile (fun u => u ≠ 0)).foldl (fun v u =>
    match C.Convert_TryUnicodeToCP437 u with
    | some c => v.String_Append c
    | none => v) value

/-- The body of the retry loop of `Window_GetClipboardText` once the clipboard is open. -/
def Window_GetClipboardText_opened (os : OS) (C : Collab) (value : CString) (s : State) :
    CString × State :=
  let s := call (GetClipboardData CF_UNICODETEXT) s
  match os.clipboardData s.trace CF_UNICODETEXT with
  | some text =>
    let s := call GlobalLock s
    let value := appendConverted C text value
    (value, call CloseClipboard (call GlobalUnlock s))
  | none =>
    let s := call (GetClipboardData CF_TEXT) s
    match os.clipboardData s.trace CF_TEXT with
    | none => (value, call CloseClipboard s)
    | some text =>
      let s := call GlobalLock s
      let value := appendConverted C (text.map charToCodepoint) value
      (value, call CloseClipboard (call GlobalUnlock s))

/-- The retry loop `for (i = 0; i < 50; i++)` of `Window_GetClipboardText`, with `n`
iterations left. -/
def Window_GetClipboardText_loop (os : OS) (C : Collab) :
    Nat → CString → State → CString × State
  | 0, value, s => (value, s)
  | n + 1, value, s =>
    let s := call (OpenClipboard s.win_handle) s
    if !os.openClipboard s.trace then
      Window_GetClipboardText_loop os C n value (call (Thread_Sleep 10) s)
    else Window_GetClipboardText_opened os C value s

/-- The function `void Window_GetClipboardText(String* value)`. -/
def Window_GetClipboardText (os : OS) (C : Collab) (value : CString) (s : State) :
    CString × State :=
  Window_GetClipboardText_loop os C 50 value.clear s

/-- The body of the retry loop of `Window_SetClipboardText` once the clipboard is open. -/
def Window_SetClipboardText_opened (os : OS) (C : Collab) (value : CString) (s : State) :
    State :=
  let s := call (GlobalAlloc ((value.length + 1) * 2)) s
  if !os.globalAlloc s.trace then call CloseClipboard s
  else
    let s := call GlobalLock s
    let text := value.chars.map C.Convert_CP437ToUnicode ++ [0]
    let s := call GlobalUnlock s
    let s := call EmptyClipboard s
    let s := call (SetClipboardData CF_UNICODETEXT text) s
    call CloseClipboard s

/-- The retry loop `for (i = 0; i < 10; i++)` of `Window_SetClipboardText`, with `n`
iterations left. -/
def Window_SetClipboardText_loop (os : OS) (C : Collab) (value : CString) :
    Nat → State → State
  | 0, s => s
  | n + 1, s =>
    let s := call (OpenClipboard s.win_handle) s
    if !os.openClipboard s.trace then
      Window_SetClipboardText_loop os C value n (call (Thread_Sleep 100) s)
    else Window_SetClipboardText_opened os C value s

/-- The function `void Window_SetClipboardText(const String* value)`. -/
def Window_SetClipboardText (os : OS) (C : Collab) (value : CString) (s : State) : State :=
  Window_SetClipboardText_loop os C value 10 s

end Win32

/-! ## X11 backend: events, window and clipboard -/

namespace X11

/-! Constants of `<X11/X.h>`. -/
def NotifyGrab : Nat := 1
def NotifyUngrab : Nat := 2
def MappingModifier : Nat := 0
def MappingKeyboard : Nat := 1

/-- The atoms `Window_RegisterAtoms` interns, and the two predefined ones. -/
structure Atoms where
  wm_destroy : Nat
  net_wm_state : Nat
  net_wm_state_minimized : Nat
  net_wm_state_fullscreen : Nat
  net_wm_state_maximized_horizontal : Nat
  net_wm_state_maximized_vertical : Nat
  net_wm_icon : Nat
  net_frame_extents : Nat
  xa_clipboard : Nat
  xa_targets : Nat
  xa_utf8_string : Nat
  xa_data_sel : Nat
  xa_atom : Nat := 4
  xa_cardinal : Nat := 6
  deriving DecidableEq, Repr

/-- What `XGetWindowProperty` hands back: the `data` pointer (`none` for `NULL`), the item
count and the property type. -/
structure PropertyReply where
  data : Option (List Int)
  items : Nat
  prop_type : Nat
  deriving DecidableEq, Repr

/-- An `XEvent` as `Window_ProcessEvents` reads it: the event type, the fields the handler
looks at, and the answers of the queries the handler makes while handling the event
(`XLookupKeysym`, `XLookupString`, `XGetWindowProperty`). -/
inductive XEvent where
  | MapNotify
  | UnmapNotify
  | ClientMessage (data0 : Nat)
  | DestroyNotify
  | ConfigureNotify (x y width height : Int) (frame_extents : PropertyReply)
  | Expose (count : Int)
  | KeyPress (keysym1 keysym2 : Nat) (text : List Nat)
  | KeyRelease (keysym1 keysym2 : Nat)
  | ButtonPress (button : Nat)
  | ButtonRelease (button : Nat)
  | MotionNotify (x y : Int)
  | FocusIn (mode : Nat)
  | FocusOut (mode : Nat)
  | MappingNotify (request : Nat)
  | PropertyNotify (atom : Nat)
  | SelectionNotify (selection target property : Nat) (reply : PropertyReply)
  | SelectionRequest (requestor selection target property time : Nat)
  | other (type : Nat)
  deriving DecidableEq, Repr

/-- Whether `XCheckWindowEvent` with `win_eventMask` returns the event: the event types
selected by the masks `Window_Create` asks for.  Client messages, selection events and
mapping notifications have no mask. -/
def XEvent.inEventMask : XEvent → Bool
  | XEvent.ClientMessage _ => false
  | XEvent.SelectionNotify _ _ _ _ => false
  | XEvent.SelectionRequest _ _ _ _ _ => false
  | XEvent.MappingNotify _ => false
  | _ => true

/-- Whether the event has type `ClientMessage`. -/
def XEvent.isClientMessage : XEvent → Bool
  | XEvent.ClientMessage _ => true
  | _ => false

/-- Whether the event has type `SelectionNotify`. -/
def XEvent.isSelectionNotify : XEvent → Bool
  | XEvent.SelectionNotify _ _ _ _ => true
  | _ => false

/-- Whether the event has type `SelectionRequest`. -/
def XEvent.isSelectionRequest : XEvent → Bool
  | XEvent.SelectionRequest _ _ _ _ _ => true
  | _ => false

/-- The file-level variables of the X11 backend (with the shared `Window_*` globals), the
events waiting in the connection's queue, and the trace of calls made so far. -/
structure State where
  Window_Exists : Bool
  Window_Focused : Bool
  Window_Bounds : Rect2D
  Window_ClientSize : Size2D
  win_handle : Nat
  borderLeft : Int
  borderRight : Int
  borderTop : Int
  borderBottom : Int
  win_isExiting : Bool
  win_visible : Bool
  clipboard_copy_text : CString
  clipboard_paste_text : CString
  queue : List XEvent
  trace : List Call
  win_visual : XVisualInfo := { visual := 0, depth := 0 }
  ctx_Handle : Nat := 0
  swapIntervalMESA : Nat := 0
  swapIntervalSGI : Nat := 0
  ctx_supports_vSync : Bool := false
  deriving DecidableEq, Repr

/-- What the X server answers.  Every answer may depend on all calls made so far.
* `arrivals`: the events that have reached the connection's queue since the last pump,
  when `Window_ProcessEvents` starts polling;
* `selectionOwner`: the result of `XGetSelectionOwner`;
* `createWindow`: the window `XCreateWindow` returns (0 when it fails);
* `frameExtents`: the answer to the `_NET_FRAME_EXTENTS` query `Window_Create` makes
  through `Window_RefreshBounds`. -/
structure Server where
  arrivals : List Call → List XEvent
  selectionOwner : List Call → Nat
  createWindow : List Call → Nat := fun _ => 1
  frameExtents : List Call → PropertyReply :=
    fun _ => { data := none, items := 0, prop_type := 0 }

/-- Append one call to the trace. -/
def call (c : Call) (s : State) : State := { s with trace := s.trace ++ [c] }

/-- Take the first element satisfying `p` out of a list. -/
def takeFirst (p : XEvent → Bool) : List XEvent → Option (XEvent × List XEvent)
  | [] => none
  | e :: rest =>
    if p e then some (e, rest)
    else (takeFirst p rest).map fun r => (r.1, e :: r.2)

/-- The function `bool Window_GetPendingEvent(XEvent* e)`: the four `XCheck*` calls, tried
in order on the queue. -/
def Window_GetPendingEvent (queue : List XEvent) : Option (XEvent × List XEvent) :=
  (takeFirst XEvent.inEventMask queue).orElse fun _ =>
  (takeFirst XEvent.isClientMessage queue).orElse fun _ =>
  (takeFirst XEvent.isSelectionNotify queue).orElse fun _ =>
  takeFirst XEvent.isSelectionRequest queue

/-- The function `static void Window_RefreshBorders(void)`; `reply` is the answer to its
`XGetWindowProperty` query for `_NET_FRAME_EXTENTS`. -/
def Window_RefreshBorders (reply : PropertyReply) (s : State) : State :=
  match reply.data with
  | none => s
  | some borders =>
    if reply.items = 4 then
      { s with borderLeft := borders.getD 0 0, borderRight := borders.getD 1 0,
               borderTop := borders.getD 2 0, borderBottom := borders.getD 3 0 }
    else s

/-- The function `static void Window_RefreshBounds(XEvent* e)`. -/
def Window_RefreshBounds (x y width height : Int) (reply : PropertyReply) (s : State) :
    State :=
  let s := Window_RefreshBorders reply s
  let locX := x - s.borderLeft
  let locY := y - s.borderTop
  let s :=
    if locX ≠ s.Window_Bounds.X ∨ locY ≠ s.Window_Bounds.Y then
      call (Event_RaiseVoid WindowEvents_Moved)
        { s with Window_Bounds := { s.Window_Bounds with X := locX, Y := locY } }
    else s
  let sizeW := width + s.borderLeft + s.borderRight
  let sizeH := height + s.borderTop + s.borderBottom
  if sizeW ≠ s.Window_Bounds.Width ∨ sizeH ≠ s.Window_Bounds.Height then
    call (Event_RaiseVoid WindowEvents_Resized)
      { s with Window_ClientSize := { Width := width, Height := height },
               Window_Bounds := { s.Window_Bounds with Width := sizeW, Height := sizeH } }
  else s

/-- The function `void Window_Destroy(void)`.  `XSync(win_display, true)` discards the
events in the queue. -/
def Window_Destroy (s : State) : State :=
  let s := call (XSync true) { s with queue := [] }
  let s := call (XDestroyWindow s.win_handle) s
  { s with Window_Exists := false }

/-- The function `void Window_ToggleKey(XKeyEvent* keyEvent, bool pressed)`; the two key
symbols are what `XLookupKeysym` returns for index 0 and 1. -/
def Window_ToggleKey (C : Collab) (keysym1 keysym2 : Nat) (pressed : Bool) (s : State) :
    State :=
  let key := Window_MapKey C.K keysym1
  let key := if key = C.K Key_None then Window_MapKey C.K keysym2 else key
  if key ≠ C.K Key_None then call (Key_SetPressed key pressed) s else s

/-- The function `Atom Window_GetSelectionProperty(XEvent* e)`. -/
def Window_GetSelectionProperty (property target : Nat) : Nat :=
  if property ≠ 0 then property else target

/-- The `switch (e.type)` of `Window_ProcessEvents`: the handling of one event. -/
def Window_ProcessEvent (A : Atoms) (C : Collab) (e : XEvent) (s : State) : State :=
  match e with
  | XEvent.MapNotify =>
    let wasVisible := s.win_visible
    let s := { s with win_visible := true }
    if s.win_visible ≠ wasVisible then call (Event_RaiseVoid WindowEvents_VisibilityChanged) s
    else s
  | XEvent.UnmapNotify =>
    let wasVisible := s.win_visible
    let s := { s with win_visible := false }
    if s.win_visible ≠ wasVisible then call (Event_RaiseVoid WindowEvents_VisibilityChanged) s
    else s
  | XEvent.ClientMessage data0 =>
    if !s.win_isExiting ∧ data0 = A.wm_destroy then
      let s := call (Platform_Log LogLine.exitMessageReceived) s
      let s := call (Event_RaiseVoid WindowEvents_Closing) s
      let s := { s with win_isExiting := true }
      let s := Window_Destroy s
      call (Event_RaiseVoid WindowEvents_Closed) s
    else s
  | XEvent.DestroyNotify =>
    let s := call (Platform_Log LogLine.windowDestroyed) s
    { s with Window_Exists := false }
  | XEvent.ConfigureNotify x y width height reply =>
    Window_RefreshBounds x y width height reply s
  | XEvent.Expose count =>
    if count = 0 then call (Event_RaiseVoid WindowEvents_Redraw) s else s
  | XEvent.KeyPress keysym1 keysym2 text =>
    let s := Window_ToggleKey C keysym1 keysym2 true s
    let s := call XLookupString s
    text.foldl (fun s b =>
      match C.Convert_TryUnicodeToCP437 (b % 256) with
      | none => s
      | some raw => call (Event_RaiseInt_KeyPress raw) s) s
  | XEvent.KeyRelease keysym1 keysym2 => Window_ToggleKey C keysym1 keysym2 false s
  | XEvent.ButtonPress button =>
    if button = 1 then call (Mouse_SetPressed MouseButton_Left true) s
    else if button = 2 then call (Mouse_SetPressed MouseButton_Middle true) s
    else if button = 3 then call (Mouse_SetPressed MouseButton_Right true) s
    else if button = 4 then call (Mouse_SetWheel 1 1) s
    else if button = 5 then call (Mouse_SetWheel (-1) 1) s
    else if button = 6 then call (Key_SetPressed (C.K Key_XButton1) true) s
    else if button = 7 then call (Key_SetPressed (C.K Key_XButton2) true) s
    else s
  | XEvent.ButtonRelease button =>
    if button = 1 then call (Mouse_SetPressed MouseButton_Left false) s
    else if button = 2 then call (Mouse_SetPressed MouseButton_Middle false) s
    else if button = 3 then call (Mouse_SetPressed MouseButton_Right false) s
    else if button = 6 then call (Key_SetPressed (C.K Key_XButton1) false) s
    else if button = 7 then call (Key_SetPressed (C.K Key_XButton2) false) s
    else s
  | XEvent.MotionNotify x y => call (Mouse_SetPosition x y) s
  | XEvent.FocusIn mode =>
    if mode = NotifyGrab ∨ mode = NotifyUngrab then s
    else
      let wasFocused := s.Window_Focused
      let s := { s with Window_Focused := true }
      if s.Window_Focused ≠ wasFocused then call (Event_RaiseVoid WindowEvents_FocusChanged) s
      else s
  | XEvent.FocusOut mode =>
    if mode = NotifyGrab ∨ mode = NotifyUngrab then s
    else
      let wasFocused := s.Window_Focused
      let s := { s with Window_Focused := false }
      if s.Window_Focused ≠ wasFocused then call (Event_RaiseVoid WindowEvents_FocusChanged) s
      else s
  | XEvent.MappingNotify request =>
    if request = MappingModifier ∨ request = MappingKeyboard then
      call XRefreshKeyboardMapping (call (Platform_Log LogLine.keyboardMappingRefreshed) s)
    else s
  | XEvent.PropertyNotify atom =>
    if atom = A.net_wm_state then call (Event_RaiseVoid WindowEvents_StateChanged) s else s
  | XEvent.SelectionNotify selection target property reply =>
    let s := { s with clipboard_paste_text := s.clipboard_paste_text.clear }
    if selection = A.xa_clipboard ∧ target = A.xa_utf8_string ∧ property = A.xa_data_sel then
      let s := call (XGetWindowProperty s.win_handle A.xa_data_sel) s
      let s := call (XDeleteProperty s.win_handle A.xa_data_sel) s
      match reply.data with
      | some data =>
        if reply.items ≠ 0 ∧ reply.prop_type = A.xa_utf8_string then
          let bytes := (data.take reply.items).map fun b => (b % 256).toNat
          { s with clipboard_paste_text := C.String_DecodeUtf8 s.clipboard_paste_text.clear bytes }
        else s
      | none => s
    else s
  | XEvent.SelectionRequest requestor selection target property time =>
    let replyProperty :=
      if selection = A.xa_clipboard ∧ target = A.xa_utf8_string ∧
          s.clipboard_copy_text.length ≠ 0 then
        Window_GetSelectionProperty property target
      else if selection = A.xa_clipboard ∧ target = A.xa_targets then
        Window_GetSelectionProperty property target
      else 0
    let s :=
      if selection = A.xa_clipboard ∧ target = A.xa_utf8_string ∧
          s.clipboard_copy_text.length ≠ 0 then
        call (XChangeProperty requestor replyProperty A.xa_utf8_string 8
          (C.Platform_ConvertString s.clipboard_copy_text)) s
      else if selection = A.xa_clipboard ∧ target = A.xa_targets then
        call (XChangeProperty requestor replyProperty A.xa_atom 32
          [A.xa_utf8_string, A.xa_targets]) s
      else s
    call (XSendEvent_SelectionNotify requestor selection target replyProperty time) s
  | XEvent.other _ => s

/-- The loop `while (Window_Exists)` of `Window_ProcessEvents`, bounded by the number of
queued events: every round takes one event off the queue. -/
def Window_ProcessEvents_loop (A : Atoms) (C : Collab) : Nat → State → State
  | 0, s => s
  | n + 1, s =>
    if !s.Window_Exists then s
    else
      let s := call XCheckEvent s
      match Window_GetPendingEvent s.queue with
      | none => s
      | some (e, rest) =>
        Window_ProcessEvents_loop A C n (Window_ProcessEvent A C e { s with queue := rest })

/-- The function `void Window_ProcessEvents(void)`.  The events that arrived since the
last pump join the queue; the loop then runs until the window is gone or no queued event
is returned by `Window_GetPendingEvent` (one round more than there are events). -/
def Window_ProcessEvents (srv : Server) (A : Atoms) (C : Collab) (s : State) : State :=
  let s := { s with queue := s.queue ++ srv.arrivals s.trace }
  Window_ProcessEvents_loop A C (s.queue.length + 1) s

/-- The wait loop `for (i = 0; i < 100; i++)` of `Window_GetClipboardText`, with `n`
iterations left. -/
def Window_GetClipboardText_loop (srv : Server) (A : Atoms) (C : Collab) :
    Nat → CString → State → CString × State
  | 0, value, s => (value, s)
  | n + 1, value, s =>
    let s := Window_ProcessEvents srv A C s
    if s.clipboard_paste_text.length ≠ 0 then
      (CString.String_Copy value s.clipboard_paste_text, s)
    else Window_GetClipboardText_loop srv A C n value (call (Thread_Sleep 10) s)

/-- The function `void Window_GetClipboardText(String* value)`. -/
def Window_GetClipboardText (srv : Server) (A : Atoms) (C : Collab) (value : CString)
    (s : State) : CString × State :=
  let s := call (XGetSelectionOwner A.xa_clipboard) s
  let owner := srv.selectionOwner s.trace
  if owner = 0 then (value, s)
  else
    let s := call (XConvertSelection A.xa_clipboard A.xa_utf8_string A.xa_data_sel
      s.win_handle 0) s
    let s := { s with clipboard_paste_text := s.clipboard_paste_text.clear }
    Window_GetClipboardText_loop srv A C 100 value s

/-- The function `void Window_SetClipboardText(const String* value)`. -/
def Window_SetClipboardText (A : Atoms) (value : CString) (s : State) : State :=
  let s := { s with clipboard_copy_text := CString.String_Copy s.clipboard_copy_text value }
  call (XSetSelectionOwner A.xa_clipboard s.win_handle 0) s

end X11

/-! ## Carbon backend: events and window -/

namespace Carbon

/-- The value `eventNotHandledErr` of `<CarbonEvents.h>`. -/
def eventNotHandledErr : Int := -9874

/-- The kinds of keyboard events `Window_ProcessKeyboardEvent` tells apart. -/
inductive KeyboardEventKind where
  | kEventRawKeyDown
  | kEventRawKeyRepeat
  | kEventRawKeyUp
  | kEventRawKeyModifiersChanged
  | other (kind : Nat)
  deriving DecidableEq, Repr

/-- A keyboard `EventRef`: its kind and what `GetEventParameter` yields for the key code,
the character code and the modifiers (a status, zero for success, and the value). -/
structure KeyboardEvent where
  kind : KeyboardEventKind
  keyCode : Int × Nat
  macCharCodes : Int × Nat
  keyModifiers : Int × Nat
  deriving DecidableEq, Repr

/-- The kinds of window events `Window_ProcessWindowEvent` tells apart; `bounds` and
`client` are what `GetWindowBounds` reports for the structure and the port region (a
status and a rectangle as left, top, right, bottom). -/
inductive WindowEventKind where
  | kEventWindowClose
  | kEventWindowClosed
  | kEventWindowBoundsChanged (structure_ : Int × Int × Int × Int × Int)
      (port : Int × Int × Int × Int × Int)
  | kEventWindowActivated
  | kEventWindowDeactivated
  | other (kind : Nat)
  deriving DecidableEq, Repr

/-- The file-level variables of the Carbon backend (with the shared `Window_*` and
`Key_KeyRepeat` globals) and the trace of calls made so far. -/
structure State where
  Window_Exists : Bool
  Window_Focused : Bool
  Window_Bounds : Rect2D
  Window_ClientSize : Size2D
  Key_KeyRepeat : Bool
  win_handle : Nat
  title_height : Int
  win_state : WindowState
  ctx_pendingWindowed : Bool
  ctx_pendingFullscreen : Bool
  trace : List Call
  ctx_handle : Nat := 0
  ctx_fullscreen : Bool := false
  ctx_firstFullscreen : Bool := false
  ctx_windowedBounds : Rect2D := { X := 0, Y := 0, Width := 0, Height := 0 }
  Mouse_X : Int := 0
  Mouse_Y : Int := 0
  deriving DecidableEq, Repr

/-- How a function ended: it returned a value, or `ErrorHandler_Fail2` ended the process. -/
inductive Outcome (α : Type) where
  | returned (value : α) (s : State)
  | failed (s : State)
  deriving DecidableEq, Repr

/-- The state a function ended in. -/
def Outcome.state {α : Type} : Outcome α → State
  | Outcome.returned _ s => s
  | Outcome.failed s => s

/-- Append one call to the trace. -/
def call (c : Call) (s : State) : State := { s with trace := s.trace ++ [c] }

/-- The function `static void Window_Destroy(void)`. -/
def Window_Destroy (s : State) : State :=
  if !s.Window_Exists then s
  else { call (DisposeWindow s.win_handle) s with Window_Exists := false }

/-- The function `static void Window_UpdateSize(void)`. -/
def Window_UpdateSize (structure_ port : Int × Int × Int × Int × Int) (s : State) :
    Outcome Unit :=
  if s.win_state = WINDOW_STATE_FULLSCREEN then Outcome.returned () s
  else if structure_.1 ≠ 0 then Outcome.failed (call ErrorHandler_Fail s)
  else
    let (_, left, top, right, bottom) := structure_
    let s := { s with Window_Bounds :=
      { X := left, Y := top, Width := right - left, Height := bottom - top } }
    if port.1 ≠ 0 then Outcome.failed (call ErrorHandler_Fail s)
    else
      let (_, left, top, right, bottom) := port
      Outcome.returned ()
        { s with Window_ClientSize := { Width := right - left, Height := bottom - top } }

/-- The function `OSStatus Window_ProcessKeyboardEvent(EventHandlerCallRef, EventRef,
void*)`. -/
def Window_ProcessKeyboardEvent (C : Collab) (e : KeyboardEvent) (s : State) : Outcome Int :=
  match e.kind with
  | KeyboardEventKind.kEventRawKeyDown | KeyboardEventKind.kEventRawKeyRepeat =>
    if e.keyCode.1 ≠ 0 then Outcome.failed (call ErrorHandler_Fail s)
    else if e.macCharCodes.1 ≠ 0 then Outcome.failed (call ErrorHandler_Fail s)
    else
      let key := Window_MapKey C.K e.keyCode.2
      if key = C.K Key_None then
        Outcome.returned 0 (call (Platform_Log (LogLine.keyNotMapped e.keyCode.2)) s)
      else
        let s := call (Key_SetPressed key true) s
        match C.Convert_TryUnicodeToCP437 (e.macCharCodes.2 % 256) with
        | none => Outcome.returned 0 s
        | some raw => Outcome.returned 0 (call (Event_RaiseInt_KeyPress raw) s)
  | KeyboardEventKind.kEventRawKeyUp =>
    if e.keyCode.1 ≠ 0 then Outcome.failed (call ErrorHandler_Fail s)
    else if e.macCharCodes.1 ≠ 0 then Outcome.failed (call ErrorHandler_Fail s)
    else
      let key := Window_MapKey C.K e.keyCode.2
      if key = C.K Key_None then
        Outcome.returned 0 (call (Platform_Log (LogLine.keyNotMapped e.keyCode.2)) s)
      else Outcome.returned 0 (call (Key_SetPressed key false) s)
  | KeyboardEventKind.kEventRawKeyModifiersChanged =>
    if e.keyModifiers.1 ≠ 0 then Outcome.failed (call ErrorHandler_Fail s)
    else
      let code := e.keyModifiers.2
      let repeat_ := s.Key_KeyRepeat
      let s := { s with Key_KeyRepeat := false }
      let s := call (Key_SetPressed (C.K Key_ControlLeft) (code &&& 0x1000 ≠ 0)) s
      let s := call (Key_SetPressed (C.K Key_AltLeft) (code &&& 0x0800 ≠ 0)) s
      let s := call (Key_SetPressed (C.K Key_ShiftLeft) (code &&& 0x0200 ≠ 0)) s
      let s := call (Key_SetPressed (C.K Key_WinLeft) (code &&& 0x0100 ≠ 0)) s
      let s := call (Key_SetPressed (C.K Key_CapsLock) (code &&& 0x0400 ≠ 0)) s
      Outcome.returned 0 { s with Key_KeyRepeat := repeat_ }
  | KeyboardEventKind.other _ => Outcome.returned eventNotHandledErr s

/-- The function `OSStatus Window_ProcessWindowEvent(EventHandlerCallRef, EventRef,
void*)`. -/
def Window_ProcessWindowEvent (e : WindowEventKind) (s : State) : Outcome Int :=
  match e with
  | WindowEventKind.kEventWindowClose =>
    Outcome.returned eventNotHandledErr (call (Event_RaiseVoid WindowEvents_Closing) s)
  | WindowEventKind.kEventWindowClosed =>
    Outcome.returned 0 (call (Event_RaiseVoid WindowEvents_Closed) { s with Window_Exists := false })
  | WindowEventKind.kEventWindowBoundsChanged structure_ port =>
    let width := s.Window_ClientSize.Width
    let height := s.Window_ClientSize.Height
    match Window_UpdateSize structure_ port s with
    | Outcome.failed s => Outcome.failed s
    | Outcome.returned _ s =>
      if width ≠ s.Window_ClientSize.Width ∨ height ≠ s.Window_ClientSize.Height then
        Outcome.returned eventNotHandledErr (call (Event_RaiseVoid WindowEvents_Resized) s)
      else Outcome.returned eventNotHandledErr s
  | WindowEventKind.kEventWindowActivated =>
    Outcome.returned eventNotHandledErr
      (call (Event_RaiseVoid WindowEvents_FocusChanged) { s with Window_Focused := true })
  | WindowEventKind.kEventWindowDeactivated =>
    Outcome.returned eventNotHandledErr
      (call (Event_RaiseVoid WindowEvents_FocusChanged) { s with Window_Focused := false })
  | WindowEventKind.other _ => Outcome.returned eventNotHandledErr s

/-- The function `void Window_Close(void)`. -/
def Window_Close (s : State) : State :=
  Window_Destroy (call (Event_RaiseVoid WindowEvents_Closed) s)

end Carbon

/-! ## Win32 backend: OpenGL context -/

namespace Win32

/-! Constants of `<wingdi.h>`. -/
def PFD_TYPE_RGBA : Nat := 0
def PFD_TYPE_COLORINDEX : Nat := 1
def PFD_DOUBLEBUFFER : Nat := 0x00000001
def PFD_DRAW_TO_WINDOW : Nat := 0x00000004
def PFD_SUPPORT_OPENGL : Nat := 0x00000020
def PFD_DEPTH_DONTCARE : Nat := 0x20000000

/-- What the WGL driver answers.  Every answer may depend on all calls made so far.
* `ChoosePixelFormat`, `SetPixelFormat`, `wglCreateContext`, `wglMakeCurrent`,
  `wglGetCurrentDC`, `wglGetProcAddress`: the results of the calls of these names (a
  `NULL` handle or address is 0);
* `extensionsContain`: whether the extension string the driver advertises names the
  extension;
* `GLContext_IsInvalidAddress`: the macro of this name, whose definition is in a header
  that is not part of the sources at hand. -/
structure WGL where
  ChoosePixelFormat : List Call → Int
  SetPixelFormat : List Call → Bool
  wglCreateContext : List Call → Nat
  wglMakeCurrent : List Call → Bool
  wglGetCurrentDC : List Call → Nat
  wglGetProcAddress : List Call → Nat
  extensionsContain : GLExtension → Bool
  GLContext_IsInvalidAddress : Nat → Bool

/-- The conversion of an `int` to the `BYTE` fields of the pixel format descriptor. -/
def toBYTE (x : Int) : Int := x % 256

/-- The function `void GLContext_SelectGraphicsMode(struct GraphicsMode* mode)`. -/
def GLContext_SelectGraphicsMode (wgl : WGL) (mode : GraphicsMode) (s : State) :
    Ended Unit State :=
  let dwFlags := PFD_SUPPORT_OPENGL ||| PFD_DRAW_TO_WINDOW
  let dwFlags := if mode.DepthBits ≤ 0 then dwFlags ||| PFD_DEPTH_DONTCARE else dwFlags
  let dwFlags := if mode.Buffers > 1 then dwFlags ||| PFD_DOUBLEBUFFER else dwFlags
  let pfd : PIXELFORMATDESCRIPTOR :=
    { dwFlags := dwFlags
      iPixelType := if mode.IsIndexed then PFD_TYPE_COLORINDEX else PFD_TYPE_RGBA
      cColorBits := toBYTE (mode.R + mode.G + mode.B)
      cRedBits := toBYTE mode.R
      cGreenBits := toBYTE mode.G
      cBlueBits := toBYTE mode.B
      cAlphaBits := toBYTE mode.A
      cDepthBits := toBYTE mode.DepthBits
      cStencilBits := toBYTE mode.StencilBits }
  let s := call (api (NativeCall.ChoosePixelFormat s.win_DC pfd)) s
  let modeIndex := wgl.ChoosePixelFormat s.trace
  if modeIndex = 0 then Ended.failed (call ErrorHandler_Fail s)
  else
    let s := call (api (NativeCall.DescribePixelFormat s.win_DC modeIndex)) s
    let s := call (api (NativeCall.SetPixelFormat s.win_DC modeIndex)) s
    if !wgl.SetPixelFormat s.trace then Ended.failed (call ErrorHandler_Fail s)
    else Ended.returned () s

/-- The function `void* GLContext_GetAddress(const char* function)`. -/
def GLContext_GetAddress (wgl : WGL) (function : GLProc) (s : State) : Nat × State :=
  let s := call (api (NativeCall.wglGetProcAddress function)) s
  let address := wgl.wglGetProcAddress s.trace
  (if wgl.GLContext_IsInvalidAddress address then 0 else address, s)

/-- The function `void GLContext_Init(struct GraphicsMode* mode)`. -/
def GLContext_Init (wgl : WGL) (mode : GraphicsMode) (s : State) : Ended Unit State :=
  match GLContext_SelectGraphicsMode wgl mode s with
  | Ended.failed s => Ended.failed s
  | Ended.returned _ s =>
    let s := call (api (NativeCall.wglCreateContext s.win_DC)) s
    let s := { s with ctx_Handle := wgl.wglCreateContext s.trace }
    let s :=
      if s.ctx_Handle = 0 then
        let s := call (api (NativeCall.wglCreateContext s.win_DC)) s
        { s with ctx_Handle := wgl.wglCreateContext s.trace }
      else s
    if s.ctx_Handle = 0 then Ended.failed (call ErrorHandler_Fail s)
    else
      let s := call (api (NativeCall.wglMakeCurrent s.win_DC s.ctx_Handle)) s
      if !wgl.wglMakeCurrent s.trace then Ended.failed (call ErrorHandler_Fail s)
      else
        let s := call (api NativeCall.wglGetCurrentDC) s
        let s := { s with ctx_DC := wgl.wglGetCurrentDC s.trace }
        let r := GLContext_GetAddress wgl GLProc.wglSwapIntervalEXT s
        Ended.returned ()
          { r.2 with wglSwapIntervalEXT := r.1, ctx_supports_vSync := decide (r.1 ≠ 0) }

/-- The function `void GLContext_SetVSync(bool enabled)`. -/
def GLContext_SetVSync (enabled : Bool) (s : State) : State :=
  if s.ctx_supports_vSync then
    call (api (NativeCall.wglSwapIntervalEXT (if enabled then 1 else 0))) s
  else s

end Win32

/-! ## X11 backend: window creation and OpenGL context -/

namespace X11

/-! Constants of `<GL/glx.h>`. -/
def GLX_RGBA : Int := 4
def GLX_DOUBLEBUFFER : Int := 5
def GLX_RED_SIZE : Int := 8
def GLX_GREEN_SIZE : Int := 9
def GLX_BLUE_SIZE : Int := 10
def GLX_ALPHA_SIZE : Int := 11
def GLX_DEPTH_SIZE : Int := 12
def GLX_STENCIL_SIZE : Int := 13

/-- What the GLX driver answers.  Every answer may depend on all calls made so far.
* `glXQueryVersion`: the version as (major, minor), `none` when the call fails;
* `glXChooseFBConfig`: whether a non-empty configuration array is returned;
* `glXGetVisualFromFBConfig`, `glXChooseVisual`: the visual, `none` for `NULL`;
* `glXCreateContext`, `glXGetProcAddress`: the handle or address (0 for `NULL`);
* `glXIsDirect`, `glXMakeCurrent`: the results of the calls of these names;
* `extensionsContain`: whether `String_CaselessContains` finds the extension name in the
  string `glXQueryExtensionsString` returns;
* `swapInterval`: the result of the swap-interval function just called;
* `GLContext_IsInvalidAddress`: the macro of this name, whose definition is in a header
  that is not part of the sources at hand. -/
structure GLX where
  glXQueryVersion : List Call → Option (Int × Int)
  glXChooseFBConfig : List Call → Bool
  glXGetVisualFromFBConfig : List Call → Option XVisualInfo
  glXChooseVisual : List Call → Option XVisualInfo
  glXCreateContext : List Call → Nat
  glXIsDirect : List Call → Bool
  glXMakeCurrent : List Call → Bool
  extensionsContain : List Call → GLExtension → Bool
  glXGetProcAddress : List Call → Nat
  swapInterval : List Call → Int
  GLContext_IsInvalidAddress : Nat → Bool

/-- The function `static void GLContext_GetAttribs(struct GraphicsMode* mode, int*
attribs)`: the values written to `attribs`, in order. -/
def GLContext_GetAttribs (mode : GraphicsMode) : List Int :=
  (if !mode.IsIndexed then [GLX_RGBA] else []) ++
  [GLX_RED_SIZE, mode.R, GLX_GREEN_SIZE, mode.G, GLX_BLUE_SIZE, mode.B,
    GLX_ALPHA_SIZE, mode.A] ++
  (if mode.DepthBits ≠ 0 then [GLX_DEPTH_SIZE, mode.DepthBits] else []) ++
  (if mode.StencilBits ≠ 0 then [GLX_STENCIL_SIZE, mode.StencilBits] else []) ++
  (if mode.Buffers > 1 then [GLX_DOUBLEBUFFER] else []) ++
  [0]

/-- The function `static XVisualInfo GLContext_SelectVisual(struct GraphicsMode* mode)`. -/
def GLContext_SelectVisual (glx : GLX) (mode : GraphicsMode) (s : State) :
    Ended XVisualInfo State :=
  let attribs := GLContext_GetAttribs mode
  let s := call (api NativeCall.glXQueryVersion) s
  match glx.glXQueryVersion s.trace with
  | none => Ended.failed (call ErrorHandler_Fail s)
  | some (major, minor) =>
    let r : Option XVisualInfo × State :=
      if major ≥ 1 ∧ minor ≥ 3 then
        let s := call (api (NativeCall.glXChooseFBConfig attribs)) s
        if glx.glXChooseFBConfig s.trace then
          let s := call (api NativeCall.glXGetVisualFromFBConfig) s
          (glx.glXGetVisualFromFBConfig s.trace, s)
        else (none, s)
      else (none, s)
    let r : Option XVisualInfo × State :=
      match r.1 with
      | some visual => (some visual, r.2)
      | none =>
        let s := call (Platform_Log LogLine.fallingBackToChooseVisual) r.2
        let s := call (api (NativeCall.glXChooseVisual attribs)) s
        (glx.glXChooseVisual s.trace, s)
    match r.1 with
    | none => Ended.failed (call ErrorHandler_Fail r.2)
    | some info => Ended.returned info r.2

/-- The function `void Window_Create(int x, int y, int width, int height, struct
GraphicsMode* mode)`.  The atoms `Window_RegisterAtoms` interns are the parameter `A`. -/
def Window_Create (srv : Server) (glx : GLX) (A : Atoms) (x y width height : Int)
    (mode : GraphicsMode) (s : State) : Ended Unit State :=
  let s := call (Platform_Log LogLine.displayScreenRoot) s
  match GLContext_SelectVisual glx mode s with
  | Ended.failed s => Ended.failed s
  | Ended.returned visual s =>
    let s := { s with win_visual := visual }
    let s := call (Platform_Log LogLine.openingRenderWindow) s
    let s := call (api (NativeCall.XCreateColormap s.win_visual.visual)) s
    let s := call (api (NativeCall.XCreateWindow x y width height s.win_visual.depth
      s.win_visual.visual)) s
    let s := { s with win_handle := srv.createWindow s.trace }
    if s.win_handle = 0 then Ended.failed (call ErrorHandler_Fail s)
    else
      let s := call (api (NativeCall.XSetWMNormalHints s.win_handle width height)) s
      let s := call (api (NativeCall.XSetWMProtocols s.win_handle A.wm_destroy)) s
      let s := Window_RefreshBounds x y width height (srv.frameExtents s.trace) s
      let s := call (api NativeCall.XkbSetDetectableAutoRepeat) s
      Ended.returned () { s with Window_Exists := true }

/-- The function `void Window_SetClientSize(int width, int height)`. -/
def Window_SetClientSize (srv : Server) (A : Atoms) (C : Collab) (width height : Int)
    (s : State) : State :=
  Window_ProcessEvents srv A C
    (call (api (NativeCall.XResizeWindow s.win_handle width height)) s)

/-- The function `void* GLContext_GetAddress(const char* function)`. -/
def GLContext_GetAddress (glx : GLX) (function : GLProc) (s : State) : Nat × State :=
  let s := call (api (NativeCall.glXGetProcAddress function)) s
  let address := glx.glXGetProcAddress s.trace
  (if glx.GLContext_IsInvalidAddress address then 0 else address, s)

/-- The function `void GLContext_Init(struct GraphicsMode* mode)`. -/
def GLContext_Init (glx : GLX) (mode : GraphicsMode) (s : State) : Ended Unit State :=
  let s := call (api (NativeCall.glXCreateContext s.win_visual.visual true)) s
  let s := { s with ctx_Handle := glx.glXCreateContext s.trace }
  let s :=
    if s.ctx_Handle = 0 then
      let s := call (Platform_Log LogLine.contextCreateFailed) s
      let s := call (api (NativeCall.glXCreateContext s.win_visual.visual false)) s
      { s with ctx_Handle := glx.glXCreateContext s.trace }
    else s
  if s.ctx_Handle = 0 then Ended.failed (call ErrorHandler_Fail s)
  else
    let s := call (api (NativeCall.glXIsDirect s.ctx_Handle)) s
    let s := if !glx.glXIsDirect s.trace then call (Platform_Log LogLine.contextNotDirect) s
      else s
    let s := call (api (NativeCall.glXMakeCurrent s.win_handle s.ctx_Handle)) s
    if !glx.glXMakeCurrent s.trace then Ended.failed (call ErrorHandler_Fail s)
    else
      let s := call (api NativeCall.glXQueryExtensionsString) s
      let exts := glx.extensionsContain s.trace
      let s :=
        if exts GLExtension.GLX_MESA_swap_control then
          let r := GLContext_GetAddress glx GLProc.glXSwapIntervalMESA s
          { r.2 with swapIntervalMESA := r.1 }
        else s
      let s :=
        if exts GLExtension.GLX_SGI_swap_control then
          let r := GLContext_GetAddress glx GLProc.glXSwapIntervalSGI s
          { r.2 with swapIntervalSGI := r.1 }
        else s
      Ended.returned ()
        { s with ctx_supports_vSync := decide (s.swapIntervalMESA ≠ 0 ∨ s.swapIntervalSGI ≠ 0) }

/-- The function `void GLContext_SetVSync(bool enabled)`. -/
def GLContext_SetVSync (glx : GLX) (enabled : Bool) (s : State) : State :=
  if !s.ctx_supports_vSync then s
  else
    let interval : Nat := if enabled then 1 else 0
    let s :=
      if s.swapIntervalMESA ≠ 0 then call (api (NativeCall.glXSwapIntervalMESA interval)) s
      else call (api (NativeCall.glXSwapIntervalSGI interval)) s
    let res := glx.swapInterval s.trace
    if res ≠ 0 then call (Platform_Log (LogLine.setVSyncFailed res)) s else s

end X11

/-! ## Carbon backend: window state, event pump and OpenGL context -/

namespace Carbon

/-! Constants of `<CarbonEvents.h>`. -/
def eventParameterNotFoundErr : Int := -9870
def kEventMouseButtonPrimary : Nat := 1
def kEventMouseButtonSecondary : Nat := 2
def kEventMouseButtonTertiary : Nat := 3

/-- The kinds of mouse events `Window_ProcessMouseEvent` tells apart. -/
inductive MouseEventKind where
  | kEventMouseDown
  | kEventMouseUp
  | kEventMouseWheelMoved
  | kEventMouseMoved
  | kEventMouseDragged
  | other (kind : Nat)
  deriving DecidableEq, Repr

/-- A mouse `EventRef`: its kind and what `GetEventParameter` yields for the two mouse
locations, the button and the wheel delta (a status, zero for success, and the value). -/
structure MouseEvent where
  kind : MouseEventKind
  mouseLocation : Int × ℚ × ℚ
  windowMouseLocation : Int × ℚ × ℚ
  mouseButton : Int × Nat
  mouseWheelDelta : Int × Int
  deriving DecidableEq, Repr

/-- An `EventRef` by event class. -/
inductive Event where
  | appleEvent
  | keyboard (e : KeyboardEvent)
  | mouse (e : MouseEvent)
  | window (e : WindowEventKind)
  | other (eventClass : Nat)
  deriving DecidableEq, Repr

/-- What `ReceiveNextEvent` hands back: `eventLoopTimedOutErr`, another error status, or
success with an event reference (`none` for `NULL`). -/
inductive Received where
  | timedOut
  | error (res : Int)
  | event (theEvent : Option Event)
  deriving DecidableEq, Repr

/-- What the Carbon and AGL layers answer.  Every answer may depend on all calls made so
far.
* `structureRgn`, `portRgn`: what `GetWindowBounds` reports for the structure and the port
  region (a status and a rectangle as left, top, right, bottom);
* `isWindowCollapsed`, `isWindowInStandardState`: the results of the queries of these
  names;
* `status`: the `OSStatus` of the window call just made (`ZoomWindowIdeal`,
  `CollapseWindow`, `CreateNewWindow`, `InstallEventHandler`);
* `agl`: the code returned by the AGL call just made (zero for failure);
* `aglGetError`: the result of `aglGetError`;
* `displayBounds`: the value of `DisplayDevice_Default.Bounds`;
* `receiveNextEvent`: the result of `ReceiveNextEvent`;
* `createNewWindow`: the window `CreateNewWindow` hands back;
* `titleBarRgn`: what `GetWindowBounds` reports for the title bar region. -/
structure System where
  structureRgn : List Call → Int × Int × Int × Int × Int
  portRgn : List Call → Int × Int × Int × Int × Int
  isWindowCollapsed : List Call → Bool
  isWindowInStandardState : List Call → Bool
  status : List Call → Int
  agl : List Call → Int
  aglGetError : List Call → Int
  displayBounds : Rect2D
  receiveNextEvent : List Call → Received
  createNewWindow : List Call → Nat := fun _ => 5
  titleBarRgn : List Call → Int × Int × Int × Int × Int := fun _ => (0, 0, 0, 640, 22)

/-- Continue with `f` when the first step returned, stop when it failed. -/
def Outcome.andThen {α β : Type} (r : Outcome α) (f : α → State → Outcome β) : Outcome β :=
  match r with
  | Outcome.returned value s => f value s
  | Outcome.failed s => Outcome.failed s

/-- The check `if (res) ErrorHandler_Fail2(res, ...)` after a window call. -/
def checked (sys : System) (s : State) : Outcome Unit :=
  if sys.status s.trace ≠ 0 then Outcome.failed (call ErrorHandler_Fail s)
  else Outcome.returned () s

/-- The function `int Window_GetWindowState(void)`. -/
def Window_GetWindowState (sys : System) (s : State) : WindowState :=
  if s.win_state = WINDOW_STATE_FULLSCREEN then WINDOW_STATE_FULLSCREEN
  else if sys.isWindowCollapsed s.trace then WINDOW_STATE_MINIMISED
  else if sys.isWindowInStandardState s.trace then WINDOW_STATE_MAXIMISED
  else WINDOW_STATE_NORMAL

/-- The function `static void Window_UpdateWindowState(void)`. -/
def Window_UpdateWindowState (sys : System) (s : State) : Outcome Unit :=
  let r : Outcome Unit :=
    match s.win_state with
    | WINDOW_STATE_FULLSCREEN => Outcome.returned () { s with ctx_pendingFullscreen := true }
    | WINDOW_STATE_MAXIMISED =>
      checked sys (call (api (NativeCall.ZoomWindowIdeal s.win_handle true 9000 9000)) s)
    | WINDOW_STATE_NORMAL =>
      if Window_GetWindowState sys s = WINDOW_STATE_MAXIMISED then
        checked sys (call (api (NativeCall.ZoomWindowIdeal s.win_handle false 0 0)) s)
      else Outcome.returned () s
    | WINDOW_STATE_MINIMISED =>
      checked sys (call (api (NativeCall.CollapseWindow s.win_handle true)) s)
  r.andThen fun _ s =>
    let s := call (Event_RaiseVoid WindowEvents_StateChanged) s
    (Window_UpdateSize (sys.structureRgn s.trace) (sys.portRgn s.trace) s).andThen fun _ s =>
      Outcome.returned () (call (Event_RaiseVoid WindowEvents_Resized) s)

/-- The function `void Window_SetWindowState(int state)`. -/
def Window_SetWindowState (sys : System) (state : WindowState) (s : State) : Outcome Unit :=
  let old_state := Window_GetWindowState sys s
  if state = old_state then Outcome.returned () s
  else
    let s := { s with win_state := state }
    if old_state = WINDOW_STATE_FULLSCREEN then
      Outcome.returned () { s with ctx_pendingWindowed := true }
    else
      let r : Outcome Unit :=
        if old_state = WINDOW_STATE_MINIMISED then
          checked sys (call (api (NativeCall.CollapseWindow s.win_handle false)) s)
        else Outcome.returned () s
      r.andThen fun _ s => Window_UpdateWindowState sys s

/-- The function `void Window_SetSize(int width, int height)`. -/
def Window_SetSize (width height : Int) (s : State) : State :=
  let width := width - (s.Window_Bounds.Width - s.Window_ClientSize.Width)
  let height := height - (s.Window_Bounds.Height - s.Window_ClientSize.Height)
  call (api (NativeCall.SizeWindow s.win_handle width height)) s

/-- The conversion `(int)` of a coordinate of an `HIPoint`: truncation towards zero. -/
def toInt (q : ℚ) : Int := Int.tdiv q.num q.den

/-- Modelled from the spec: `Mouse_SetPosition` of `Input.c` (not part of the sources at
hand) takes the "mouse position relative to client area" and stores it in `Mouse_X` and
`Mouse_Y`. -/
def Mouse_SetPosition (x y : Int) (s : State) : State :=
  call (Call.Mouse_SetPosition x y) { s with Mouse_X := x, Mouse_Y := y }

/-- The function `OSStatus Window_ProcessMouseEvent(EventHandlerCallRef, EventRef,
void*)`. -/
def Window_ProcessMouseEvent (e : MouseEvent) (s : State) : Outcome Int :=
  let pt := if s.win_state = WINDOW_STATE_FULLSCREEN then e.mouseLocation
    else e.windowMouseLocation
  if pt.1 ≠ 0 ∧ pt.1 ≠ eventParameterNotFoundErr then
    Outcome.failed (call ErrorHandler_Fail s)
  else
    let mousePosX := toInt pt.2.1
    let mousePosY := toInt pt.2.2
    let mousePosY := if s.win_state ≠ WINDOW_STATE_FULLSCREEN then mousePosY - s.title_height
      else mousePosY
    match e.kind with
    | MouseEventKind.kEventMouseDown | MouseEventKind.kEventMouseUp =>
      let down : Bool := e.kind = MouseEventKind.kEventMouseDown
      if e.mouseButton.1 ≠ 0 then Outcome.failed (call ErrorHandler_Fail s)
      else if e.mouseButton.2 = kEventMouseButtonPrimary then
        Outcome.returned 0 (call (Mouse_SetPressed MouseButton_Left down) s)
      else if e.mouseButton.2 = kEventMouseButtonSecondary then
        Outcome.returned 0 (call (Mouse_SetPressed MouseButton_Right down) s)
      else if e.mouseButton.2 = kEventMouseButtonTertiary then
        Outcome.returned 0 (call (Mouse_SetPressed MouseButton_Middle down) s)
      else Outcome.returned 0 s
    | MouseEventKind.kEventMouseWheelMoved =>
      if e.mouseWheelDelta.1 ≠ 0 then Outcome.failed (call ErrorHandler_Fail s)
      else Outcome.returned 0 (call (Mouse_SetWheel e.mouseWheelDelta.2 1) s)
    | MouseEventKind.kEventMouseMoved | MouseEventKind.kEventMouseDragged =>
      if s.win_state ≠ WINDOW_STATE_FULLSCREEN ∧ pt.2.2 < 0 then
        Outcome.returned eventNotHandledErr s
      else if mousePosX ≠ s.Mouse_X ∨ mousePosY ≠ s.Mouse_Y then
        Outcome.returned eventNotHandledErr (Mouse_SetPosition mousePosX mousePosY s)
      else Outcome.returned eventNotHandledErr s
    | MouseEventKind.other _ => Outcome.returned eventNotHandledErr s

/-- The function `static OSStatus Window_EventHandler(EventHandlerCallRef, EventRef,
void*)`. -/
def Window_EventHandler (C : Collab) (e : Event) (s : State) : Outcome Int :=
  match e with
  | Event.appleEvent =>
    let s := call (Platform_Log LogLine.processingAppleEvent) s
    Outcome.returned eventNotHandledErr (call (api NativeCall.AEProcessAppleEvent) s)
  | Event.keyboard e => Window_ProcessKeyboardEvent C e s
  | Event.mouse e => Window_ProcessMouseEvent e s
  | Event.window e => Window_ProcessWindowEvent e s
  | Event.other _ => Outcome.returned eventNotHandledErr s

/-- The function `void Window_ProcessEvents(void)`: the loop `for (;;)`, with at most `n`
rounds; `SendEventToEventTarget` runs `Window_EventHandler` on the event.  The result is
`none` when `n` rounds do not reach the end of the loop. -/
def Window_ProcessEvents (sys : System) (C : Collab) : Nat → State → Option (Outcome Unit)
  | 0, _ => none
  | n + 1, s =>
    let s := call (api NativeCall.ReceiveNextEvent) s
    match sys.receiveNextEvent s.trace with
    | Received.timedOut => some (Outcome.returned () s)
    | Received.error res =>
      some (Outcome.returned () (call (Platform_Log (LogLine.messageLoopStatus res)) s))
    | Received.event none => some (Outcome.returned () s)
    | Received.event (some theEvent) =>
      match Window_EventHandler C theEvent (call (api NativeCall.SendEventToEventTarget) s) with
      | Outcome.failed s => some (Outcome.failed s)
      | Outcome.returned _ s =>
        Window_ProcessEvents sys C n (call (api NativeCall.ReleaseEvent) s)

/-- The function `static void GLContext_Check(int code, const char* place)`. -/
def GLContext_Check (sys : System) (code : Int) (s : State) : Outcome Unit :=
  if code ≠ 0 then Outcome.returned () s
  else
    let s := call (api NativeCall.aglGetError) s
    if sys.aglGetError s.trace ≠ 0 then Outcome.failed (call ErrorHandler_Fail s)
    else Outcome.returned () s

/-- The function `static void GLContext_MakeCurrent(void)`. -/
def GLContext_MakeCurrent (sys : System) (s : State) : Outcome Unit :=
  let s := call (api (NativeCall.aglSetCurrentContext s.ctx_handle)) s
  GLContext_Check sys (sys.agl s.trace) s

/-- The function `static void GLContext_SetDrawable(void)`; the port of the window is
named by the window handle. -/
def GLContext_SetDrawable (sys : System) (s : State) : Outcome Unit :=
  let s := call (api (NativeCall.aglSetDrawable s.ctx_handle s.win_handle)) s
  GLContext_Check sys (sys.agl s.trace) s

/-- The function `static void GLContext_UnsetFullscreen(void)`; the `NULL` drawable is
port 0. -/
def GLContext_UnsetFullscreen (sys : System) (s : State) : Outcome Unit :=
  let s := call (Platform_Log LogLine.unsettingFullscreen) s
  let s := call (api (NativeCall.aglSetDrawable s.ctx_handle 0)) s
  (GLContext_Check sys (sys.agl s.trace) s).andThen fun _ s =>
    let s := call (api (NativeCall.aglUpdateContext s.ctx_handle)) s
    (GLContext_Check sys (sys.agl s.trace) s).andThen fun _ s =>
      let s := call (api NativeCall.CGDisplayRelease) s
      (GLContext_SetDrawable sys s).andThen fun _ s =>
        let s := { s with ctx_fullscreen := false }
        (Window_UpdateWindowState sys s).andThen fun _ s =>
          Outcome.returned ()
            (Window_SetSize s.ctx_windowedBounds.Width s.ctx_windowedBounds.Height s)

/-- The function `static void GLContext_SetFullscreen(void)`, with at most `n` nested
calls of itself.  The result is `none` when the nesting goes deeper. -/
def GLContext_SetFullscreen (sys : System) : Nat → State → Option (Outcome Unit)
  | 0, _ => none
  | n + 1, s =>
    let displayWidth := sys.displayBounds.Width
    let displayHeight := sys.displayBounds.Height
    let s := call (Platform_Log LogLine.switchingToFullscreen) s
    let s := call (api NativeCall.CGDisplayCapture) s
    let s := call (api (NativeCall.aglSetFullScreen s.ctx_handle displayWidth displayHeight)) s
    match (GLContext_Check sys (sys.agl s.trace) s).andThen fun _ s =>
        GLContext_MakeCurrent sys s with
    | Outcome.failed s => some (Outcome.failed s)
    | Outcome.returned _ s =>
      if !s.ctx_firstFullscreen then
        let s := { s with ctx_firstFullscreen := true }
        match GLContext_UnsetFullscreen sys s with
        | Outcome.failed s => some (Outcome.failed s)
        | Outcome.returned _ s => GLContext_SetFullscreen sys n s
      else
        let s := { s with ctx_fullscreen := true, ctx_windowedBounds := s.Window_Bounds }
        let s := { s with Window_ClientSize := { s.Window_ClientSize with Width := displayWidth } }
        let s := { s with Window_ClientSize := { s.Window_ClientSize with Width := displayHeight } }
        some (Outcome.returned ()
          { s with Window_Bounds := sys.displayBounds, win_state := WINDOW_STATE_FULLSCREEN })

/-- The function `void GLContext_Update(void)`; `n` bounds the nesting of
`GLContext_SetFullscreen`. -/
def GLContext_Update (sys : System) (n : Nat) (s : State) : Option (Outcome Unit) :=
  if s.ctx_pendingFullscreen then
    GLContext_SetFullscreen sys n { s with ctx_pendingFullscreen := false }
  else
    let r : Outcome Unit :=
      if s.ctx_pendingWindowed then
        GLContext_UnsetFullscreen sys { s with ctx_pendingWindowed := false }
      else Outcome.returned () s
    some (r.andThen fun _ s =>
      if s.ctx_fullscreen then Outcome.returned () s
      else
        (GLContext_SetDrawable sys s).andThen fun _ s =>
          Outcome.returned () (call (api (NativeCall.aglUpdateContext s.ctx_handle)) s))

end Carbon

/-! ## X11 backend: window state query -/

namespace X11

/-- The loop of `Window_GetWindowState` over the first `items` entries of `data`: the
locals `fullscreen`, `minimised` and `maximised`, in this order. -/
def Window_GetWindowState_loop (A : Atoms) (data : List Int) (items : Nat) :
    Bool × Bool × Nat :=
  (List.range items).foldl (fun locals i =>
    let atom := data.getD i 0
    if atom = A.net_wm_state_maximized_horizontal ∨
        atom = A.net_wm_state_maximized_vertical then
      (locals.1, locals.2.1, locals.2.2 + 1)
    else if atom = A.net_wm_state_minimized then (locals.1, true, locals.2.2)
    else if atom = A.net_wm_state_fullscreen then (true, locals.2.1, locals.2.2)
    else locals) (false, false, 0)

/-- The function `int Window_GetWindowState(void)`; `reply` is the answer to its
`XGetWindowProperty` query for `_NET_WM_STATE`. -/
def Window_GetWindowState (A : Atoms) (reply : PropertyReply) : WindowState :=
  let locals : Bool × Bool × Nat :=
    match reply.data with
    | some data =>
      if reply.items ≠ 0 then Window_GetWindowState_loop A data reply.items
      else (false, false, 0)
    | none => (false, false, 0)
  if locals.2.1 then WINDOW_STATE_MINIMISED
  else if locals.2.2 = 2 then WINDOW_STATE_MAXIMISED
  else if locals.1 then WINDOW_STATE_FULLSCREEN
  else WINDOW_STATE_NORMAL

end X11

/-! ## Carbon backend: window creation and pixel format attributes -/

namespace Carbon

/-! Constants of `<AGL/agl.h>`. -/
def AGL_RGBA : Int := 4
def AGL_DOUBLEBUFFER : Int := 5
def AGL_RED_SIZE : Int := 8
def AGL_GREEN_SIZE : Int := 9
def AGL_BLUE_SIZE : Int := 10
def AGL_ALPHA_SIZE : Int := 11
def AGL_DEPTH_SIZE : Int := 12
def AGL_STENCIL_SIZE : Int := 13
def AGL_FULLSCREEN : Int := 54

/-- The function `void Window_SetLocation(int x, int y)`. -/
def Window_SetLocation (x y : Int) (s : State) : State :=
  call (api (NativeCall.carbon (CarbonCall.MoveWindow s.win_handle x y))) s

/-- The function `static void Window_ConnectEvents(void)`. -/
def Window_ConnectEvents (sys : System) (s : State) : Outcome Unit :=
  checked sys (call (api (NativeCall.carbon CarbonCall.InstallEventHandler)) s)

/-- The conversion of an `int` to `short`, the type of the four fields of a Carbon `Rect`
(`<MacTypes.h>`): the value modulo 2^16, taken between -32768 and 32767. -/
def toShort (v : Int) : Int := (v + 32768) % 65536 - 32768

/-- The function `void Window_Create(int x, int y, int width, int height, struct
GraphicsMode* mode)`.  The rectangle `r` is a Carbon `Rect`, so the four values are
stored as `short`; `Rect_Width(r)` and `Rect_Height(r)` are differences of the stored
values. -/
def Window_Create (sys : System) (x y width height : Int) (mode : GraphicsMode)
    (s : State) : Outcome Unit :=
  let r_left := toShort x
  let r_right := toShort (x + width)
  let r_top := toShort y
  let r_bottom := toShort (y + height)
  let s := call (api (NativeCall.carbon
    (CarbonCall.CreateNewWindow r_left r_top r_right r_bottom))) s
  if sys.status s.trace ≠ 0 then Outcome.failed (call ErrorHandler_Fail s)
  else
    let s := { s with win_handle := sys.createNewWindow s.trace }
    let s := Window_SetLocation r_left r_right s
    let s := Window_SetSize (r_right - r_left) (r_bottom - r_top) s
    (Window_UpdateSize (sys.structureRgn s.trace) (sys.portRgn s.trace) s).andThen fun _ s =>
      let r := sys.titleBarRgn s.trace
      if r.1 ≠ 0 then Outcome.failed (call ErrorHandler_Fail s)
      else
        let s := { s with title_height := r.2.2.2.2 - r.2.2.1 }
        let s := call (api (NativeCall.carbon CarbonCall.AcquireRootMenu)) s
        let s := call (api (NativeCall.carbon CarbonCall.GetCurrentProcess)) s
        let s := call (api (NativeCall.carbon CarbonCall.TransformProcessType)) s
        let s := call (api (NativeCall.carbon CarbonCall.SetFrontProcess)) s
        (Window_ConnectEvents sys s).andThen fun _ s =>
          Outcome.returned () { s with Window_Exists := true }

/-- The function `static void GLContext_GetAttribs(struct GraphicsMode* mode, int*
attribs, bool fullscreen)`: the values written to `attribs`, in order. -/
def GLContext_GetAttribs (mode : GraphicsMode) (fullscreen : Bool) : List Int :=
  (if !mode.IsIndexed then [AGL_RGBA] else []) ++
  [AGL_RED_SIZE, mode.R, AGL_GREEN_SIZE, mode.G, AGL_BLUE_SIZE, mode.B,
    AGL_ALPHA_SIZE, mode.A] ++
  (if mode.DepthBits ≠ 0 then [AGL_DEPTH_SIZE, mode.DepthBits] else []) ++
  (if mode.StencilBits ≠ 0 then [AGL_STENCIL_SIZE, mode.StencilBits] else []) ++
  (if mode.Buffers > 1 then [AGL_DOUBLEBUFFER] else []) ++
  (if fullscreen then [AGL_FULLSCREEN] else []) ++
  [0]

end Carbon

/-! ## Auxiliary definitions for the statements -/

namespace KeyEnum

/-- The value `v` is the enumerator at position `offset` of `block`, and lies `offset`
above the first enumerator of the block. -/
def InBlock (K : KeyEnum) (block : List Key) (offset v : Nat) : Prop :=
  ∃ k, block[offset]? = some k ∧ v = K k ∧ v = K (block.headD Key_None) + offset

end KeyEnum

/-- A collaborator that numbers the keys in declaration order and treats the first 128
characters as common to both character sets. -/
def Collab.ascii : Collab where
  K := KeyEnum.inOrder
  Convert_TryUnicodeToCP437 := fun u => if u < 128 then some u else none
  Convert_CP437ToUnicode := fun c => c
  String_DecodeUtf8 := fun s bytes => bytes.foldl CString.String_Append s
  Platform_ConvertString := fun s => s.chars

/-- The two-character text "hi" in a buffer of 16. -/
def CString.hi : CString := { chars := [104, 105], capacity := 16 }

namespace Win32

/-- A message that cannot take a window in the Normal state out of it: anything but a
`WM_SIZE` reporting a minimise or a maximise. -/
def Msg.keepsNormal : Msg → Bool
  | Msg.WM_SIZE wParam => wParam ≠ SIZE_MINIMIZED ∧ wParam ≠ SIZE_MAXIMIZED
  | _ => true

/-- What no message handler and no native call changes: the saved bounds and the window
handle stay, and the trace only grows. -/
def Frame (s s' : State) : Prop :=
  s'.prev_bounds = s.prev_bounds ∧ s'.win_handle = s.win_handle ∧ s.trace <+: s'.trace

/-- The call `Window_SetBounds` makes for a rectangle. -/
def setBoundsCall (hwnd : Nat) (rect : Rect2D) : Call :=
  SetWindowPos hwnd rect.X rect.Y rect.Width rect.Height 0

/-- Whether a call is a `SetWindowPos` with no flags, the form only `Window_SetBounds`
uses. -/
def isSetBounds : Call → Bool
  | SetWindowPos _ _ _ _ _ flags => flags = 0
  | _ => false

/-- Windows reports state changes only through `ShowWindow`: the messages delivered on
behalf of any call other than a `ShowWindow` with a restore, maximise or minimise command
keep a Normal window Normal. -/
def OS.SizeOnlyOnShow (os : OS) : Prop :=
  ∀ (h : List Call) (c : Call),
    (∀ hwnd, c ≠ ShowWindow hwnd SW_RESTORE ∧ c ≠ ShowWindow hwnd SW_MAXIMIZE ∧
      c ≠ ShowWindow hwnd SW_MINIMIZE) →
    ∀ m ∈ os.deliver (h ++ [c]), m.keepsNormal = true

/-- Windows reports a restore: the messages delivered on behalf of `ShowWindow` with
`SW_RESTORE` contain a `WM_SIZE` with `SIZE_RESTORED`, and nothing after it reports a
minimise or maximise. -/
def OS.ReportsRestore (os : OS) : Prop :=
  ∀ (h : List Call) (hwnd : Nat),
    ∃ pre post, os.deliver (h ++ [ShowWindow hwnd SW_RESTORE]) =
        pre ++ Msg.WM_SIZE SIZE_RESTORED :: post ∧
      ∀ m ∈ post, m.keepsNormal = true

/-- A Windows that answers `ShowWindow` with the matching `WM_SIZE`, answers
`SetWindowLong` with `WM_STYLECHANGED`, has nothing else to deliver, reports the window
visible, has no foreground window to report and never lets the clipboard be opened. -/
def OS.plain : OS where
  deliver := fun h =>
    match h.getLast? with
    | some (ShowWindow _ command) =>
      if command = SW_RESTORE then [Msg.WM_SIZE SIZE_RESTORED]
      else if command = SW_MAXIMIZE then [Msg.WM_SIZE SIZE_MAXIMIZED]
      else if command = SW_MINIMIZE then [Msg.WM_SIZE SIZE_MINIMIZED]
      else []
    | some (SetWindowLong _ index value) => [Msg.WM_STYLECHANGED index value]
    | _ => []
  isWindowVisible := fun _ => true
  foregroundWindow := fun _ => 0
  adjustWindowRect := fun rect _ => rect
  openClipboard := fun _ => false
  globalAlloc := fun _ => true
  clipboardData := fun _ _ => none

/-- A Windows like `OS.plain` whose clipboard opens at the third attempt. -/
def OS.busyTwice : OS :=
  { OS.plain with
    openClipboard := fun h => 3 ≤ h.countP fun c => c = OpenClipboard 1 }

/-- A window in the Normal state at (10, 20), 640 by 480, with handle 1. -/
def State.sample : State where
  Window_Exists := true
  Window_Focused := true
  Window_Bounds := { X := 10, Y := 20, Width := 640, Height := 480 }
  Window_ClientSize := { Width := 640, Height := 480 }
  win_handle := 1
  win_DC := 2
  win_state := WINDOW_STATE_NORMAL
  invisible_since_creation := true
  suppress_resize := 0
  prev_bounds := { X := 0, Y := 0, Width := 0, Height := 0 }
  win_hiddenBorder := false
  trace := []

/-- The sample window in the Fullscreen state, with the rectangle (10, 20, 640, 480)
saved for the way back. -/
def State.fullscreen : State :=
  { State.sample with
    win_state := WINDOW_STATE_FULLSCREEN
    win_hiddenBorder := true
    prev_bounds := { X := 10, Y := 20, Width := 640, Height := 480 } }

/-- The sample window with bounds of width and height zero at (5, 7). -/
def State.empty : State :=
  { State.sample with Window_Bounds := { X := 5, Y := 7, Width := 0, Height := 0 } }

/-- The calls of `j` failed attempts to open the clipboard, each followed by a sleep of
`ms` milliseconds. -/
def retryTrace (hwnd ms : Nat) : Nat → List Call
  | 0 => []
  | j + 1 => OpenClipboard hwnd :: Thread_Sleep ms :: retryTrace hwnd ms j

/-- Whether a call is an attempt to open the clipboard or a sleep. -/
def isRetry : Call → Bool
  | OpenClipboard _ => true
  | Thread_Sleep _ => true
  | _ => false

/-- Whether a call changes the content of the clipboard. -/
def modifiesClipboard : Call → Bool
  | EmptyClipboard => true
  | SetClipboardData _ _ => true
  | _ => false

end Win32

namespace X11

/-- The result of calling `Window_ProcessEvents` `n` times in a row. -/
def pumps (srv : Server) (A : Atoms) (C : Collab) : Nat → State → State
  | 0, s => s
  | n + 1, s => pumps srv A C n (Window_ProcessEvents srv A C s)

/-- Whether a call raises the Closing notification. -/
def isClosing : Call → Bool
  | Event_RaiseVoid WindowEvents_Closing => true
  | _ => false

/-- Whether a call raises the Closed notification. -/
def isClosed : Call → Bool
  | Event_RaiseVoid WindowEvents_Closed => true
  | _ => false

/-- The number of calls in the trace that satisfy `p`, plus one as long as the exit has
not begun. -/
def closePotential (p : Call → Bool) (s : State) : Nat :=
  s.trace.countP p + (if s.win_isExiting then 0 else 1)

/-- Atoms as a server might hand them out. -/
def Atoms.sample : Atoms where
  wm_destroy := 300
  net_wm_state := 301
  net_wm_state_minimized := 302
  net_wm_state_fullscreen := 303
  net_wm_state_maximized_horizontal := 304
  net_wm_state_maximized_vertical := 305
  net_wm_icon := 306
  net_frame_extents := 307
  xa_clipboard := 308
  xa_targets := 309
  xa_utf8_string := 310
  xa_data_sel := 311

/-- A freshly created 640 by 480 window with handle 7 and an empty event queue. -/
def State.sample : State where
  Window_Exists := true
  Window_Focused := false
  Window_Bounds := { X := 0, Y := 0, Width := 640, Height := 480 }
  Window_ClientSize := { Width := 640, Height := 480 }
  win_handle := 7
  borderLeft := 0
  borderRight := 0
  borderTop := 0
  borderBottom := 0
  win_isExiting := false
  win_visible := false
  clipboard_copy_text := { chars := [], capacity := 256 }
  clipboard_paste_text := { chars := [], capacity := 256 }
  queue := []
  trace := []

/-- A server on which nobody owns any selection and from which no event arrives. -/
def Server.noOwner : Server where
  arrivals := fun _ => []
  selectionOwner := fun _ => 0

/-- A server on which window 9 owns the selection but never answers a conversion request,
and from which no event arrives. -/
def Server.silentOwner : Server where
  arrivals := fun _ => []
  selectionOwner := fun _ => 9

/-- A server that delivers the close request of the window manager, and nothing else, to
every pump. -/
def Server.closing : Server where
  arrivals := fun _ => [XEvent.ClientMessage Atoms.sample.wm_destroy]
  selectionOwner := fun _ => 0

/-- The calls of `n` pumps that find no event, each followed by a sleep of 10 ms. -/
def waitTrace : Nat → List Call
  | 0 => []
  | n + 1 => XCheckEvent :: Thread_Sleep 10 :: waitTrace n

end X11

namespace Carbon

/-- An existing window with handle 5 in the Normal state. -/
def State.sample : State where
  Window_Exists := true
  Window_Focused := true
  Window_Bounds := { X := 0, Y := 0, Width := 640, Height := 502 }
  Window_ClientSize := { Width := 640, Height := 480 }
  Key_KeyRepeat := false
  win_handle := 5
  title_height := 22
  win_state := WINDOW_STATE_NORMAL
  ctx_pendingWindowed := false
  ctx_pendingFullscreen := false
  trace := []

end Carbon


/-- A 24-bit RGBA mode with a 24-bit depth buffer and two buffers. -/
def GraphicsMode.sample : GraphicsMode where
  R := 8
  G := 8
  B := 8
  A := 8
  DepthBits := 24
  StencilBits := 0
  Buffers := 2
  IsIndexed := false

/-- The three-character text "a", NUL, "b" in a buffer of 16. -/
def CString.withNul : CString := { chars := [97, 0, 98], capacity := 16 }

namespace Win32

/-- The Unicode text the clipboard holds after the calls of a trace: what the last
`SetClipboardData` for `CF_UNICODETEXT` placed there, unless `EmptyClipboard` came after
it. -/
def heldUnicodeText (h : List Call) : Option (List Nat) :=
  h.foldl (fun held c =>
    match c with
    | EmptyClipboard => none
    | SetClipboardData format text => if format = CF_UNICODETEXT then some text else held
    | _ => held) none

/-- A Windows like `OS.plain` whose clipboard opens at every attempt and holds the Unicode
text that was placed on it. -/
def OS.clipboard : OS :=
  { OS.plain with
    openClipboard := fun _ => true
    clipboardData := fun h format =>
      if format = CF_UNICODETEXT then heldUnicodeText h else none }

/-- A Windows like `OS.plain` whose clipboard opens at every attempt and holds the ANSI
text "hé!" (bytes 104, 233, 33 and the terminator) and no Unicode text. -/
def OS.ansiClipboard : OS :=
  { OS.plain with
    openClipboard := fun _ => true
    clipboardData := fun _ format => if format = CF_TEXT then some [104, 233, 33, 0] else none }

/-- A driver that creates contexts and hands out the address 4096 for every function
name, but whose extension string names no swap-control extension.  The addresses 0 to 3
count as invalid. -/
def WGL.unadvertised : WGL where
  ChoosePixelFormat := fun _ => 1
  SetPixelFormat := fun _ => true
  wglCreateContext := fun _ => 100
  wglMakeCurrent := fun _ => true
  wglGetCurrentDC := fun _ => 2
  wglGetProcAddress := fun _ => 4096
  extensionsContain := fun _ => false
  GLContext_IsInvalidAddress := fun address => address < 4

end Win32

namespace X11

/-- The X11 backend before `Window_Create`: every file-level variable is zero. -/
def State.initial : State where
  Window_Exists := false
  Window_Focused := false
  Window_Bounds := { X := 0, Y := 0, Width := 0, Height := 0 }
  Window_ClientSize := { Width := 0, Height := 0 }
  win_handle := 0
  borderLeft := 0
  borderRight := 0
  borderTop := 0
  borderBottom := 0
  win_isExiting := false
  win_visible := false
  clipboard_copy_text := { chars := [], capacity := 256 }
  clipboard_paste_text := { chars := [], capacity := 256 }
  queue := []
  trace := []

/-- A GLX 1.4 driver that offers the visual 33 of depth 24, creates direct contexts, names
both swap-control extensions and hands out the address 4096 for every function name.  The
addresses 0 to 3 count as invalid. -/
def GLX.sample : GLX where
  glXQueryVersion := fun _ => some (1, 4)
  glXChooseFBConfig := fun _ => true
  glXGetVisualFromFBConfig := fun _ => some { visual := 33, depth := 24 }
  glXChooseVisual := fun _ => some { visual := 33, depth := 24 }
  glXCreateContext := fun _ => 200
  glXIsDirect := fun _ => true
  glXMakeCurrent := fun _ => true
  extensionsContain := fun _ _ => true
  glXGetProcAddress := fun _ => 4096
  swapInterval := fun _ => 0
  GLContext_IsInvalidAddress := fun address => address < 4

/-- A driver like `GLX.sample` whose extension string names no swap-control extension. -/
def GLX.unadvertised : GLX :=
  { GLX.sample with extensionsContain := fun _ _ => false }

/-- The client size a window manager gives the sample window when it keeps the outer size
640 by 480 and adds a frame of 5 on every side. -/
def framedEvent : XEvent :=
  XEvent.ConfigureNotify 5 5 630 470 { data := some [5, 5, 5, 5], items := 4, prop_type := 6 }

/-- A server that creates window 7 without a frame, and whose window manager answers a
resize to 630 by 470 by putting a frame of 5 around the window on every side. -/
def Server.decorating : Server where
  arrivals := fun h =>
    if h.getLast? = some (api (NativeCall.XResizeWindow 7 630 470)) then [framedEvent] else []
  selectionOwner := fun _ => 0
  createWindow := fun _ => 7

/-- The state in which `Window_Create` for a 640 by 480 window at the origin ends, on the
server `Server.decorating` and the driver `GLX.sample`. -/
def State.created : State :=
  (Window_Create Server.decorating GLX.sample Atoms.sample 0 0 640 480 GraphicsMode.sample
    State.initial).state

/-- The sample window after `Window_Destroy`. -/
def State.destroyed : State := Window_Destroy State.sample

end X11

namespace Carbon

/-- A system on which every call succeeds, the window is neither collapsed nor zoomed and
measures 640 by 502 with a content area of 640 by 480, the display measures 1440 by 900,
and no event is waiting. -/
def System.sample : System where
  structureRgn := fun _ => (0, 0, 0, 640, 502)
  portRgn := fun _ => (0, 0, 22, 640, 502)
  isWindowCollapsed := fun _ => false
  isWindowInStandardState := fun _ => false
  status := fun _ => 0
  agl := fun _ => 1
  aglGetError := fun _ => 0
  displayBounds := { X := 0, Y := 0, Width := 1440, Height := 900 }
  receiveNextEvent := fun _ => Received.timedOut

/-- The sample window with the OpenGL context 9 attached, before its first switch to
fullscreen. -/
def State.ready : State := { State.sample with ctx_handle := 9 }

end Carbon

namespace X11

/-- A driver like `GLX.sample` that reports GLX version 2.0. -/
def GLX.version2 : GLX :=
  { GLX.sample with glXQueryVersion := fun _ => some (2, 0) }

end X11

namespace Carbon

/-- The state a function returned in, `none` when it failed. -/
def Outcome.returnedState {α : Type} : Outcome α → Option State
  | Outcome.returned _ s => some s
  | Outcome.failed _ => none

/-- The result of calling `GLContext_Update` `k` times in a row, as long as each call
returns; `n` bounds the nesting of `GLContext_SetFullscreen` in each call. -/
def updates (sys : System) (n : Nat) : Nat → State → Option State
  | 0, s => some s
  | k + 1, s => ((GLContext_Update sys n s).bind Outcome.returnedState).bind (updates sys n k)

/-- The sample window with the OpenGL context 9 attached, after an earlier visit to
fullscreen. -/
def State.later : State := { State.ready with ctx_firstFullscreen := true }

/-- A system like `System.sample` whose display is 900 wide and 1440 high. -/
def System.portrait : System :=
  { System.sample with displayBounds := { X := 0, Y := 0, Width := 900, Height := 1440 } }

/-- The Carbon backend before `Window_Create`: every file-level variable is zero. -/
def State.initial : State where
  Window_Exists := false
  Window_Focused := false
  Window_Bounds := { X := 0, Y := 0, Width := 0, Height := 0 }
  Window_ClientSize := { Width := 0, Height := 0 }
  Key_KeyRepeat := false
  win_handle := 0
  title_height := 0
  win_state := WINDOW_STATE_NORMAL
  ctx_pendingWindowed := false
  ctx_pendingFullscreen := false
  trace := []

end Carbon

/-- An attribute list as the function it is passed to reads it: the list ends at the first
attribute 0, an attribute named in `flags` stands alone, and any other attribute is followed
by its value.  The result has one entry for each attribute, with the value if it has one. -/
def attribEntries (flags : List Int) : List Int → List (Int × Option Int)
  | [] => []
  | [a] => if a = 0 then [] else [(a, none)]
  | a :: v :: rest =>
    if a = 0 then []
    else if a ∈ flags then (a, none) :: attribEntries flags (v :: rest)
    else (a, some v) :: attribEntries flags rest

namespace Win32

/-- Whether a call raises the `Resized` notification. -/
def isResized : Call → Bool
  | Event_RaiseVoid WindowEvents_Resized => true
  | _ => false

/-- Whether a call is a `SetWindowLong`, the call that changes the border style. -/
def isSetWindowLong : Call → Bool
  | SetWindowLong _ _ _ => true
  | _ => false

/-- What a balanced step does to the resize-suppression counter: the counter is what it
was before the step, and a step that starts with the counter at `least` or more raises no
`Resized` notification. -/
def Balanced (least : Int) (s s' : State) : Prop :=
  s'.suppress_resize = s.suppress_resize ∧
  (least ≤ s.suppress_resize → s'.trace.countP isResized = s.trace.countP isResized)

end Win32

namespace Win32

/-- The last step of `Window_SetWindowState` after the restore command: "Restore previous
window size/location if necessary". -/
def restoreSavedBounds (os : OS) (C : Collab) (s : State) : State :=
  if s.prev_bounds.Width ≠ 0 ∨ s.prev_bounds.Height ≠ 0 then
    let s := Window_SetBounds os C s.prev_bounds s
    { s with prev_bounds := { s.prev_bounds with Width := 0, Height := 0 } }
  else s

/-- Whether a call is a `ShowWindow` or a `SetWindowLong`. -/
def isShowOrStyle : Call → Bool
  | ShowWindow _ _ => true
  | SetWindowLong _ _ _ => true
  | _ => false

end Win32

namespace Win32

/-- Whether a call is a `ShowWindow` with the restore command. -/
def isRestoreCall : Call → Bool
  | ShowWindow _ command => command = SW_RESTORE
  | _ => false

/-- A Windows like `OS.plain` that restores a minimised window to the maximised state it
had before it was minimised: the first `ShowWindow` with `SW_RESTORE` is answered with
`SIZE_MAXIMIZED`, every later one with `SIZE_RESTORED`. -/
def OS.restoresMaximised : OS :=
  { OS.plain with
    deliver := fun h =>
      match h.getLast? with
      | some (ShowWindow _ command) =>
        if command = SW_RESTORE ∧ h.countP isRestoreCall = 1 then
          [Msg.WM_SIZE SIZE_MAXIMIZED]
        else OS.plain.deliver h
      | _ => OS.plain.deliver h }

/-- The sample window minimised. -/
def State.minimised : State := { State.sample with win_state := WINDOW_STATE_MINIMISED }

end Win32

namespace Win32

end Win32
/-! # Theorems -/

/-! ## Key mapping -/

/-- In a block of consecutively numbered enumerators, the enumerator at offset `i` has
value `base + i`. -/
theorem KeyEnum.block_offset (K : KeyEnum) (l : List Key) (base n i : Nat)
    (h : l.map K = List.range' base n) (hi : i < n) :
    ∃ k, l[i]? = some k ∧ K k = base + i := by
  have h1 := congrArg (fun xs => xs[i]?) h
  simp only [List.getElem?_map] at h1
  have h2 : (List.range' base n)[i]? = some (base + i) := by
    simp [List.getElem?_range', hi]
  rw [h2] at h1
  cases hk : l[i]? with
  | none => simp [hk] at h1
  | some k =>
    refine ⟨k, rfl, ?_⟩
    simpa [hk] using h1

/-- The result of a `switch` that returns enumerators is a declared enumerator. -/
theorem KeyEnum.declared_switch (K : KeyEnum) (cases : List (Nat × Key)) (key : Nat) :
    K.Declared (K (switchReturn cases Key_None key)) :=
  ⟨_, rfl⟩

/-- A value at an offset inside a consecutively numbered block is declared and sits in
the block at that offset. -/
theorem KeyEnum.inBlock_of_offset (K : KeyEnum) (block full : List Key) (n m i : Nat)
    (hfull : full.map K = List.range' (K (full.headD Key_None)) m)
    (hblock : block = full.take n) (hn : 0 < n) (hnm : n ≤ m) (hi : i < n) :
    K.InBlock block i (K (full.headD Key_None) + i) := by
  obtain ⟨k, hk, hv⟩ := KeyEnum.block_offset K full _ m i hfull (by omega)
  refine ⟨k, ?_, hv.symm, ?_⟩
  · subst hblock
    rw [List.getElem?_take_of_lt hi]
    exact hk
  · subst hblock
    cases full with
    | nil => simp
    | cons a rest =>
      cases n with
      | zero => omega
      | succ n => simp

/-- C1. For every native key code, each backend's `Window_MapKey` yields the value of a
declared enumerator of `Key` (`Key_None` included), provided the enumeration numbers each
of its four blocks consecutively.  The range shortcuts stay inside their block and keep
the offset: Win32 `VK_F1..VK_F24` go to `Key_F1..Key_F24`, X11 `XK_F1..XK_F35` to
`Key_F1..Key_F35`, digits to `Key_0..Key_9`, letters (on X11 also lower case) to
`Key_A..Key_Z`, keypad digits to `Key_Keypad0..Key_Keypad9`. -/
theorem Window_MapKey_declared (K : KeyEnum) (hK : K.Blocks) (key : Nat) :
    (K.Declared (Win32.Window_MapKey K key) ∧
      K.Declared (X11.Window_MapKey K key) ∧
      K.Declared (Carbon.Window_MapKey K key)) ∧
    (Win32.VK_F1 ≤ key → key ≤ Win32.VK_F24 →
      K.InBlock (KeyEnum.blockF.take 24) (key - Win32.VK_F1) (Win32.Window_MapKey K key)) ∧
    (Win32.chr_0 ≤ key → key ≤ Win32.chr_9 →
      K.InBlock KeyEnum.blockDigit (key - Win32.chr_0) (Win32.Window_MapKey K key)) ∧
    (Win32.chr_A ≤ key → key ≤ Win32.chr_Z →
      K.InBlock KeyEnum.blockLetter (key - Win32.chr_A) (Win32.Window_MapKey K key)) ∧
    (Win32.VK_NUMPAD0 ≤ key → key ≤ Win32.VK_NUMPAD9 →
      K.InBlock KeyEnum.blockKeypad (key - Win32.VK_NUMPAD0) (Win32.Window_MapKey K key)) ∧
    (X11.XK_F1 ≤ key → key ≤ X11.XK_F35 →
      K.InBlock KeyEnum.blockF (key - X11.XK_F1) (X11.Window_MapKey K key)) ∧
    (X11.XK_0 ≤ key → key ≤ X11.XK_9 →
      K.InBlock KeyEnum.blockDigit (key - X11.XK_0) (X11.Window_MapKey K key)) ∧
    (X11.XK_A ≤ key → key ≤ X11.XK_Z →
      K.InBlock KeyEnum.blockLetter (key - X11.XK_A) (X11.Window_MapKey K key)) ∧
    (X11.XK_a ≤ key → key ≤ X11.XK_z →
      K.InBlock KeyEnum.blockLetter (key - X11.XK_a) (X11.Window_MapKey K key)) ∧
    (X11.XK_KP_0 ≤ key → key ≤ X11.XK_KP_9 →
      K.InBlock KeyEnum.blockKeypad (key - X11.XK_KP_0) (X11.Window_MapKey K key)) := by
  obtain ⟨hF, hD, hL, hP⟩ := hK
  have bF : ∀ n i, 0 < n → n ≤ 35 → i < n →
      K.InBlock (KeyEnum.blockF.take n) i (K Key_F1 + i) := fun n i h0 h1 h2 =>
    KeyEnum.inBlock_of_offset K _ KeyEnum.blockF n 35 i hF rfl h0 h1 h2
  have bD : ∀ i, i < 10 → K.InBlock KeyEnum.blockDigit i (K Key_0 + i) := fun i h =>
    KeyEnum.inBlock_of_offset K _ KeyEnum.blockDigit 10 10 i hD rfl (by omega) (by omega) h
  have bL : ∀ i, i < 26 → K.InBlock KeyEnum.blockLetter i (K Key_A + i) := fun i h =>
    KeyEnum.inBlock_of_offset K _ KeyEnum.blockLetter 26 26 i hL rfl (by omega) (by omega) h
  have bP : ∀ i, i < 10 → K.InBlock KeyEnum.blockKeypad i (K Key_Keypad0 + i) := fun i h =>
    KeyEnum.inBlock_of_offset K _ KeyEnum.blockKeypad 10 10 i hP rfl (by omega) (by omega) h
  have decl : ∀ {block : List Key} {i v : Nat}, K.InBlock block i v → K.Declared v :=
    fun h => h.elim fun k hk => ⟨k, hk.2.1⟩
  simp only [Win32.VK_F1, Win32.VK_F24, Win32.chr_0, Win32.chr_9, Win32.chr_A, Win32.chr_Z,
    Win32.VK_NUMPAD0, Win32.VK_NUMPAD9, X11.XK_F1, X11.XK_F35, X11.XK_0, X11.XK_9, X11.XK_A,
    X11.XK_Z, X11.XK_a, X11.XK_z, X11.XK_KP_0, X11.XK_KP_9] at *
  refine ⟨⟨?_, ?_, KeyEnum.declared_switch K _ key⟩, ?_, ?_, ?_, ?_, ?_, ?_, ?_, ?_, ?_⟩
  · unfold Win32.Window_MapKey
    simp only [Win32.VK_F1, Win32.VK_F24, Win32.chr_0, Win32.chr_9, Win32.chr_A, Win32.chr_Z,
      Win32.VK_NUMPAD0, Win32.VK_NUMPAD9]
    split_ifs with h1 h2 h3 h4
    · exact decl (bF 24 _ (by omega) (by omega) (by omega))
    · exact decl (bD _ (by omega))
    · exact decl (bL _ (by omega))
    · exact decl (bP _ (by omega))
    · exact KeyEnum.declared_switch K _ key
  · unfold X11.Window_MapKey
    simp only [X11.XK_F1, X11.XK_F35, X11.XK_0, X11.XK_9, X11.XK_A,
      X11.XK_Z, X11.XK_a, X11.XK_z, X11.XK_KP_0, X11.XK_KP_9]
    split_ifs with h1 h2 h3 h4 h5
    · exact decl (bF 35 _ (by omega) (by omega) (by omega))
    · exact decl (bD _ (by omega))
    · exact decl (bL _ (by omega))
    · exact decl (bL _ (by omega))
    · exact decl (bP _ (by omega))
    · exact KeyEnum.declared_switch K _ key
  · intro h1 h2
    have : Win32.Window_MapKey K key = K Key_F1 + (key - 112) := by
      simp [Win32.Window_MapKey, Win32.VK_F1, Win32.VK_F24, h1, h2]
    rw [this]
    exact bF 24 _ (by omega) (by omega) (by omega)
  · intro h1 h2
    have : Win32.Window_MapKey K key = K Key_0 + (key - 48) := by
      have : ¬ (112 ≤ key) := by omega
      simp [Win32.Window_MapKey, Win32.VK_F1, Win32.VK_F24, Win32.chr_0, Win32.chr_9, h1, h2,
        this]
    rw [this]
    exact bD _ (by omega)
  · intro h1 h2
    have : Win32.Window_MapKey K key = K Key_A + (key - 65) := by
      have h3 : ¬ (112 ≤ key) := by omega
      have h4 : ¬ (key ≤ 57) := by omega
      simp [Win32.Window_MapKey, Win32.VK_F1, Win32.VK_F24, Win32.chr_0, Win32.chr_9,
        Win32.chr_A, Win32.chr_Z, h1, h2, h3, h4]
    rw [this]
    exact bL _ (by omega)
  · intro h1 h2
    have : Win32.Window_MapKey K key = K Key_Keypad0 + (key - 96) := by
      have h3 : ¬ (112 ≤ key) := by omega
      have h4 : ¬ (key ≤ 57) := by omega
      have h5 : ¬ (key ≤ 90) := by omega
      simp [Win32.Window_MapKey, Win32.VK_F1, Win32.VK_F24, Win32.chr_0, Win32.chr_9,
        Win32.chr_A, Win32.chr_Z, Win32.VK_NUMPAD0, Win32.VK_NUMPAD9, h1, h2, h3, h4, h5]
    rw [this]
    exact bP _ (by omega)
  · intro h1 h2
    have : X11.Window_MapKey K key = K Key_F1 + (key - 65470) := by
      simp [X11.Window_MapKey, X11.XK_F1, X11.XK_F35, h1, h2]
    rw [this]
    have := bF 35 (key - 65470) (by omega) (by omega) (by omega)
    simpa using this
  · intro h1 h2
    have : X11.Window_MapKey K key = K Key_0 + (key - 48) := by
      have h3 : ¬ (65470 ≤ key) := by omega
      simp [X11.Window_MapKey, X11.XK_F1, X11.XK_F35, X11.XK_0, X11.XK_9, h1, h2, h3]
    rw [this]
    exact bD _ (by omega)
  · intro h1 h2
    have : X11.Window_MapKey K key = K Key_A + (key - 65) := by
      have h3 : ¬ (65470 ≤ key) := by omega
      have h4 : ¬ (key ≤ 57) := by omega
      simp [X11.Window_MapKey, X11.XK_F1, X11.XK_F35, X11.XK_0, X11.XK_9, X11.XK_A, X11.XK_Z,
        h1, h2, h3, h4]
    rw [this]
    exact bL _ (by omega)
  · intro h1 h2
    have : X11.Window_MapKey K key = K Key_A + (key - 97) := by
      have h3 : ¬ (65470 ≤ key) := by omega
      have h4 : ¬ (key ≤ 57) := by omega
      have h5 : ¬ (key ≤ 90) := by omega
      simp [X11.Window_MapKey, X11.XK_F1, X11.XK_F35, X11.XK_0, X11.XK_9, X11.XK_A, X11.XK_Z,
        X11.XK_a, X11.XK_z, h1, h2, h3, h4, h5]
    rw [this]
    exact bL _ (by omega)
  · intro h1 h2
    have : X11.Window_MapKey K key = K Key_Keypad0 + (key - 65456) := by
      have h3 : ¬ (65470 ≤ key) := by omega
      have h4 : ¬ (key ≤ 57) := by omega
      have h5 : ¬ (key ≤ 90) := by omega
      have h6 : ¬ (key ≤ 122) := by omega
      simp [X11.Window_MapKey, X11.XK_F1, X11.XK_F35, X11.XK_0, X11.XK_9, X11.XK_A, X11.XK_Z,
        X11.XK_a, X11.XK_z, X11.XK_KP_0, X11.XK_KP_9, h1, h2, h3, h4, h5, h6]
    rw [this]
    exact bP _ (by omega)

/-- Witness for C1: with the enumerators numbered in declaration order, the Win32 code
`VK_F2` is declared and is `Key_F2`, the second key of its block. -/
theorem Window_MapKey_declared_witness :
    KeyEnum.Blocks KeyEnum.inOrder ∧
    KeyEnum.Declared KeyEnum.inOrder (Win32.Window_MapKey KeyEnum.inOrder 0x71) ∧
    KeyEnum.InBlock KeyEnum.inOrder (KeyEnum.blockF.take 24) (0x71 - Win32.VK_F1)
      (Win32.Window_MapKey KeyEnum.inOrder 0x71) :=
  ⟨by decide, (Window_MapKey_declared KeyEnum.inOrder (by decide) 0x71).1.1,
    (Window_MapKey_declared KeyEnum.inOrder (by decide) 0x71).2.1 (by decide) (by decide)⟩

/-! ## Unmapped keys, destruction and closing -/

/-- C2 (the code at the failing input).  A key-down for the virtual key `0xFF` on Win32 and
a key release for the key symbol `0xffed` on X11 both map to `Key_None`, and the handlers
leave the whole state, trace included, as it was: no key changes, but no log line either.
Only the Carbon handler, here for key code `0x0A`, emits the log line. -/
theorem unmapped_key_not_logged (A : X11.Atoms) (C : Collab) (w : Win32.State)
    (x : X11.State) (c : Carbon.State) :
    (Win32.Window_MapKey C.K 0xFF = C.K Key_None ∧
      Win32.Window_Procedure C
        (Win32.Msg.key Win32.KeyMessage.WM_KEYDOWN 0xFF 0 false false) w = w) ∧
    (X11.Window_MapKey C.K 0xffed = C.K Key_None ∧
      X11.Window_ProcessEvent A C (X11.XEvent.KeyRelease 0xffed 0) x = x) ∧
    (Carbon.Window_MapKey C.K 0x0A = C.K Key_None ∧
      (Carbon.Window_ProcessKeyboardEvent C
        { kind := Carbon.KeyboardEventKind.kEventRawKeyUp, keyCode := (0, 0x0A),
          macCharCodes := (0, 0), keyModifiers := (0, 0) } c).state.trace =
        c.trace ++ [Platform_Log (LogLine.keyNotMapped 0x0A)]) := by
  have hw : Win32.Window_MapKey C.K 0xFF = C.K Key_None := by
    simp [Win32.Window_MapKey, Win32.VK_F1, Win32.VK_F24, Win32.chr_0, Win32.chr_9,
      Win32.chr_A, Win32.chr_Z, Win32.VK_NUMPAD0, Win32.VK_NUMPAD9]
    rfl
  have hx : X11.Window_MapKey C.K 0xffed = C.K Key_None := by
    simp [X11.Window_MapKey, X11.XK_F1, X11.XK_F35, X11.XK_0, X11.XK_9, X11.XK_A,
      X11.XK_Z, X11.XK_a, X11.XK_z, X11.XK_KP_0, X11.XK_KP_9]
    rfl
  have hx0 : X11.Window_MapKey C.K 0 = C.K Key_None := by
    simp [X11.Window_MapKey, X11.XK_F1, X11.XK_F35, X11.XK_0, X11.XK_9, X11.XK_A,
      X11.XK_Z, X11.XK_a, X11.XK_z, X11.XK_KP_0, X11.XK_KP_9]
    rfl
  have hc : Carbon.Window_MapKey C.K 0x0A = C.K Key_None := rfl
  refine ⟨⟨hw, ?_⟩, ⟨hx, ?_⟩, hc, ?_⟩
  · simp [Win32.Window_Procedure, Win32.Window_Procedure_key, hw, Win32.VK_SHIFT,
      Win32.VK_CONTROL, Win32.VK_MENU, Win32.VK_RETURN]
  · simp [X11.Window_ProcessEvent, X11.Window_ToggleKey, hx, hx0]
  · simp [Carbon.Window_ProcessKeyboardEvent, hc, Carbon.Outcome.state, Carbon.call]

/-- C3 (the code at the failing input).  On Win32 and Carbon a second `Window_Destroy` is
a no-op, but on X11 a second call, made while `Window_Exists` is already false, again
issues `XSync` and `XDestroyWindow`. -/
theorem Window_Destroy_twice (w : Win32.State) (x : X11.State) (c : Carbon.State) :
    Win32.Window_Destroy (Win32.Window_Destroy w) = Win32.Window_Destroy w ∧
    Carbon.Window_Destroy (Carbon.Window_Destroy c) = Carbon.Window_Destroy c ∧
    (X11.Window_Destroy x).Window_Exists = false ∧
    (X11.Window_Destroy (X11.Window_Destroy x)).trace =
      (X11.Window_Destroy x).trace ++ [XSync true, XDestroyWindow x.win_handle] := by
  refine ⟨?_, ?_, rfl, ?_⟩
  · unfold Win32.Window_Destroy
    by_cases h : w.Window_Exists <;> simp [h]
  · unfold Carbon.Window_Destroy
    by_cases h : c.Window_Exists <;> simp [h]
  · simp [X11.Window_Destroy, X11.call]

/-- A call that does not satisfy `p` leaves the potential of `p` as it is. -/
theorem X11.closePotential_call (p : Call → Bool) (c : Call) (s : X11.State)
    (h : p c = false) :
    X11.closePotential p (X11.call c s) = X11.closePotential p s := by
  simp [X11.closePotential, X11.call, List.countP_append, List.countP_cons, h]

/-- The potential only depends on the trace and on the exit flag. -/
theorem X11.closePotential_congr (p : Call → Bool) (s s' : X11.State)
    (h1 : s'.trace = s.trace) (h2 : s'.win_isExiting = s.win_isExiting) :
    X11.closePotential p s' = X11.closePotential p s := by
  simp [X11.closePotential, h1, h2]

/-- Raising the key-press characters of a text leaves the potential as it is. -/
theorem X11.closePotential_text (C : Collab) (p : Call → Bool)
    (hp : p = X11.isClosing ∨ p = X11.isClosed) (text : List Nat) (s : X11.State) :
    X11.closePotential p (text.foldl (fun s b =>
        match C.Convert_TryUnicodeToCP437 (b % 256) with
        | none => s
        | some raw => X11.call (Event_RaiseInt_KeyPress raw) s) s) =
      X11.closePotential p s := by
  induction text generalizing s with
  | nil => rfl
  | cons b rest ih =>
    simp only [List.foldl_cons]
    cases hb : C.Convert_TryUnicodeToCP437 (b % 256) with
    | none => simpa using ih s
    | some raw =>
      simp only []
      rw [ih, X11.closePotential_call]
      rcases hp with rfl | rfl <;> rfl

/-- Toggling a key leaves the potential as it is. -/
theorem X11.closePotential_toggle (C : Collab) (p : Call → Bool)
    (hp : p = X11.isClosing ∨ p = X11.isClosed) (k1 k2 : Nat) (pressed : Bool)
    (s : X11.State) :
    X11.closePotential p (X11.Window_ToggleKey C k1 k2 pressed s) =
      X11.closePotential p s := by
  simp only [X11.Window_ToggleKey]
  split_ifs <;> first
    | rfl
    | (rw [X11.closePotential_call]; rcases hp with rfl | rfl <;> rfl)

/-- Refreshing the bounds leaves the potential as it is. -/
theorem X11.closePotential_refresh (p : Call → Bool)
    (hp : p = X11.isClosing ∨ p = X11.isClosed) (x y w h : Int) (reply : X11.PropertyReply)
    (s : X11.State) :
    X11.closePotential p (X11.Window_RefreshBounds x y w h reply s) =
      X11.closePotential p s := by
  have hb : X11.closePotential p (X11.Window_RefreshBorders reply s) =
      X11.closePotential p s := by
    unfold X11.Window_RefreshBorders
    split
    · rfl
    · split_ifs <;> rfl
  simp only [X11.Window_RefreshBounds]
  rw [← hb]
  generalize X11.Window_RefreshBorders reply s = s'
  have hM : p (Event_RaiseVoid WindowEvents_Moved) = false := by
    rcases hp with rfl | rfl <;> rfl
  have hR : p (Event_RaiseVoid WindowEvents_Resized) = false := by
    rcases hp with rfl | rfl <;> rfl
  split_ifs <;>
    simp [X11.closePotential, X11.call, List.countP_append, List.countP_cons, hM, hR]

/-- Handling one X11 event does not raise the potential of the Closing or of the Closed
notification. -/
theorem X11.Window_ProcessEvent_potential (A : X11.Atoms) (C : Collab) (e : X11.XEvent)
    (s : X11.State) (p : Call → Bool) (hp : p = X11.isClosing ∨ p = X11.isClosed) :
    X11.closePotential p (X11.Window_ProcessEvent A C e s) ≤ X11.closePotential p s := by
  have hcall : ∀ (c : Call) (s : X11.State), X11.isClosing c = false →
      X11.isClosed c = false →
      X11.closePotential p (X11.call c s) = X11.closePotential p s := by
    intro c s h1 h2
    apply X11.closePotential_call
    rcases hp with rfl | rfl <;> assumption
  cases e with
  | MapNotify =>
    simp only [X11.Window_ProcessEvent]
    split_ifs
    · rw [hcall _ _ (by rfl) (by rfl)]; exact le_of_eq (X11.closePotential_congr p _ _ rfl rfl)
    · exact le_of_eq (X11.closePotential_congr p _ _ rfl rfl)
  | UnmapNotify =>
    simp only [X11.Window_ProcessEvent]
    split_ifs
    · rw [hcall _ _ (by rfl) (by rfl)]; exact le_of_eq (X11.closePotential_congr p _ _ rfl rfl)
    · exact le_of_eq (X11.closePotential_congr p _ _ rfl rfl)
  | ClientMessage data0 =>
    simp only [X11.Window_ProcessEvent]
    by_cases h : s.win_isExiting = true
    · simp [h]
    · by_cases h2 : data0 = A.wm_destroy
      · rcases hp with rfl | rfl <;>
          simp [h, h2, X11.Window_Destroy, X11.call, X11.closePotential, List.countP_append,
            List.countP_cons, X11.isClosing, X11.isClosed]
      · simp [h, h2]
  | DestroyNotify =>
    simp only [X11.Window_ProcessEvent]
    exact le_of_eq ((X11.closePotential_congr p _ _ rfl rfl).trans (hcall _ _ (by rfl) (by rfl)))
  | ConfigureNotify x y w h reply =>
    exact le_of_eq (X11.closePotential_refresh p hp x y w h reply s)
  | Expose count =>
    simp only [X11.Window_ProcessEvent]
    split_ifs
    · rw [hcall _ _ (by rfl) (by rfl)]
    · exact le_refl _
  | KeyPress k1 k2 text =>
    simp only [X11.Window_ProcessEvent]
    rw [X11.closePotential_text C p hp, hcall _ _ (by rfl) (by rfl), X11.closePotential_toggle C p hp]
  | KeyRelease k1 k2 =>
    simp only [X11.Window_ProcessEvent]
    rw [X11.closePotential_toggle C p hp]
  | ButtonPress button =>
    simp only [X11.Window_ProcessEvent]
    split_ifs <;> first | exact le_refl _ | (rw [hcall _ _ (by rfl) (by rfl)])
  | ButtonRelease button =>
    simp only [X11.Window_ProcessEvent]
    split_ifs <;> first | exact le_refl _ | (rw [hcall _ _ (by rfl) (by rfl)])
  | MotionNotify x y =>
    simp only [X11.Window_ProcessEvent]
    rw [hcall _ _ (by rfl) (by rfl)]
  | FocusIn mode =>
    simp only [X11.Window_ProcessEvent]
    split_ifs
    · exact le_refl _
    · rw [hcall _ _ (by rfl) (by rfl)]; exact le_of_eq (X11.closePotential_congr p _ _ rfl rfl)
    · exact le_of_eq (X11.closePotential_congr p _ _ rfl rfl)
  | FocusOut mode =>
    simp only [X11.Window_ProcessEvent]
    split_ifs
    · exact le_refl _
    · rw [hcall _ _ (by rfl) (by rfl)]; exact le_of_eq (X11.closePotential_congr p _ _ rfl rfl)
    · exact le_of_eq (X11.closePotential_congr p _ _ rfl rfl)
  | MappingNotify request =>
    simp only [X11.Window_ProcessEvent]
    split_ifs
    · rw [hcall _ _ (by rfl) (by rfl), hcall _ _ (by rfl) (by rfl)]
    · exact le_refl _
  | PropertyNotify atom =>
    simp only [X11.Window_ProcessEvent]
    split_ifs
    · rw [hcall _ _ (by rfl) (by rfl)]
    · exact le_refl _
  | SelectionNotify sel target prop reply =>
    simp only [X11.Window_ProcessEvent]
    by_cases h1 : sel = A.xa_clipboard ∧ target = A.xa_utf8_string ∧ prop = A.xa_data_sel
    · rw [if_pos h1]
      have h0 : X11.closePotential p
          (X11.call (XDeleteProperty s.win_handle A.xa_data_sel)
            (X11.call (XGetWindowProperty s.win_handle A.xa_data_sel)
              { s with clipboard_paste_text := s.clipboard_paste_text.clear })) =
          X11.closePotential p s := by
        rw [hcall _ _ (by rfl) (by rfl), hcall _ _ (by rfl) (by rfl)]
        exact X11.closePotential_congr p _ _ rfl rfl
      cases hd : reply.data with
      | none => exact le_of_eq h0
      | some data =>
        simp only []
        split_ifs
        · exact le_of_eq ((X11.closePotential_congr p _ _ rfl rfl).trans h0)
        · exact le_of_eq h0
    · rw [if_neg h1]
      exact le_of_eq (X11.closePotential_congr p _ _ rfl rfl)
  | SelectionRequest requestor selection target property time =>
    simp only [X11.Window_ProcessEvent]
    rw [hcall _ _ (by rfl) (by rfl)]
    split_ifs <;> first | exact le_refl _ | (rw [hcall _ _ (by rfl) (by rfl)])
  | other type => exact le_refl _

/-- The event loop of `Window_ProcessEvents` does not raise the potential. -/
theorem X11.Window_ProcessEvents_loop_potential (A : X11.Atoms) (C : Collab)
    (p : Call → Bool) (hp : p = X11.isClosing ∨ p = X11.isClosed) (n : Nat) (s : X11.State) :
    X11.closePotential p (X11.Window_ProcessEvents_loop A C n s) ≤ X11.closePotential p s := by
  induction n generalizing s with
  | zero => exact le_refl _
  | succ n ih =>
    simp only [X11.Window_ProcessEvents_loop]
    split_ifs
    · exact le_refl _
    · have hc : X11.closePotential p (X11.call XCheckEvent s) = X11.closePotential p s := by
        apply X11.closePotential_call
        rcases hp with rfl | rfl <;> rfl
      cases hq : X11.Window_GetPendingEvent (X11.call XCheckEvent s).queue with
      | none => exact le_of_eq hc
      | some er =>
        obtain ⟨e, rest⟩ := er
        simp only []
        refine le_trans (ih _) (le_trans (X11.Window_ProcessEvent_potential A C e _ p hp) ?_)
        exact le_of_eq ((X11.closePotential_congr p _ _ rfl rfl).trans hc)

/-- Any number of pumps in a row does not raise the potential. -/
theorem X11.pumps_potential (srv : X11.Server) (A : X11.Atoms) (C : Collab)
    (p : Call → Bool) (hp : p = X11.isClosing ∨ p = X11.isClosed) (n : Nat) (s : X11.State) :
    X11.closePotential p (X11.pumps srv A C n s) ≤ X11.closePotential p s := by
  induction n generalizing s with
  | zero => exact le_refl _
  | succ n ih =>
    simp only [X11.pumps]
    refine le_trans (ih _) ?_
    simp only [X11.Window_ProcessEvents]
    exact le_trans (X11.Window_ProcessEvents_loop_potential A C p hp _ _)
      (le_of_eq (X11.closePotential_congr p _ _ rfl rfl))

/-- C4. On X11, handling the `WM_DELETE_WINDOW` client message while `win_isExiting` is
false logs, raises Closing, destroys the window (`XSync`, `XDestroyWindow`, after which
`Window_Exists` is false) and then raises Closed, in that order; and over any number of
calls of `Window_ProcessEvents`, whatever events arrive, Closing and Closed are each
raised at most once more. -/
theorem Window_ProcessEvents_closes_once (srv : X11.Server) (A : X11.Atoms) (C : Collab)
    (s : X11.State) (h : s.win_isExiting = false) :
    ((X11.Window_ProcessEvent A C (X11.XEvent.ClientMessage A.wm_destroy) s).trace =
        s.trace ++ [Platform_Log LogLine.exitMessageReceived,
          Event_RaiseVoid WindowEvents_Closing, XSync true, XDestroyWindow s.win_handle,
          Event_RaiseVoid WindowEvents_Closed] ∧
      (X11.Window_ProcessEvent A C (X11.XEvent.ClientMessage A.wm_destroy) s).Window_Exists
        = false) ∧
    ∀ n : Nat,
      (X11.pumps srv A C n s).trace.countP X11.isClosing ≤ s.trace.countP X11.isClosing + 1 ∧
      (X11.pumps srv A C n s).trace.countP X11.isClosed ≤ s.trace.countP X11.isClosed + 1 := by
  refine ⟨⟨?_, ?_⟩, fun n => ⟨?_, ?_⟩⟩
  · simp [X11.Window_ProcessEvent, X11.Window_Destroy, X11.call, h]
  · simp [X11.Window_ProcessEvent, X11.Window_Destroy, X11.call, h]
  · have := X11.pumps_potential srv A C X11.isClosing (Or.inl rfl) n s
    simp only [X11.closePotential, h] at this
    exact le_trans (Nat.le_add_right _ _) (by simpa using this)
  · have := X11.pumps_potential srv A C X11.isClosed (Or.inr rfl) n s
    simp only [X11.closePotential, h] at this
    exact le_trans (Nat.le_add_right _ _) (by simpa using this)

/-- Witness for C4: a fresh window to which the server delivers a close request at each
of three pumps raises Closing once and Closed once. -/
theorem Window_ProcessEvents_closes_once_witness :
    X11.State.sample.win_isExiting = false ∧
    (X11.pumps X11.Server.closing X11.Atoms.sample Collab.ascii 3
      X11.State.sample).trace.countP X11.isClosing ≤ 0 + 1 ∧
    (X11.pumps X11.Server.closing X11.Atoms.sample Collab.ascii 3
      X11.State.sample).trace = [XCheckEvent, Platform_Log LogLine.exitMessageReceived,
        Event_RaiseVoid WindowEvents_Closing, XSync true, XDestroyWindow 7,
        Event_RaiseVoid WindowEvents_Closed] :=
  ⟨rfl, ((Window_ProcessEvents_closes_once X11.Server.closing X11.Atoms.sample Collab.ascii
    X11.State.sample rfl).2 3).1, by decide⟩

/-- C5 (the code at the failing input).  On Carbon `Window_Close` raises Closed, not
Closing, and raises it before the window is disposed: the calls it adds are the Closed
notification followed, when the window exists, by `DisposeWindow`. -/
theorem Window_Close_raises_closed_first (s : Carbon.State) :
    (Carbon.Window_Close s).trace =
      s.trace ++ Event_RaiseVoid WindowEvents_Closed ::
        (if s.Window_Exists then [DisposeWindow s.win_handle] else []) ∧
    (Carbon.Window_Close Carbon.State.sample).trace =
      [Event_RaiseVoid WindowEvents_Closed, DisposeWindow 5] := by
  refine ⟨?_, by decide⟩
  unfold Carbon.Window_Close Carbon.Window_Destroy
  by_cases h : s.Window_Exists <;> simp [h, Carbon.call]

/-! ## Win32: window state from `WM_SIZE` -/

/-- C6. On Win32 the `WM_SIZE` handler sets `win_state` to Normal for `SIZE_RESTORED`, to
Minimised for `SIZE_MINIMIZED`, and for `SIZE_MAXIMIZED` to Fullscreen when
`win_hiddenBorder` is set and to Maximised when it is not; any other `wParam` leaves
`win_state` as it was; and StateChanged is raised exactly when `win_state` changes (the
handler then passes the message on to `DefWindowProc`). -/
theorem Window_Procedure_WM_SIZE (C : Collab) (s : Win32.State) :
    (Win32.Window_Procedure C (Win32.Msg.WM_SIZE Win32.SIZE_RESTORED) s).win_state =
      WINDOW_STATE_NORMAL ∧
    (Win32.Window_Procedure C (Win32.Msg.WM_SIZE Win32.SIZE_MINIMIZED) s).win_state =
      WINDOW_STATE_MINIMISED ∧
    (s.win_hiddenBorder = true →
      (Win32.Window_Procedure C (Win32.Msg.WM_SIZE Win32.SIZE_MAXIMIZED) s).win_state =
        WINDOW_STATE_FULLSCREEN) ∧
    (s.win_hiddenBorder = false →
      (Win32.Window_Procedure C (Win32.Msg.WM_SIZE Win32.SIZE_MAXIMIZED) s).win_state =
        WINDOW_STATE_MAXIMISED) ∧
    (∀ wParam : Nat, wParam ≠ Win32.SIZE_RESTORED → wParam ≠ Win32.SIZE_MINIMIZED →
      wParam ≠ Win32.SIZE_MAXIMIZED →
      (Win32.Window_Procedure C (Win32.Msg.WM_SIZE wParam) s).win_state = s.win_state) ∧
    (∀ wParam : Nat,
      (Win32.Window_Procedure C (Win32.Msg.WM_SIZE wParam) s).trace =
        s.trace ++
          (if (Win32.Window_Procedure C (Win32.Msg.WM_SIZE wParam) s).win_state ≠ s.win_state
            then [Event_RaiseVoid WindowEvents_StateChanged] else []) ++
          [DefWindowProc]) := by
  have hstate : ∀ wParam : Nat,
      (Win32.Window_Procedure C (Win32.Msg.WM_SIZE wParam) s).win_state =
        Win32.sizeState wParam s := by
    intro wParam
    simp only [Win32.Window_Procedure]
    split_ifs with h
    · rfl
    · simp only [Win32.call]
      exact (not_not.mp h).symm
  refine ⟨?_, ?_, ?_, ?_, ?_, ?_⟩
  · rw [hstate]; simp [Win32.sizeState]
  · rw [hstate]; simp [Win32.sizeState, Win32.SIZE_RESTORED, Win32.SIZE_MINIMIZED]
  · intro hb
    rw [hstate]
    simp [Win32.sizeState, Win32.SIZE_RESTORED, Win32.SIZE_MINIMIZED, Win32.SIZE_MAXIMIZED, hb]
  · intro hb
    rw [hstate]
    simp [Win32.sizeState, Win32.SIZE_RESTORED, Win32.SIZE_MINIMIZED, Win32.SIZE_MAXIMIZED, hb]
  · intro wParam h0 h1 h2
    rw [hstate]
    simp [Win32.sizeState, h0, h1, h2]
  · intro wParam
    rw [hstate]
    simp only [Win32.Window_Procedure]
    split_ifs <;> simp [Win32.call]

/-- Witness for C6: a maximise reported to a window whose border is hidden (here the
sample window after a `WM_STYLECHANGED` to `WS_POPUP`) makes the state Fullscreen, and a
`wParam` of 4 changes nothing. -/
theorem Window_Procedure_WM_SIZE_witness :
    ({ Win32.State.sample with win_hiddenBorder := true } : Win32.State).win_hiddenBorder
      = true ∧
    (Win32.Window_Procedure Collab.ascii (Win32.Msg.WM_SIZE Win32.SIZE_MAXIMIZED)
      { Win32.State.sample with win_hiddenBorder := true }).win_state =
        WINDOW_STATE_FULLSCREEN ∧
    (Win32.Window_Procedure Collab.ascii (Win32.Msg.WM_SIZE 4)
      { Win32.State.sample with win_hiddenBorder := true }).win_state =
        WINDOW_STATE_NORMAL :=
  ⟨rfl,
    (Window_Procedure_WM_SIZE Collab.ascii
      { Win32.State.sample with win_hiddenBorder := true }).2.2.1 rfl,
    (Window_Procedure_WM_SIZE Collab.ascii
      { Win32.State.sample with win_hiddenBorder := true }).2.2.2.2.1 4
      (by decide) (by decide) (by decide)⟩

/-! ## Win32: entering and leaving fullscreen -/

/-- The frame relation is reflexive. -/
theorem Win32.Frame.refl (s : Win32.State) : Win32.Frame s s :=
  ⟨rfl, rfl, List.prefix_refl _⟩

/-- The frame relation is transitive. -/
theorem Win32.Frame.trans {s₁ s₂ s₃ : Win32.State} (h₁ : Win32.Frame s₁ s₂)
    (h₂ : Win32.Frame s₂ s₃) : Win32.Frame s₁ s₃ :=
  ⟨h₂.1.trans h₁.1, h₂.2.1.trans h₁.2.1, h₁.2.2.trans h₂.2.2⟩

/-- Recording a call keeps the frame. -/
theorem Win32.Frame.call (c : Call) (s : Win32.State) : Win32.Frame s (Win32.call c s) :=
  ⟨rfl, rfl, List.prefix_append _ _⟩

/-- A state that differs only in other fields keeps the frame. -/
theorem Win32.Frame.of_eq {s s' : Win32.State} (h₁ : s'.prev_bounds = s.prev_bounds)
    (h₂ : s'.win_handle = s.win_handle) (h₃ : s'.trace = s.trace) : Win32.Frame s s' :=
  ⟨h₁, h₂, h₃ ▸ List.prefix_refl _⟩

/-- Changing the resize-suppression counter keeps the frame. -/
theorem Win32.Frame.suppress (s : Win32.State) (d : Int) :
    Win32.Frame s { s with suppress_resize := d } :=
  ⟨rfl, rfl, List.prefix_refl _⟩

/-- Changing the focus flag keeps the frame. -/
theorem Win32.Frame.focus (s : Win32.State) (b : Bool) :
    Win32.Frame s { s with Window_Focused := b } :=
  ⟨rfl, rfl, List.prefix_refl _⟩

/-- The keyboard case of the window procedure keeps the frame and the window state. -/
theorem Win32.Window_Procedure_key_frame (C : Collab) (message : Win32.KeyMessage)
    (wParam lParam : Nat) (l r : Bool) (s : Win32.State) :
    Win32.Frame s (Win32.Window_Procedure_key C message wParam lParam l r s) ∧
    (Win32.Window_Procedure_key C message wParam lParam l r s).win_state = s.win_state := by
  simp only [Win32.Window_Procedure_key]
  split_ifs <;>
    first
    | exact ⟨Win32.Frame.refl _, rfl⟩
    | exact ⟨Win32.Frame.call _ _, rfl⟩
    | exact ⟨(Win32.Frame.call _ _).trans (Win32.Frame.call _ _), rfl⟩

/-- The window procedure keeps the frame, whatever the message. -/
theorem Win32.Window_Procedure_frame (C : Collab) (m : Win32.Msg) (s : Win32.State) :
    Win32.Frame s (Win32.Window_Procedure C m s) := by
  cases m with
  | key message wParam lParam l r => exact (Win32.Window_Procedure_key_frame C _ _ _ _ _ s).1
  | WM_CLOSE =>
    simp only [Win32.Window_Procedure, Win32.Window_Destroy]
    split_ifs <;> simp [Win32.Frame, Win32.call]
  | WM_CHAR wParam =>
    simp only [Win32.Window_Procedure]
    split <;> simp [Win32.Frame, Win32.call]
  | _ =>
    simp only [Win32.Window_Procedure, Win32.Window_UpdateClientSize]
    (try split_ifs) <;> simp [Win32.Frame, Win32.call]

/-- A message other than a minimise or maximise report keeps a Normal window Normal. -/
theorem Win32.Window_Procedure_normal (C : Collab) (m : Win32.Msg) (s : Win32.State)
    (hm : m.keepsNormal = true) (hs : s.win_state = WINDOW_STATE_NORMAL) :
    (Win32.Window_Procedure C m s).win_state = WINDOW_STATE_NORMAL := by
  cases m with
  | key message wParam lParam l r =>
    simp only [Win32.Window_Procedure]
    rw [(Win32.Window_Procedure_key_frame C _ _ _ _ _ s).2, hs]
  | WM_SIZE wParam =>
    have h1 : Win32.sizeState wParam s = WINDOW_STATE_NORMAL := by
      simp only [Win32.Msg.keepsNormal, decide_eq_true_eq] at hm
      simp only [Win32.sizeState]
      split_ifs <;> first | rfl | exact hs | (exfalso; tauto)
    simp only [Win32.Window_Procedure, h1]
    split_ifs <;> simp [Win32.call, hs]
  | WM_CLOSE =>
    simp only [Win32.Window_Procedure, Win32.Window_Destroy]
    split_ifs <;> simp [Win32.call, hs]
  | WM_CHAR wParam =>
    simp only [Win32.Window_Procedure]
    split <;> simp [Win32.call, hs]
  | _ =>
    simp only [Win32.Window_Procedure, Win32.Window_UpdateClientSize]
    (try split_ifs) <;> simp [Win32.call, hs]

/-- A report of a restore makes the window Normal. -/
theorem Win32.Window_Procedure_restored (C : Collab) (s : Win32.State) :
    (Win32.Window_Procedure C (Win32.Msg.WM_SIZE Win32.SIZE_RESTORED) s).win_state =
      WINDOW_STATE_NORMAL := by
  have h1 : Win32.sizeState Win32.SIZE_RESTORED s = WINDOW_STATE_NORMAL := by
    simp [Win32.sizeState]
  simp only [Win32.Window_Procedure, h1]
  split_ifs with h
  · rfl
  · simpa [Win32.call] using (not_not.mp h).symm

/-- Dispatching a delivery keeps the frame. -/
theorem Win32.dispatch_frame (C : Collab) (msgs : List Win32.Msg) (s : Win32.State) :
    Win32.Frame s (Win32.dispatch C msgs s) := by
  induction msgs generalizing s with
  | nil => exact Win32.Frame.refl s
  | cons m rest ih =>
    exact (Win32.Window_Procedure_frame C m s).trans (ih _)

/-- Dispatching messages none of which reports a minimise or maximise keeps a Normal
window Normal. -/
theorem Win32.dispatch_normal (C : Collab) (msgs : List Win32.Msg) (s : Win32.State)
    (hm : ∀ m ∈ msgs, m.keepsNormal = true) (hs : s.win_state = WINDOW_STATE_NORMAL) :
    (Win32.dispatch C msgs s).win_state = WINDOW_STATE_NORMAL := by
  induction msgs generalizing s with
  | nil => exact hs
  | cons m rest ih =>
    exact ih _ (fun m' hm' => hm m' (List.mem_cons_of_mem _ hm'))
      (Win32.Window_Procedure_normal C m s (hm m (List.mem_cons_self _ _)) hs)

/-- A native call keeps the frame and its own entry stays in the trace. -/
theorem Win32.native_frame (os : Win32.OS) (C : Collab) (c : Call) (s : Win32.State) :
    Win32.Frame s (Win32.native os C c s) ∧
    (s.trace ++ [c]) <+: (Win32.native os C c s).trace := by
  have h := Win32.dispatch_frame C (os.deliver (Win32.call c s).trace) (Win32.call c s)
  exact ⟨(Win32.Frame.call c s).trans h, h.2.2⟩

/-- A native call other than a state-changing `ShowWindow` keeps a Normal window Normal. -/
theorem Win32.native_normal (os : Win32.OS) (C : Collab) (hos : os.SizeOnlyOnShow) (c : Call)
    (hc : ∀ hwnd, c ≠ ShowWindow hwnd Win32.SW_RESTORE ∧ c ≠ ShowWindow hwnd Win32.SW_MAXIMIZE ∧
      c ≠ ShowWindow hwnd Win32.SW_MINIMIZE)
    (s : Win32.State) (hs : s.win_state = WINDOW_STATE_NORMAL) :
    (Win32.native os C c s).win_state = WINDOW_STATE_NORMAL :=
  Win32.dispatch_normal C _ _ (hos s.trace c hc) hs

/-- The `ShowWindow` call with `SW_RESTORE` leaves the window Normal when Windows reports
the restore. -/
theorem Win32.native_restore (os : Win32.OS) (C : Collab) (hos : os.ReportsRestore)
    (hwnd : Nat) (s : Win32.State) :
    (Win32.native os C (ShowWindow hwnd Win32.SW_RESTORE) s).win_state =
      WINDOW_STATE_NORMAL := by
  obtain ⟨pre, post, hd, hpost⟩ := hos s.trace hwnd
  simp only [Win32.native, Win32.call, hd, Win32.dispatch, List.foldl_append, List.foldl_cons]
  exact Win32.dispatch_normal C post _ hpost (Win32.Window_Procedure_restored C _)

/-- The message pump keeps the frame. -/
theorem Win32.Window_ProcessEvents_frame (os : Win32.OS) (C : Collab) (s : Win32.State) :
    Win32.Frame s (Win32.Window_ProcessEvents os C s) := by
  have loop : ∀ (msgs : List Win32.Msg) (s : Win32.State),
      Win32.Frame s (msgs.foldl (fun s m => Win32.Window_Procedure C m
        (Win32.call DispatchMessage (Win32.call TranslateMessage (Win32.call PeekMessage s)))) s) := by
    intro msgs
    induction msgs with
    | nil => intro s; exact Win32.Frame.refl s
    | cons m rest ih =>
      intro s
      exact ((((Win32.Frame.call _ _).trans (Win32.Frame.call _ _)).trans
        (Win32.Frame.call _ _)).trans (Win32.Window_Procedure_frame C m _)).trans (ih _)
  simp only [Win32.Window_ProcessEvents]
  split_ifs
  · exact ((loop _ s).trans (Win32.Frame.call _ _)).trans (Win32.Frame.focus _ _)
  · exact (loop _ s).trans (Win32.Frame.call _ _)

/-- The message pump keeps a Normal window Normal when no queued message reports a
minimise or maximise. -/
theorem Win32.Window_ProcessEvents_normal (os : Win32.OS) (C : Collab)
    (hos : os.SizeOnlyOnShow) (s : Win32.State) (hs : s.win_state = WINDOW_STATE_NORMAL) :
    (Win32.Window_ProcessEvents os C s).win_state = WINDOW_STATE_NORMAL := by
  have loop : ∀ (msgs : List Win32.Msg) (s : Win32.State),
      (∀ m ∈ msgs, m.keepsNormal = true) → s.win_state = WINDOW_STATE_NORMAL →
      (msgs.foldl (fun s m => Win32.Window_Procedure C m
        (Win32.call DispatchMessage (Win32.call TranslateMessage (Win32.call PeekMessage s)))) s
        ).win_state = WINDOW_STATE_NORMAL := by
    intro msgs
    induction msgs with
    | nil => intro s _ hs; exact hs
    | cons m rest ih =>
      intro s hm hs
      exact ih _ (fun m' hm' => hm m' (List.mem_cons_of_mem _ hm'))
        (Win32.Window_Procedure_normal C m _ (hm m (List.mem_cons_self _ _)) hs)
  have hq : ∀ m ∈ os.deliver (s.trace ++ [PeekMessage]), m.keepsNormal = true :=
    hos s.trace PeekMessage (fun hwnd => ⟨by simp, by simp, by simp⟩)
  simp only [Win32.Window_ProcessEvents]
  split_ifs
  · exact loop _ s hq hs
  · exact loop _ s hq hs

/-- The calls `Window_SetVisible` makes keep the frame, and keep a Normal window Normal. -/
theorem Win32.Window_SetVisible_frame (os : Win32.OS) (C : Collab) (hos : os.SizeOnlyOnShow)
    (visible : Bool) (s : Win32.State) :
    Win32.Frame s (Win32.Window_SetVisible os C visible s) ∧
    (s.win_state = WINDOW_STATE_NORMAL →
      (Win32.Window_SetVisible os C visible s).win_state = WINDOW_STATE_NORMAL) := by
  have hshow : ∀ hwnd' hwnd, ShowWindow hwnd' Win32.SW_SHOW ≠ ShowWindow hwnd Win32.SW_RESTORE ∧
      ShowWindow hwnd' Win32.SW_SHOW ≠ ShowWindow hwnd Win32.SW_MAXIMIZE ∧
      ShowWindow hwnd' Win32.SW_SHOW ≠ ShowWindow hwnd Win32.SW_MINIMIZE := by
    intro hwnd' hwnd
    simp [Win32.SW_SHOW, Win32.SW_RESTORE, Win32.SW_MAXIMIZE, Win32.SW_MINIMIZE]
  have hhide : ∀ hwnd' hwnd, ShowWindow hwnd' Win32.SW_HIDE ≠ ShowWindow hwnd Win32.SW_RESTORE ∧
      ShowWindow hwnd' Win32.SW_HIDE ≠ ShowWindow hwnd Win32.SW_MAXIMIZE ∧
      ShowWindow hwnd' Win32.SW_HIDE ≠ ShowWindow hwnd Win32.SW_MINIMIZE := by
    intro hwnd' hwnd
    simp [Win32.SW_HIDE, Win32.SW_RESTORE, Win32.SW_MAXIMIZE, Win32.SW_MINIMIZE]
  simp only [Win32.Window_SetVisible]
  split_ifs
  · refine ⟨((Win32.native_frame os C _ _).1.trans (Win32.native_frame os C _ _).1).trans
      (Win32.native_frame os C _ _).1, fun hs => ?_⟩
    refine Win32.native_normal os C hos _ (fun hwnd => ⟨by simp, by simp, by simp⟩) _ ?_
    refine Win32.native_normal os C hos _ (fun hwnd => ⟨by simp, by simp, by simp⟩) _ ?_
    exact Win32.native_normal os C hos _ (hshow _) _ hs
  · exact ⟨(Win32.native_frame os C _ _).1,
      fun hs => Win32.native_normal os C hos _ (hshow _) _ hs⟩
  · exact ⟨(Win32.native_frame os C _ _).1,
      fun hs => Win32.native_normal os C hos _ (hhide _) _ hs⟩

/-- A request for the state the window is already in returns at once. -/
theorem Win32.Window_SetWindowState_same (os : Win32.OS) (C : Collab) (fuel : Nat)
    (state : WindowState) (s : Win32.State) (h : s.win_state = state) :
    Win32.Window_SetWindowState os C (fuel + 1) state s = some s := by
  simp [Win32.Window_SetWindowState, h]

/-- The reset of a Normal window only pumps the messages. -/
theorem Win32.Window_ResetWindowState_normal (os : Win32.OS) (C : Collab)
    (hos : os.SizeOnlyOnShow) (fuel : Nat) (s : Win32.State)
    (hs : s.win_state = WINDOW_STATE_NORMAL) :
    ∃ s', Win32.Window_ResetWindowState os C (fuel + 2) s = some s' ∧ Win32.Frame s s' ∧
      s'.win_state = WINDOW_STATE_NORMAL := by
  have h1 : Win32.Window_SetWindowState os C (fuel + 1) WINDOW_STATE_NORMAL
      { s with suppress_resize := s.suppress_resize + 1 } =
      some { s with suppress_resize := s.suppress_resize + 1 } :=
    Win32.Window_SetWindowState_same os C fuel _ _ hs
  refine ⟨_, by simp only [Win32.Window_ResetWindowState, h1, Option.map_some']; rfl, ?_, ?_⟩
  · exact ((Win32.Frame.suppress s _).trans (Win32.Window_ProcessEvents_frame os C _)).trans
      (Win32.Frame.suppress _ _)
  · exact Win32.Window_ProcessEvents_normal os C hos _ hs

/-- Changing the border of a Normal window ends, keeps the frame and leaves the window
Normal. -/
theorem Win32.Window_DoSetHiddenBorder_normal (os : Win32.OS) (C : Collab)
    (hos : os.SizeOnlyOnShow) (fuel : Nat) (value : Bool) (s : Win32.State)
    (hs : s.win_state = WINDOW_STATE_NORMAL) :
    ∃ s', Win32.Window_DoSetHiddenBorder os C (fuel + 3) value s = some s' ∧ Win32.Frame s s' ∧
      s'.win_state = WINDOW_STATE_NORMAL := by
  by_cases hb : s.win_hiddenBorder = value
  · exact ⟨s, by simp [Win32.Window_DoSetHiddenBorder, hb], Win32.Frame.refl s, hs⟩
  · obtain ⟨s1, h1, f1, n1⟩ := Win32.Window_ResetWindowState_normal os C hos fuel s hs
    have hne : ∀ (c : Call), (∀ hwnd command, c ≠ ShowWindow hwnd command) →
        ∀ hwnd, c ≠ ShowWindow hwnd Win32.SW_RESTORE ∧ c ≠ ShowWindow hwnd Win32.SW_MAXIMIZE ∧
          c ≠ ShowWindow hwnd Win32.SW_MINIMIZE :=
      fun c hc hwnd => ⟨hc _ _, hc _ _, hc _ _⟩
    -- the states after each step of the border change
    let s2 := if Win32.Window_GetVisible os s = true then Win32.Window_SetVisible os C false s1
      else s1
    have f2 : Win32.Frame s1 s2 ∧ s2.win_state = WINDOW_STATE_NORMAL := by
      simp only [s2]
      split_ifs
      · exact ⟨(Win32.Window_SetVisible_frame os C hos false s1).1,
          (Win32.Window_SetVisible_frame os C hos false s1).2 n1⟩
      · exact ⟨Win32.Frame.refl _, n1⟩
    let style := Win32.WS_CLIPCHILDREN ||| Win32.WS_CLIPSIBLINGS |||
      (if value = true then Win32.WS_POPUP else Win32.WS_OVERLAPPEDWINDOW)
    let rect := os.adjustWindowRect
      { left := s1.Window_Bounds.X, top := s1.Window_Bounds.Y,
        right := s1.Window_Bounds.X + s1.Window_Bounds.Width,
        bottom := s1.Window_Bounds.Y + s1.Window_Bounds.Height } style
    let s3 := Win32.native os C (SetWindowLong s2.win_handle Win32.GWL_STYLE style) s2
    have f3 : Win32.Frame s2 s3 ∧ s3.win_state = WINDOW_STATE_NORMAL :=
      ⟨(Win32.native_frame os C _ _).1,
        Win32.native_normal os C hos _ (hne _ (by simp)) _ f2.2⟩
    let s4 := Win32.native os C (SetWindowPos s3.win_handle 0 0 (Win32.Rect_Width rect)
      (Win32.Rect_Height rect)
      (Win32.SWP_NOMOVE ||| Win32.SWP_NOZORDER ||| Win32.SWP_FRAMECHANGED)) s3
    have f4 : Win32.Frame s3 s4 ∧ s4.win_state = WINDOW_STATE_NORMAL :=
      ⟨(Win32.native_frame os C _ _).1,
        Win32.native_normal os C hos _ (hne _ (by simp)) _ f3.2⟩
    let s5 := if Win32.Window_GetVisible os s = true then Win32.Window_SetVisible os C true s4
      else s4
    have f5 : Win32.Frame s4 s5 ∧ s5.win_state = WINDOW_STATE_NORMAL := by
      simp only [s5]
      split_ifs
      · exact ⟨(Win32.Window_SetVisible_frame os C hos true s4).1,
          (Win32.Window_SetVisible_frame os C hos true s4).2 f4.2⟩
      · exact ⟨Win32.Frame.refl _, f4.2⟩
    refine ⟨s5, ?_, (((f1.trans f2.1).trans f3.1).trans f4.1).trans f5.1, f5.2⟩
    have h6 : Win32.Window_SetWindowState os C (fuel + 2) s.win_state s5 = some s5 :=
      Win32.Window_SetWindowState_same os C (fuel + 1) _ _ (f5.2.trans hs.symm)
    simp only [Win32.Window_DoSetHiddenBorder, hb, if_false, h1, Option.some_bind]
    exact h6

/-- Hiding or showing the border of a Normal window ends, keeps the frame and leaves the
window Normal. -/
theorem Win32.Window_SetHiddenBorder_normal (os : Win32.OS) (C : Collab)
    (hos : os.SizeOnlyOnShow) (fuel : Nat) (hidden : Bool) (s : Win32.State)
    (hs : s.win_state = WINDOW_STATE_NORMAL) :
    ∃ s', Win32.Window_SetHiddenBorder os C (fuel + 4) hidden s = some s' ∧ Win32.Frame s s' ∧
      s'.win_state = WINDOW_STATE_NORMAL := by
  obtain ⟨s1, h1, f1, n1⟩ := Win32.Window_DoSetHiddenBorder_normal os C hos fuel hidden
    { s with suppress_resize := s.suppress_resize + 1 } hs
  refine ⟨_, by simp only [Win32.Window_SetHiddenBorder, h1, Option.map_some']; rfl, ?_, ?_⟩
  · exact (((Win32.Frame.suppress s _).trans f1).trans
      (Win32.Window_ProcessEvents_frame os C _)).trans (Win32.Frame.suppress _ _)
  · exact Win32.Window_ProcessEvents_normal os C hos _ n1

/-- The reset of a window that is not Fullscreen ends with the window Normal. -/
theorem Win32.Window_ResetWindowState_to_normal (os : Win32.OS) (C : Collab)
    (hos : os.SizeOnlyOnShow) (hor : os.ReportsRestore) (fuel : Nat) (s : Win32.State)
    (hs : s.win_state ≠ WINDOW_STATE_FULLSCREEN) :
    ∃ s', Win32.Window_ResetWindowState os C (fuel + 2) s = some s' ∧
      s'.win_state = WINDOW_STATE_NORMAL := by
  by_cases hn : s.win_state = WINDOW_STATE_NORMAL
  · obtain ⟨s', h1, _, h2⟩ := Win32.Window_ResetWindowState_normal os C hos fuel s hn
    exact ⟨s', h1, h2⟩
  · let sa : Win32.State := { s with suppress_resize := s.suppress_resize + 1 }
    let sb := Win32.native os C (ShowWindow sa.win_handle Win32.SW_RESTORE) sa
    have nb : sb.win_state = WINDOW_STATE_NORMAL := Win32.native_restore os C hor _ _
    let sc : Win32.State :=
      if Win32.SW_RESTORE = Win32.SW_RESTORE ∧
          (sb.prev_bounds.Width ≠ 0 ∨ sb.prev_bounds.Height ≠ 0) then
        { Win32.Window_SetBounds os C sb.prev_bounds sb with
          prev_bounds := { (Win32.Window_SetBounds os C sb.prev_bounds sb).prev_bounds with
            Width := 0, Height := 0 } }
      else sb
    have nc : sc.win_state = WINDOW_STATE_NORMAL := by
      simp only [sc]
      split_ifs
      · exact Win32.native_normal os C hos _ (fun hwnd => ⟨by simp, by simp, by simp⟩) _ nb
      · exact nb
    have h1 : Win32.Window_SetWindowState os C (fuel + 1) WINDOW_STATE_NORMAL sa = some sc := by
      have hna : ¬ sa.win_state = WINDOW_STATE_NORMAL := hn
      have hfa : ¬ sa.win_state = WINDOW_STATE_FULLSCREEN := hs
      simp only [Win32.Window_SetWindowState, hna, if_false, Win32.Window_SetWindowState_tail,
        hfa, decide_False, Bool.false_eq_true, Option.map_some']
      simp [Win32.SW_RESTORE, sc, sb]
    refine ⟨_, by simp only [Win32.Window_ResetWindowState]; rw [h1]; rfl, ?_⟩
    exact Win32.Window_ProcessEvents_normal os C hos _ nc

/-- Saving and restoring the bounds on a Windows that answers every `ShowWindow(SW_RESTORE)`
with a report of the restore and delivers no minimise or maximise report on behalf of any
other call.  There `Window_SetWindowState(FULLSCREEN)` from a state other than Fullscreen
ends with `prev_bounds` equal to `Window_Bounds` as it stood after the internal reset to
Normal; and `Window_SetWindowState(NORMAL)` issued while Fullscreen, with a saved rectangle
whose width or height is not zero, calls `Window_SetBounds` with exactly that rectangle
and ends with the saved width and height cleared. -/
theorem Window_SetWindowState_restores_bounds (os : Win32.OS) (C : Collab)
    (hos : os.SizeOnlyOnShow) (hor : os.ReportsRestore) (fuel : Nat) (s : Win32.State) :
    (s.win_state ≠ WINDOW_STATE_FULLSCREEN →
      ∃ s₁ s', Win32.Window_ResetWindowState os C (fuel + 5) s = some s₁ ∧
        s₁.win_state = WINDOW_STATE_NORMAL ∧
        Win32.Window_SetWindowState os C (fuel + 6) WINDOW_STATE_FULLSCREEN s = some s' ∧
        s'.prev_bounds = s₁.Window_Bounds) ∧
    (s.win_state = WINDOW_STATE_FULLSCREEN →
      (s.prev_bounds.Width ≠ 0 ∨ s.prev_bounds.Height ≠ 0) →
      ∃ s' pre post, Win32.Window_SetWindowState os C (fuel + 6) WINDOW_STATE_NORMAL s = some s' ∧
        s'.trace = s.trace ++ pre ++ Win32.setBoundsCall s.win_handle s.prev_bounds :: post ∧
        s'.prev_bounds = { s.prev_bounds with Width := 0, Height := 0 }) := by
  constructor
  · intro hs
    obtain ⟨s1, h1, n1⟩ := Win32.Window_ResetWindowState_to_normal os C hos hor (fuel + 3) s hs
    let s2 : Win32.State := { s1 with prev_bounds := s1.Window_Bounds }
    obtain ⟨s3, h3, f3, n3⟩ :=
      Win32.Window_SetHiddenBorder_normal os C hos (fuel + 1) true s2 n1
    let s4 := Win32.native os C (SetForegroundWindow s3.win_handle) s3
    let s5 := Win32.native os C (ShowWindow s4.win_handle Win32.SW_MAXIMIZE) s4
    refine ⟨s1, s5, h1, n1, ?_, ?_⟩
    · simp only [Win32.Window_SetWindowState, hs, if_false, h1, Option.some_bind, h3,
        Win32.Window_SetWindowState_tail]
      simp [Win32.SW_MAXIMIZE, Win32.SW_RESTORE, s5, s4]
    · have f4 := (Win32.native_frame os C (SetForegroundWindow s3.win_handle) s3).1
      have f5 := (Win32.native_frame os C (ShowWindow s4.win_handle Win32.SW_MAXIMIZE) s4).1
      exact ((f3.trans f4).trans f5).1
  · intro hs hr
    let s1 := Win32.native os C (ShowWindow s.win_handle Win32.SW_RESTORE) s
    have n1 : s1.win_state = WINDOW_STATE_NORMAL := Win32.native_restore os C hor _ _
    have f1 : Win32.Frame s s1 := (Win32.native_frame os C _ _).1
    obtain ⟨s2, h2, f2, n2⟩ :=
      Win32.Window_SetHiddenBorder_normal os C hos (fuel + 1) false s1 n1
    let s3 := Win32.native os C
      (SetWindowPos s2.win_handle s2.prev_bounds.X s2.prev_bounds.Y s2.prev_bounds.Width
        s2.prev_bounds.Height 0) s2
    have f12 := f1.trans f2
    have f3 : Win32.Frame s2 s3 ∧ (s2.trace ++ [SetWindowPos s2.win_handle s2.prev_bounds.X
        s2.prev_bounds.Y s2.prev_bounds.Width s2.prev_bounds.Height 0]) <+: s3.trace :=
      Win32.native_frame os C _ s2
    obtain ⟨pre, hpre⟩ := f12.2.2
    obtain ⟨post, hpost⟩ := f3.2
    have hne : ¬ s.win_state = WINDOW_STATE_NORMAL := by rw [hs]; decide
    have hr2 : s2.prev_bounds.Width ≠ 0 ∨ s2.prev_bounds.Height ≠ 0 := by
      rw [f12.1]; exact hr
    have hfs : decide (s.win_state = WINDOW_STATE_FULLSCREEN) = true := by simp [hs]
    refine ⟨{ s3 with prev_bounds := { s3.prev_bounds with Width := 0, Height := 0 } },
      pre, post, ?_, ?_, ?_⟩
    · simp only [Win32.Window_SetWindowState, if_neg hne, Win32.Window_SetWindowState_tail, hfs,
        if_true]
      have hc : Win32.SW_RESTORE ≠ 0 := by decide
      simp only [hc, ne_eq, not_false_eq_true, if_true]
      rw [show Win32.native os C (ShowWindow s.win_handle Win32.SW_RESTORE) s = s1 from rfl, h2]
      simp only [Option.map_some', true_and]
      rw [if_pos hr2]
      rfl
    · show s3.trace = _
      rw [← hpost, ← hpre, f12.2.1, f12.1]
      simp [Win32.setBoundsCall]
    · show ({ s3.prev_bounds with Width := 0, Height := 0 } : Rect2D) = _
      rw [show s3.prev_bounds = s2.prev_bounds from f3.1.1, f12.1]

/-- The plain Windows delivers size reports only on behalf of `ShowWindow`. -/
theorem Win32.OS.plain_sizeOnlyOnShow : Win32.OS.plain.SizeOnlyOnShow := by
  intro h c hc m hm
  have hl : (h ++ [c]).getLast? = some c := by simp
  simp only [Win32.OS.plain, hl] at hm
  cases c with
  | ShowWindow hwnd command =>
    have h1 := (hc hwnd).1
    have h2 := (hc hwnd).2.1
    have h3 := (hc hwnd).2.2
    simp only [ne_eq, Call.ShowWindow.injEq, true_and] at h1 h2 h3
    simp [h1, h2, h3] at hm
  | SetWindowLong hwnd index value =>
    simp only [List.mem_singleton] at hm
    subst hm
    rfl
  | _ => simp at hm

/-- The plain Windows reports every restore. -/
theorem Win32.OS.plain_reportsRestore : Win32.OS.plain.ReportsRestore := by
  intro h hwnd
  refine ⟨[], [], ?_, by simp⟩
  have hl : (h ++ [ShowWindow hwnd Win32.SW_RESTORE]).getLast? =
      some (ShowWindow hwnd Win32.SW_RESTORE) := by simp
  simp [Win32.OS.plain, hl]

/-- On the plain Windows, entering fullscreen from the sample window saves the bounds it
has after the reset, and leaving the fullscreen sample window calls `Window_SetBounds`
with the saved rectangle (10, 20, 640, 480). -/
theorem Window_SetWindowState_restores_bounds_witness :
    Win32.OS.plain.SizeOnlyOnShow ∧ Win32.OS.plain.ReportsRestore ∧
    (∃ s₁ s', Win32.Window_ResetWindowState Win32.OS.plain Collab.ascii (0 + 5)
        Win32.State.sample = some s₁ ∧
      s₁.win_state = WINDOW_STATE_NORMAL ∧
      Win32.Window_SetWindowState Win32.OS.plain Collab.ascii (0 + 6) WINDOW_STATE_FULLSCREEN
        Win32.State.sample = some s' ∧
      s'.prev_bounds = s₁.Window_Bounds) ∧
    (∃ s' pre post, Win32.Window_SetWindowState Win32.OS.plain Collab.ascii (0 + 6)
        WINDOW_STATE_NORMAL Win32.State.fullscreen = some s' ∧
      s'.trace = Win32.State.fullscreen.trace ++ pre ++
        Win32.setBoundsCall Win32.State.fullscreen.win_handle
          Win32.State.fullscreen.prev_bounds :: post ∧
      s'.prev_bounds = { Win32.State.fullscreen.prev_bounds with Width := 0, Height := 0 }) :=
  ⟨Win32.OS.plain_sizeOnlyOnShow, Win32.OS.plain_reportsRestore,
    (Window_SetWindowState_restores_bounds Win32.OS.plain Collab.ascii
      Win32.OS.plain_sizeOnlyOnShow Win32.OS.plain_reportsRestore 0 Win32.State.sample).1
      (by decide),
    (Window_SetWindowState_restores_bounds Win32.OS.plain Collab.ascii
      Win32.OS.plain_sizeOnlyOnShow Win32.OS.plain_reportsRestore 0 Win32.State.fullscreen).2
      rfl (by decide)⟩

/-- The guard of the restore, `prev_bounds.Width || prev_bounds.Height`: on the plain
Windows, a window whose bounds are (5, 7, 0, 0) enters fullscreen with exactly that
rectangle saved, and the following `Window_SetWindowState(NORMAL)` returns it to Normal
without any `Window_SetBounds` call. -/
theorem Window_SetWindowState_zero_bounds_not_restored :
    (Win32.Window_SetWindowState Win32.OS.plain Collab.ascii 6 WINDOW_STATE_FULLSCREEN
      Win32.State.empty).bind (fun s₁ =>
        (Win32.Window_SetWindowState Win32.OS.plain Collab.ascii 6 WINDOW_STATE_NORMAL s₁).map
          fun s₂ => (s₁.win_state, s₁.prev_bounds, s₂.win_state,
            (s₂.trace.drop s₁.trace.length).filter Win32.isSetBounds)) =
      some (WINDOW_STATE_FULLSCREEN, { X := 5, Y := 7, Width := 0, Height := 0 },
        WINDOW_STATE_NORMAL, []) := by
  decide!

/-- C7 (the code at the failing input).  On a Windows that restores a minimised window to
the maximised state it had before, `Window_SetWindowState(FULLSCREEN)` from the minimised
sample window saves the bounds (10, 20, 640, 480) and loses them again inside the same
call.  The internal reset leaves the window Maximised, not Normal, so
`Window_DoSetHiddenBorder` resets the state once more, and that nested
`Window_SetWindowState(NORMAL)` finds the rectangle just saved, calls `Window_SetBounds`
with it and clears its width and height.  The call ends in Fullscreen with `prev_bounds`
(10, 20, 0, 0), and the next `Window_SetWindowState(NORMAL)` returns the window to Normal
without any `Window_SetBounds` call. -/
theorem Window_SetWindowState_nested_reset_clears_saved_bounds :
    (Win32.Window_ResetWindowState Win32.OS.restoresMaximised Collab.ascii 8
        Win32.State.minimised).map (fun s => (s.win_state, s.Window_Bounds, s.prev_bounds)) =
      some (WINDOW_STATE_MAXIMISED, { X := 10, Y := 20, Width := 640, Height := 480 },
        { X := 0, Y := 0, Width := 0, Height := 0 }) ∧
    (Win32.Window_SetWindowState Win32.OS.restoresMaximised Collab.ascii 8
        WINDOW_STATE_FULLSCREEN Win32.State.minimised).map
        (fun s => (s.win_state, s.Window_Bounds, s.prev_bounds,
          s.trace.filter Win32.isSetBounds)) =
      some (WINDOW_STATE_FULLSCREEN, { X := 10, Y := 20, Width := 640, Height := 480 },
        { X := 10, Y := 20, Width := 0, Height := 0 },
        [Win32.setBoundsCall 1 { X := 10, Y := 20, Width := 640, Height := 480 }]) ∧
    (Win32.Window_SetWindowState Win32.OS.restoresMaximised Collab.ascii 8
        WINDOW_STATE_FULLSCREEN Win32.State.minimised).bind (fun s₁ =>
        (Win32.Window_SetWindowState Win32.OS.restoresMaximised Collab.ascii 8
          WINDOW_STATE_NORMAL s₁).map
          fun s₂ => (s₂.win_state, s₂.win_hiddenBorder,
            (s₂.trace.drop s₁.trace.length).filter Win32.isSetBounds)) =
      some (WINDOW_STATE_NORMAL, false, []) := by
  refine ⟨by decide!, by decide!, by decide!⟩

/-! ## Clipboard: X11 wait loop and Win32 retry loops -/

/-- C8 (the code at the failing input).  On X11, when the clipboard selection has no owner,
`Window_GetClipboardText` returns at once (one `XGetSelectionOwner`, no conversion request,
no pump, no sleep) but leaves the output string as the caller passed it: a caller who
passes "hi" gets "hi" back, not the empty string. -/
theorem Window_GetClipboardText_no_owner_keeps_output (A : X11.Atoms) (C : Collab)
    (value : CString) (s : X11.State) :
    X11.Window_GetClipboardText X11.Server.noOwner A C value s =
      (value, X11.call (XGetSelectionOwner A.xa_clipboard) s) ∧
    (X11.Window_GetClipboardText X11.Server.noOwner A C CString.hi s).1.length = 2 := by
  constructor <;> simp [X11.Window_GetClipboardText, X11.Server.noOwner, CString.hi, CString.length]

/-- While no event arrives and none is queued, every round of the wait loop of
`Window_GetClipboardText` polls once and sleeps, and the output stays untouched. -/
theorem X11.Window_GetClipboardText_loop_silent (srv : X11.Server) (A : X11.Atoms)
    (C : Collab) (hsrv : ∀ h, srv.arrivals h = []) (n : Nat) (value : CString) (s : X11.State)
    (hq : s.queue = []) (he : s.Window_Exists = true)
    (hp : s.clipboard_paste_text.chars = []) :
    X11.Window_GetClipboardText_loop srv A C n value s =
      (value, { s with trace := s.trace ++ X11.waitTrace n }) := by
  induction n generalizing s with
  | zero => simp [X11.Window_GetClipboardText_loop, X11.waitTrace]
  | succ n ih =>
    have h1 : X11.Window_ProcessEvents srv A C s = X11.call XCheckEvent s := by
      simp [X11.Window_ProcessEvents, hsrv, hq, X11.Window_ProcessEvents_loop, he, X11.call,
        X11.Window_GetPendingEvent, X11.takeFirst]
    simp only [X11.Window_GetClipboardText_loop, h1]
    have h2 : (X11.call XCheckEvent s).clipboard_paste_text.length = 0 := by
      simp [X11.call, CString.length, hp]
    simp only [h2, ne_eq, not_true_eq_false, if_false]
    rw [ih (X11.call (Thread_Sleep 10) (X11.call XCheckEvent s)) hq he hp]
    simp [X11.call, X11.waitTrace]

/-- C9 (the code at the failing input).  On X11, with an owner that never answers and a
caller who passes the non-empty string "hi", `Window_GetClipboardText` sends one
conversion request, pumps and sleeps 10 ms a hundred times, and then returns with the
output still "hi" instead of empty. -/
theorem Window_GetClipboardText_timeout_keeps_output :
    (X11.Window_GetClipboardText X11.Server.silentOwner X11.Atoms.sample Collab.ascii CString.hi
      X11.State.sample).1 = CString.hi ∧
    (X11.Window_GetClipboardText X11.Server.silentOwner X11.Atoms.sample Collab.ascii CString.hi
      X11.State.sample).2.trace =
      XGetSelectionOwner X11.Atoms.sample.xa_clipboard ::
        XConvertSelection X11.Atoms.sample.xa_clipboard X11.Atoms.sample.xa_utf8_string
          X11.Atoms.sample.xa_data_sel X11.State.sample.win_handle 0 ::
        X11.waitTrace 100 := by
  decide!

/-- While the clipboard cannot be opened, every round of the retry loop of
`Window_GetClipboardText` tries once and sleeps 10 ms. -/
theorem Win32.Window_GetClipboardText_loop_locked (os : Win32.OS) (C : Collab)
    (hos : ∀ h, os.openClipboard h = false) (n : Nat) (value : CString) (s : Win32.State) :
    Win32.Window_GetClipboardText_loop os C n value s =
      (value, { s with trace := s.trace ++ Win32.retryTrace s.win_handle 10 n }) := by
  induction n generalizing s with
  | zero => simp [Win32.Window_GetClipboardText_loop, Win32.retryTrace]
  | succ n ih =>
    simp only [Win32.Window_GetClipboardText_loop, hos, Bool.not_false, if_true]
    rw [ih (Win32.call (Thread_Sleep 10) (Win32.call (OpenClipboard s.win_handle) s))]
    simp [Win32.call, Win32.retryTrace]

/-- While the clipboard cannot be opened, every round of the retry loop of
`Window_SetClipboardText` tries once and sleeps 100 ms. -/
theorem Win32.Window_SetClipboardText_loop_locked (os : Win32.OS) (C : Collab)
    (hos : ∀ h, os.openClipboard h = false) (value : CString) (n : Nat) (s : Win32.State) :
    Win32.Window_SetClipboardText_loop os C value n s =
      { s with trace := s.trace ++ Win32.retryTrace s.win_handle 100 n } := by
  induction n generalizing s with
  | zero => simp [Win32.Window_SetClipboardText_loop, Win32.retryTrace]
  | succ n ih =>
    simp only [Win32.Window_SetClipboardText_loop, hos, Bool.not_false, if_true]
    rw [ih (Win32.call (Thread_Sleep 100) (Win32.call (OpenClipboard s.win_handle) s))]
    simp [Win32.call, Win32.retryTrace]

/-- Appending one more failed attempt at the front of a retry trace. -/
theorem Win32.retryTrace_shift (hwnd ms j : Nat) (t : List Call) :
    t ++ [OpenClipboard hwnd, Thread_Sleep ms] ++ Win32.retryTrace hwnd ms j =
      t ++ Win32.retryTrace hwnd ms (j + 1) := by
  simp [Win32.retryTrace]

/-- When the open succeeds for the first time at attempt `k + 1`, the retry loop of
`Window_GetClipboardText` makes `k` failed attempts and then runs its body once. -/
theorem Win32.Window_GetClipboardText_loop_opens (os : Win32.OS) (C : Collab)
    (k n : Nat) (hk : k < n) (value : CString) (s : Win32.State)
    (hfail : ∀ j, j < k → os.openClipboard
      (s.trace ++ Win32.retryTrace s.win_handle 10 j ++ [OpenClipboard s.win_handle]) = false)
    (hopen : os.openClipboard
      (s.trace ++ Win32.retryTrace s.win_handle 10 k ++ [OpenClipboard s.win_handle]) = true) :
    Win32.Window_GetClipboardText_loop os C n value s =
      Win32.Window_GetClipboardText_opened os C value
        { s with trace := s.trace ++ Win32.retryTrace s.win_handle 10 k ++
          [OpenClipboard s.win_handle] } := by
  induction k generalizing n s with
  | zero =>
    obtain ⟨n, rfl⟩ : ∃ m, n = m + 1 := ⟨n - 1, by omega⟩
    have h0 : os.openClipboard (s.trace ++ [OpenClipboard s.win_handle]) = true := by
      simpa [Win32.retryTrace] using hopen
    simp [Win32.Window_GetClipboardText_loop, Win32.call, h0, Win32.retryTrace]
  | succ k ih =>
    obtain ⟨n, rfl⟩ : ∃ m, n = m + 1 := ⟨n - 1, by omega⟩
    have h0 : os.openClipboard (s.trace ++ [OpenClipboard s.win_handle]) = false := by
      simpa [Win32.retryTrace] using hfail 0 (by omega)
    simp only [Win32.Window_GetClipboardText_loop, Win32.call, h0, Bool.not_false, if_true]
    rw [ih n (by omega)]
    · simp [Win32.retryTrace]
    · intro j hj
      have := hfail (j + 1) (by omega)
      simpa [Win32.retryTrace] using this
    · simpa [Win32.retryTrace] using hopen

/-- When the open succeeds for the first time at attempt `k + 1`, the retry loop of
`Window_SetClipboardText` makes `k` failed attempts and then runs its body once. -/
theorem Win32.Window_SetClipboardText_loop_opens (os : Win32.OS) (C : Collab)
    (k n : Nat) (hk : k < n) (value : CString) (s : Win32.State)
    (hfail : ∀ j, j < k → os.openClipboard
      (s.trace ++ Win32.retryTrace s.win_handle 100 j ++ [OpenClipboard s.win_handle]) = false)
    (hopen : os.openClipboard
      (s.trace ++ Win32.retryTrace s.win_handle 100 k ++ [OpenClipboard s.win_handle]) = true) :
    Win32.Window_SetClipboardText_loop os C value n s =
      Win32.Window_SetClipboardText_opened os C value
        { s with trace := s.trace ++ Win32.retryTrace s.win_handle 100 k ++
          [OpenClipboard s.win_handle] } := by
  induction k generalizing n s with
  | zero =>
    obtain ⟨n, rfl⟩ : ∃ m, n = m + 1 := ⟨n - 1, by omega⟩
    have h0 : os.openClipboard (s.trace ++ [OpenClipboard s.win_handle]) = true := by
      simpa [Win32.retryTrace] using hopen
    simp [Win32.Window_SetClipboardText_loop, Win32.call, h0, Win32.retryTrace]
  | succ k ih =>
    obtain ⟨n, rfl⟩ : ∃ m, n = m + 1 := ⟨n - 1, by omega⟩
    have h0 : os.openClipboard (s.trace ++ [OpenClipboard s.win_handle]) = false := by
      simpa [Win32.retryTrace] using hfail 0 (by omega)
    simp only [Win32.Window_SetClipboardText_loop, Win32.call, h0, Bool.not_false, if_true]
    rw [ih n (by omega)]
    · simp [Win32.retryTrace]
    · intro j hj
      have := hfail (j + 1) (by omega)
      simpa [Win32.retryTrace] using this
    · simpa [Win32.retryTrace] using hopen

/-- Once the clipboard is open, `Window_GetClipboardText` neither tries to open it again
nor sleeps. -/
theorem Win32.Window_GetClipboardText_opened_no_retry (os : Win32.OS) (C : Collab)
    (value : CString) (s : Win32.State) :
    ∃ rest, (Win32.Window_GetClipboardText_opened os C value s).2.trace = s.trace ++ rest ∧
      ∀ c ∈ rest, Win32.isRetry c = false := by
  simp only [Win32.Window_GetClipboardText_opened]
  split
  · exact ⟨[GetClipboardData Win32.CF_UNICODETEXT, GlobalLock, GlobalUnlock, CloseClipboard],
      by simp [Win32.call], by simp [Win32.isRetry]⟩
  · split
    · exact ⟨[GetClipboardData Win32.CF_UNICODETEXT, GetClipboardData Win32.CF_TEXT,
        CloseClipboard], by simp [Win32.call], by simp [Win32.isRetry]⟩
    · exact ⟨[GetClipboardData Win32.CF_UNICODETEXT, GetClipboardData Win32.CF_TEXT,
        GlobalLock, GlobalUnlock, CloseClipboard], by simp [Win32.call],
        by simp [Win32.isRetry]⟩

/-- Once the clipboard is open, `Window_SetClipboardText` neither tries to open it again
nor sleeps. -/
theorem Win32.Window_SetClipboardText_opened_no_retry (os : Win32.OS) (C : Collab)
    (value : CString) (s : Win32.State) :
    ∃ rest, (Win32.Window_SetClipboardText_opened os C value s).trace = s.trace ++ rest ∧
      ∀ c ∈ rest, Win32.isRetry c = false := by
  simp only [Win32.Window_SetClipboardText_opened]
  split_ifs
  · exact ⟨[GlobalAlloc ((value.length + 1) * 2), CloseClipboard], by simp [Win32.call],
      by simp [Win32.isRetry]⟩
  · exact ⟨[GlobalAlloc ((value.length + 1) * 2), GlobalLock, GlobalUnlock, EmptyClipboard,
      SetClipboardData Win32.CF_UNICODETEXT (value.chars.map C.Convert_CP437ToUnicode ++ [0]),
      CloseClipboard], by simp [Win32.call], by simp [Win32.isRetry]⟩

/-- C10. On Win32, if the clipboard cannot be opened at any attempt,
`Window_GetClipboardText` tries exactly 50 times, sleeping 10 ms after each failure, and
returns the empty string, and `Window_SetClipboardText` tries exactly 10 times, sleeping
100 ms after each failure, and returns having made no other call (the clipboard is not
touched).  If instead the first success comes at attempt `k + 1` (within the 50, or 10,
attempts), each function makes exactly the `k` failed attempts with their sleeps, opens
once more, and goes on with its body, which neither opens nor sleeps again. -/
theorem Window_ClipboardText_bounded_retries (os : Win32.OS) (C : Collab) (value : CString)
    (s : Win32.State) :
    ((∀ h, os.openClipboard h = false) →
      Win32.Window_GetClipboardText os C value s =
        (value.clear, { s with trace := s.trace ++ Win32.retryTrace s.win_handle 10 50 }) ∧
      Win32.Window_SetClipboardText os C value s =
        { s with trace := s.trace ++ Win32.retryTrace s.win_handle 100 10 }) ∧
    (∀ k, k < 50 →
      (∀ j, j < k → os.openClipboard
        (s.trace ++ Win32.retryTrace s.win_handle 10 j ++ [OpenClipboard s.win_handle])
          = false) →
      os.openClipboard
        (s.trace ++ Win32.retryTrace s.win_handle 10 k ++ [OpenClipboard s.win_handle])
          = true →
      ∃ rest, (Win32.Window_GetClipboardText os C value s).2.trace =
          s.trace ++ Win32.retryTrace s.win_handle 10 k ++ [OpenClipboard s.win_handle] ++ rest ∧
        ∀ c ∈ rest, Win32.isRetry c = false) ∧
    (∀ k, k < 10 →
      (∀ j, j < k → os.openClipboard
        (s.trace ++ Win32.retryTrace s.win_handle 100 j ++ [OpenClipboard s.win_handle])
          = false) →
      os.openClipboard
        (s.trace ++ Win32.retryTrace s.win_handle 100 k ++ [OpenClipboard s.win_handle])
          = true →
      ∃ rest, (Win32.Window_SetClipboardText os C value s).trace =
          s.trace ++ Win32.retryTrace s.win_handle 100 k ++ [OpenClipboard s.win_handle] ++ rest ∧
        ∀ c ∈ rest, Win32.isRetry c = false) := by
  refine ⟨fun hos => ⟨?_, ?_⟩, ?_, ?_⟩
  · exact Win32.Window_GetClipboardText_loop_locked os C hos 50 value.clear s
  · exact Win32.Window_SetClipboardText_loop_locked os C hos value 10 s
  · intro k hk hfail hopen
    have h := Win32.Window_GetClipboardText_loop_opens os C k 50 hk value.clear s hfail hopen
    obtain ⟨rest, h1, h2⟩ := Win32.Window_GetClipboardText_opened_no_retry os C value.clear
      { s with trace := s.trace ++ Win32.retryTrace s.win_handle 10 k ++
        [OpenClipboard s.win_handle] }
    exact ⟨rest, by rw [Win32.Window_GetClipboardText, h, h1], h2⟩
  · intro k hk hfail hopen
    have h := Win32.Window_SetClipboardText_loop_opens os C k 10 hk value s hfail hopen
    obtain ⟨rest, h1, h2⟩ := Win32.Window_SetClipboardText_opened_no_retry os C value
      { s with trace := s.trace ++ Win32.retryTrace s.win_handle 100 k ++
        [OpenClipboard s.win_handle] }
    exact ⟨rest, by rw [Win32.Window_SetClipboardText, h, h1], h2⟩

/-- Witness for C10: on the plain Windows, whose clipboard never opens, reading leaves the
output empty after 50 attempts and writing gives up after 10; on the Windows whose
clipboard opens at the third attempt, reading makes two failed attempts and a third,
successful one. -/
theorem Window_ClipboardText_bounded_retries_witness :
    (∀ h, Win32.OS.plain.openClipboard h = false) ∧
    Win32.Window_GetClipboardText Win32.OS.plain Collab.ascii CString.hi Win32.State.sample =
      (CString.hi.clear, { Win32.State.sample with
        trace := Win32.State.sample.trace ++ Win32.retryTrace Win32.State.sample.win_handle 10 50 }) ∧
    Win32.Window_SetClipboardText Win32.OS.plain Collab.ascii CString.hi Win32.State.sample =
      { Win32.State.sample with
        trace := Win32.State.sample.trace ++
          Win32.retryTrace Win32.State.sample.win_handle 100 10 } ∧
    ∃ rest, (Win32.Window_GetClipboardText Win32.OS.busyTwice Collab.ascii CString.hi
        Win32.State.sample).2.trace =
        Win32.State.sample.trace ++ Win32.retryTrace Win32.State.sample.win_handle 10 2 ++
          [OpenClipboard Win32.State.sample.win_handle] ++ rest ∧
      ∀ c ∈ rest, Win32.isRetry c = false :=
  ⟨fun _ => rfl,
    ((Window_ClipboardText_bounded_retries Win32.OS.plain Collab.ascii CString.hi
      Win32.State.sample).1 (fun _ => rfl)).1,
    ((Window_ClipboardText_bounded_retries Win32.OS.plain Collab.ascii CString.hi
      Win32.State.sample).1 (fun _ => rfl)).2,
    (Window_ClipboardText_bounded_retries Win32.OS.busyTwice Collab.ascii CString.hi
      Win32.State.sample).2.1 2 (by decide) (by decide) (by decide)⟩

/-! ## The Win32 clipboard: conversion and round trip -/

/-- Appending a list that fits into the remaining capacity stores all of it. -/
theorem CString.foldl_String_Append_fits (l : List Nat) (v : CString)
    (h : v.chars.length + l.length ≤ v.capacity) :
    l.foldl CString.String_Append v = { v with chars := v.chars ++ l } := by
  induction l generalizing v with
  | nil => simp
  | cons c l ih =>
    have hlt : v.chars.length < v.capacity := by
      simp only [List.length_cons] at h; omega
    have hstep : CString.String_Append v c = { v with chars := v.chars ++ [c] } := by
      simp [CString.String_Append, hlt]
    rw [List.foldl_cons, hstep, ih]
    · simp
    · simp only [List.length_append, List.length_cons, List.length_nil] at h ⊢; omega

/-- The copy loops of `Window_GetClipboardText` append the conversions of the units before
the terminator, in order, and nothing else. -/
theorem Win32.appendConverted_eq (C : Collab) (text : List Nat) (value : CString) :
    Win32.appendConverted C text value =
      ((text.takeWhile fun u => u ≠ 0).filterMap C.Convert_TryUnicodeToCP437).foldl
        CString.String_Append value := by
  unfold Win32.appendConverted
  generalize (text.takeWhile fun u => u ≠ 0) = l
  induction l generalizing value with
  | nil => rfl
  | cons u l ih =>
    rw [List.foldl_cons, ih]
    cases h : C.Convert_TryUnicodeToCP437 u with
    | none => simp [List.filterMap_cons, h]
    | some c => simp [List.filterMap_cons, h]

/-- When the clipboard opens at the first attempt and the allocation succeeds,
`Window_SetClipboardText` empties the clipboard and places the converted text, terminated
by a NUL, on it. -/
theorem Win32.Window_SetClipboardText_stores (os : Win32.OS) (C : Collab) (value : CString)
    (s : Win32.State)
    (hopen : os.openClipboard (s.trace ++ [OpenClipboard s.win_handle]) = true)
    (halloc : os.globalAlloc (s.trace ++
      [OpenClipboard s.win_handle, GlobalAlloc ((value.length + 1) * 2)]) = true) :
    Win32.Window_SetClipboardText os C value s =
      { s with trace := s.trace ++
        [OpenClipboard s.win_handle, GlobalAlloc ((value.length + 1) * 2), GlobalLock,
          GlobalUnlock, EmptyClipboard,
          SetClipboardData Win32.CF_UNICODETEXT
            (value.chars.map C.Convert_CP437ToUnicode ++ [0]),
          CloseClipboard] } := by
  have hloop := Win32.Window_SetClipboardText_loop_opens os C 0 10 (by decide) value s
    (fun j hj => absurd hj (Nat.not_lt_zero j)) (by simpa [Win32.retryTrace] using hopen)
  have halloc2 : os.globalAlloc (s.trace ++
      (OpenClipboard s.win_handle :: [GlobalAlloc ((value.length + 1) * 2)])) = true := halloc
  simp [Win32.Window_SetClipboardText, hloop, Win32.retryTrace,
    Win32.Window_SetClipboardText_opened, Win32.call, halloc2]

/-- The text on the clipboard right after it was placed there and the clipboard was
closed, opened again and asked for its Unicode text. -/
theorem Win32.heldUnicodeText_after_set (h : List Call) (text : List Nat) (bytes hwnd : Nat) :
    Win32.heldUnicodeText (h ++
      [OpenClipboard hwnd, GlobalAlloc bytes, GlobalLock, GlobalUnlock, EmptyClipboard,
        SetClipboardData Win32.CF_UNICODETEXT text, CloseClipboard] ++
      [OpenClipboard hwnd, GetClipboardData Win32.CF_UNICODETEXT]) = some text := by
  simp [Win32.heldUnicodeText, List.foldl_append]

/-- A text without NUL, followed by the terminator, is read back whole. -/
theorem Win32.takeWhile_terminated (l : List Nat) (h : ∀ u ∈ l, u ≠ 0) :
    (l ++ [0]).takeWhile (fun u => u ≠ 0) = l := by
  induction l with
  | nil => simp
  | cons u l ih =>
    have hu : u ≠ 0 := h u (List.mem_cons_self u l)
    simp only [List.cons_append, List.takeWhile_cons, hu, ne_eq, not_false_eq_true,
      decide_True, if_true]
    rw [ih fun v hv => h v (List.mem_cons_of_mem u hv)]

/-- Converting to Unicode and back gives every character of the list again. -/
theorem Win32.filterMap_round_trip (C : Collab) (l : List Nat)
    (h : ∀ c ∈ l, C.Convert_TryUnicodeToCP437 (C.Convert_CP437ToUnicode c) = some c) :
    (l.map C.Convert_CP437ToUnicode).filterMap C.Convert_TryUnicodeToCP437 = l := by
  induction l with
  | nil => rfl
  | cons c l ih =>
    rw [List.map_cons, List.filterMap_cons, h c (List.mem_cons_self c l),
      ih fun d hd => h d (List.mem_cons_of_mem c hd)]

/-- C11, as amended.  On Win32, for every string none of whose characters converts to the
Unicode unit 0, when the clipboard opens at the first attempt of both calls, the
allocation succeeds, the clipboard holds the Unicode text placed on it, every character
of the string converts to Unicode and back to itself, and the string fits the capacity of
the output, `Window_SetClipboardText` followed by `Window_GetClipboardText` yields exactly
the string. -/
theorem Window_ClipboardText_round_trip (os : Win32.OS) (C : Collab) (value out : CString)
    (s : Win32.State)
    (hopenSet : os.openClipboard (s.trace ++ [OpenClipboard s.win_handle]) = true)
    (halloc : os.globalAlloc (s.trace ++
      [OpenClipboard s.win_handle, GlobalAlloc ((value.length + 1) * 2)]) = true)
    (hopenGet : os.openClipboard ((Win32.Window_SetClipboardText os C value s).trace ++
      [OpenClipboard s.win_handle]) = true)
    (hheld : ∀ h, os.clipboardData h Win32.CF_UNICODETEXT = Win32.heldUnicodeText h)
    (hround : ∀ c ∈ value.chars,
      C.Convert_TryUnicodeToCP437 (C.Convert_CP437ToUnicode c) = some c)
    (hnul : ∀ c ∈ value.chars, C.Convert_CP437ToUnicode c ≠ 0)
    (hfit : value.chars.length ≤ out.capacity) :
    (Win32.Window_GetClipboardText os C out (Win32.Window_SetClipboardText os C value s)).1 =
      { out with chars := value.chars } := by
  have hset := Win32.Window_SetClipboardText_stores os C value s hopenSet halloc
  rw [hset] at hopenGet ⊢
  have hdata := hheld (s.trace ++
      [OpenClipboard s.win_handle, GlobalAlloc ((value.length + 1) * 2), GlobalLock,
        GlobalUnlock, EmptyClipboard,
        SetClipboardData Win32.CF_UNICODETEXT
          (value.chars.map C.Convert_CP437ToUnicode ++ [0]),
        CloseClipboard] ++
      [OpenClipboard s.win_handle, GetClipboardData Win32.CF_UNICODETEXT])
  rw [Win32.heldUnicodeText_after_set] at hdata
  have hunits : ∀ u ∈ value.chars.map C.Convert_CP437ToUnicode, u ≠ 0 := by
    intro u hu
    obtain ⟨c, hc, rfl⟩ := List.mem_map.mp hu
    exact hnul c hc
  have hopenGet2 : os.openClipboard (s.trace ++
      [OpenClipboard s.win_handle, GlobalAlloc ((value.length + 1) * 2), GlobalLock,
        GlobalUnlock, EmptyClipboard,
        SetClipboardData Win32.CF_UNICODETEXT
          (value.chars.map C.Convert_CP437ToUnicode ++ [0]),
        CloseClipboard, OpenClipboard s.win_handle]) = true := by
    simpa using hopenGet
  have hdata2 : os.clipboardData (s.trace ++
      [OpenClipboard s.win_handle, GlobalAlloc ((value.length + 1) * 2), GlobalLock,
        GlobalUnlock, EmptyClipboard,
        SetClipboardData Win32.CF_UNICODETEXT
          (value.chars.map C.Convert_CP437ToUnicode ++ [0]),
        CloseClipboard, OpenClipboard s.win_handle,
        GetClipboardData Win32.CF_UNICODETEXT]) Win32.CF_UNICODETEXT =
      some (value.chars.map C.Convert_CP437ToUnicode ++ [0]) := by
    simpa using hdata
  have hloop := Win32.Window_GetClipboardText_loop_opens os C 0 50 (by decide) out.clear
    { s with trace := s.trace ++
      [OpenClipboard s.win_handle, GlobalAlloc ((value.length + 1) * 2), GlobalLock,
        GlobalUnlock, EmptyClipboard,
        SetClipboardData Win32.CF_UNICODETEXT
          (value.chars.map C.Convert_CP437ToUnicode ++ [0]),
        CloseClipboard] }
    (fun j hj => absurd hj (Nat.not_lt_zero j))
    (by simpa [Win32.retryTrace] using hopenGet2)
  simp only [Win32.Window_GetClipboardText, hloop, Win32.retryTrace, Win32.call,
    List.append_assoc, List.cons_append, List.nil_append, List.append_nil,
    Win32.Window_GetClipboardText_opened, hdata2,
    Win32.appendConverted_eq, Win32.takeWhile_terminated _ hunits,
    Win32.filterMap_round_trip C _ hround]
  rw [CString.foldl_String_Append_fits]
  · simp [CString.clear]
  · simpa [CString.clear] using hfit

/-- Witness for C11: the text "hi" on a clipboard that opens at once, read into an output
that still held another text. -/
theorem Window_ClipboardText_round_trip_witness :
    (∀ c ∈ CString.hi.chars, Collab.ascii.Convert_CP437ToUnicode c ≠ 0) ∧
    (Win32.Window_GetClipboardText Win32.OS.clipboard Collab.ascii CString.withNul
      (Win32.Window_SetClipboardText Win32.OS.clipboard Collab.ascii CString.hi
        Win32.State.sample)).1 = { CString.withNul with chars := CString.hi.chars } :=
  ⟨by decide,
    Window_ClipboardText_round_trip Win32.OS.clipboard Collab.ascii CString.hi
      CString.withNul Win32.State.sample rfl rfl rfl (fun _ => rfl) (by decide) (by decide)
      (by decide)⟩

/-- Counterexample to C11 as stated: the string "a", NUL, "b" fits the output, each of its
characters converts to Unicode and back to itself, the clipboard opens at once and holds
what was placed on it, and yet the text read back is "a": reading stops at the first
NUL. -/
theorem Window_ClipboardText_round_trip_stops_at_NUL :
    CString.withNul.chars.length ≤ CString.hi.capacity ∧
    (∀ c ∈ CString.withNul.chars, Collab.ascii.Convert_TryUnicodeToCP437
      (Collab.ascii.Convert_CP437ToUnicode c) = some c) ∧
    (Win32.Window_GetClipboardText Win32.OS.clipboard Collab.ascii CString.hi
      (Win32.Window_SetClipboardText Win32.OS.clipboard Collab.ascii CString.withNul
        Win32.State.sample)).1.chars = [97] ∧
    CString.withNul.chars = [97, 0, 98] := by
  decide!

/-- C12.  On Win32, when the clipboard opens at attempt `k + 1` of the 50,
`Window_GetClipboardText` yields the output emptied and then appended to, in order, with
the characters `Convert_TryUnicodeToCP437` produces for the units before the terminating
NUL that convert, and nothing for the units that do not convert; the units are the
16-bit units of the Unicode text when there is one, and otherwise the `char`s of the ANSI
text (widened to a `Codepoint` as C does).  When these characters fit the capacity of the
output, they are exactly its content. -/
theorem Window_GetClipboardText_appends_converted (os : Win32.OS) (C : Collab)
    (value : CString) (s : Win32.State) (k : Nat) (hk : k < 50)
    (hfail : ∀ j, j < k → os.openClipboard
      (s.trace ++ Win32.retryTrace s.win_handle 10 j ++ [OpenClipboard s.win_handle]) = false)
    (hopen : os.openClipboard
      (s.trace ++ Win32.retryTrace s.win_handle 10 k ++ [OpenClipboard s.win_handle]) = true) :
    let opened := s.trace ++ Win32.retryTrace s.win_handle 10 k ++
      [OpenClipboard s.win_handle, GetClipboardData Win32.CF_UNICODETEXT]
    let result := (Win32.Window_GetClipboardText os C value s).1
    let converted := fun (units : List Nat) =>
      (units.takeWhile fun u => u ≠ 0).filterMap C.Convert_TryUnicodeToCP437
    (∀ text, os.clipboardData opened Win32.CF_UNICODETEXT = some text →
      result = (converted text).foldl CString.String_Append value.clear ∧
      ((converted text).length ≤ value.capacity → result.chars = converted text)) ∧
    (∀ text, os.clipboardData opened Win32.CF_UNICODETEXT = none →
      os.clipboardData (opened ++ [GetClipboardData Win32.CF_TEXT]) Win32.CF_TEXT = some text →
      result = (converted (text.map Win32.charToCodepoint)).foldl
        CString.String_Append value.clear ∧
      ((converted (text.map Win32.charToCodepoint)).length ≤ value.capacity →
        result.chars = converted (text.map Win32.charToCodepoint))) := by
  intro opened result converted
  have hloop := Win32.Window_GetClipboardText_loop_opens os C k 50 hk value.clear s hfail hopen
  have hfits : ∀ l : List Nat, l.length ≤ value.capacity →
      (l.foldl CString.String_Append value.clear).chars = l := by
    intro l hl
    rw [CString.foldl_String_Append_fits]
    · simp [CString.clear]
    · simpa [CString.clear] using hl
  refine ⟨?_, ?_⟩
  · intro text htext
    have hres : result = (converted text).foldl CString.String_Append value.clear := by
      simp only [result, Win32.Window_GetClipboardText, hloop,
        Win32.Window_GetClipboardText_opened, Win32.call, List.append_assoc,
        List.singleton_append]
      simp only [opened, List.append_assoc, List.singleton_append] at htext
      rw [htext]
      simp only [Win32.appendConverted_eq, converted]
    exact ⟨hres, fun hl => by rw [hres]; exact hfits _ hl⟩
  · intro text hnone htext
    have hres : result = (converted (text.map Win32.charToCodepoint)).foldl
        CString.String_Append value.clear := by
      simp only [result, Win32.Window_GetClipboardText, hloop,
        Win32.Window_GetClipboardText_opened, Win32.call, List.append_assoc,
        List.singleton_append]
      simp only [opened, List.append_assoc, List.singleton_append, List.cons_append,
        List.nil_append] at hnone htext
      rw [hnone]
      simp only [List.append_assoc, List.cons_append, List.nil_append, htext,
        Win32.appendConverted_eq, converted]
    exact ⟨hres, fun hl => by rw [hres]; exact hfits _ hl⟩

/-- Witness for C12: a clipboard that opens at once and holds only the ANSI text
"hé!"; the character above 127 does not convert and is left out. -/
theorem Window_GetClipboardText_appends_converted_witness :
    Win32.OS.ansiClipboard.openClipboard
      (Win32.State.sample.trace ++ Win32.retryTrace Win32.State.sample.win_handle 10 0 ++
        [OpenClipboard Win32.State.sample.win_handle]) = true ∧
    (Win32.Window_GetClipboardText Win32.OS.ansiClipboard Collab.ascii CString.hi
      Win32.State.sample).1.chars = [104, 33] :=
  ⟨by decide,
    ((Window_GetClipboardText_appends_converted Win32.OS.ansiClipboard Collab.ascii
      CString.hi Win32.State.sample 0 (by decide) (fun j hj => absurd hj (Nat.not_lt_zero j))
      (by decide)).2 [104, 233, 33, 0] (by decide) (by decide)).2 (by decide)⟩

/-! ## The reply to a selection request (X11) -/

/-- C13.  On X11, handling a SelectionRequest event sends exactly one SelectionNotify reply:
the calls made are at most one `XChangeProperty` for the requestor followed by one
`XSendEvent` whose requestor, selection, target and time are those of the request; when the
request is not served (the selection is not CLIPBOARD, the target is neither UTF8_STRING
nor TARGETS, or the target is UTF8_STRING and no text is stored) the property of the reply
is None. -/
theorem Window_ProcessEvent_SelectionRequest_replies_once (A : X11.Atoms) (C : Collab)
    (s : X11.State) (requestor selection target property time : Nat)
    (hatoms : A.xa_utf8_string ≠ A.xa_targets) :
    ∃ (writes : List Call) (replyProperty : Nat),
      (X11.Window_ProcessEvent A C
          (X11.XEvent.SelectionRequest requestor selection target property time) s).trace =
        s.trace ++ writes ++
          [XSendEvent_SelectionNotify requestor selection target replyProperty time] ∧
      writes.length ≤ 1 ∧
      (∀ c ∈ writes, ∃ prop type format data,
        c = XChangeProperty requestor prop type format data) ∧
      ((selection ≠ A.xa_clipboard ∨
          (target ≠ A.xa_utf8_string ∧ target ≠ A.xa_targets) ∨
          (target = A.xa_utf8_string ∧ s.clipboard_copy_text.length = 0)) →
        writes = [] ∧ replyProperty = 0) := by
  by_cases h1 : selection = A.xa_clipboard ∧ target = A.xa_utf8_string ∧
      s.clipboard_copy_text.length ≠ 0
  · refine ⟨[XChangeProperty requestor (X11.Window_GetSelectionProperty property target)
      A.xa_utf8_string 8 (C.Platform_ConvertString s.clipboard_copy_text)],
      X11.Window_GetSelectionProperty property target, ?_, by simp, ?_, ?_⟩
    · simp only [X11.Window_ProcessEvent, if_pos h1, X11.call, List.append_assoc,
        List.singleton_append]
    · intro c hc
      simp only [List.mem_singleton] at hc
      exact ⟨_, _, _, _, hc⟩
    · rintro (h | h | h)
      · exact absurd h1.1 h
      · exact absurd h1.2.1 h.1
      · exact absurd h.2 h1.2.2
  · by_cases h2 : selection = A.xa_clipboard ∧ target = A.xa_targets
    · refine ⟨[XChangeProperty requestor (X11.Window_GetSelectionProperty property target)
        A.xa_atom 32 [A.xa_utf8_string, A.xa_targets]],
        X11.Window_GetSelectionProperty property target, ?_, by simp, ?_, ?_⟩
      · simp only [X11.Window_ProcessEvent, if_neg h1, if_pos h2, X11.call,
          List.append_assoc, List.singleton_append]
      · intro c hc
        simp only [List.mem_singleton] at hc
        exact ⟨_, _, _, _, hc⟩
      · rintro (h | h | h)
        · exact absurd h2.1 h
        · exact absurd h2.2 h.2
        · exact absurd (h.1.symm.trans h2.2) hatoms
    · refine ⟨[], 0, ?_, by simp, by simp, fun _ => ⟨rfl, rfl⟩⟩
      simp only [X11.Window_ProcessEvent, if_neg h1, if_neg h2, X11.call, List.append_nil]

/-- Witness for C13: a request for the target 999 on the sample window. -/
theorem Window_ProcessEvent_SelectionRequest_replies_once_witness :
    X11.Atoms.sample.xa_utf8_string ≠ X11.Atoms.sample.xa_targets ∧
    ∃ (writes : List Call) (replyProperty : Nat),
      (X11.Window_ProcessEvent X11.Atoms.sample Collab.ascii
          (X11.XEvent.SelectionRequest 9 308 999 0 12345) X11.State.sample).trace =
        X11.State.sample.trace ++ writes ++
          [XSendEvent_SelectionNotify 9 308 999 replyProperty 12345] ∧
      writes.length ≤ 1 ∧
      (∀ c ∈ writes, ∃ prop type format data, c = XChangeProperty 9 prop type format data) ∧
      ((308 ≠ X11.Atoms.sample.xa_clipboard ∨
          (999 ≠ X11.Atoms.sample.xa_utf8_string ∧ 999 ≠ X11.Atoms.sample.xa_targets) ∨
          (999 = X11.Atoms.sample.xa_utf8_string ∧
            X11.State.sample.clipboard_copy_text.length = 0)) →
        writes = [] ∧ replyProperty = 0) :=
  ⟨by decide, Window_ProcessEvent_SelectionRequest_replies_once X11.Atoms.sample Collab.ascii
    X11.State.sample 9 308 999 0 12345 (by decide)⟩

/-! ## Swap control (WGL, GLX) -/

/-- C14.  On Win32 and X11, while `ctx_supports_vSync` is false, `GLContext_SetVSync`
returns with the state as it found it, for both values of `enabled`: it makes no call, so
no swap-interval call, logs nothing and does not fail. -/
theorem GLContext_SetVSync_unsupported (glx : X11.GLX) (enabled : Bool) (w : Win32.State)
    (x : X11.State) (hw : w.ctx_supports_vSync = false) (hx : x.ctx_supports_vSync = false) :
    Win32.GLContext_SetVSync enabled w = w ∧ X11.GLContext_SetVSync glx enabled x = x := by
  constructor
  · simp [Win32.GLContext_SetVSync, hw]
  · simp [X11.GLContext_SetVSync, hx]

/-- Witness for C14: the sample windows, on which no context was initialised. -/
theorem GLContext_SetVSync_unsupported_witness :
    Win32.State.sample.ctx_supports_vSync = false ∧
    X11.State.sample.ctx_supports_vSync = false ∧
    Win32.GLContext_SetVSync true Win32.State.sample = Win32.State.sample ∧
    X11.GLContext_SetVSync X11.GLX.sample true X11.State.sample = X11.State.sample :=
  ⟨rfl, rfl, GLContext_SetVSync_unsupported X11.GLX.sample true Win32.State.sample
    X11.State.sample rfl rfl⟩

/-- C15 (the code at the failing input).  On WGL the flag does not depend on the extension
string: whenever `GLContext_Init` of the Win32 backend returns, `ctx_supports_vSync` says
whether the address lookup for `wglSwapIntervalEXT` gave a usable address, and nothing
else.  So on a driver whose extension string names no swap-control extension but which
hands out the address 4096, it returns with `ctx_supports_vSync` true, having made no call
that asks for the extension string; the X11 backend, on a GLX driver that behaves the same
way, asks for the string, looks up no address and leaves the flag false. -/
theorem GLContext_Init_trusts_the_address :
    (∀ (wgl : Win32.WGL) (mode : GraphicsMode) (s after : Win32.State),
      Win32.GLContext_Init wgl mode s = Ended.returned () after →
      after.ctx_supports_vSync = decide (after.wglSwapIntervalEXT ≠ 0)) ∧
    Win32.WGL.unadvertised.extensionsContain GLExtension.WGL_EXT_swap_control = false ∧
    Win32.GLContext_Init Win32.WGL.unadvertised GraphicsMode.sample Win32.State.sample =
      Ended.returned ()
        { Win32.State.sample with
          ctx_Handle := 100
          ctx_DC := 2
          wglSwapIntervalEXT := 4096
          ctx_supports_vSync := true
          trace :=
            [api (NativeCall.ChoosePixelFormat 2
                { dwFlags := 37, iPixelType := 0, cColorBits := 24, cRedBits := 8,
                  cGreenBits := 8, cBlueBits := 8, cAlphaBits := 8, cDepthBits := 24,
                  cStencilBits := 0 }),
              api (NativeCall.DescribePixelFormat 2 1),
              api (NativeCall.SetPixelFormat 2 1),
              api (NativeCall.wglCreateContext 2),
              api (NativeCall.wglMakeCurrent 2 100),
              api NativeCall.wglGetCurrentDC,
              api (NativeCall.wglGetProcAddress GLProc.wglSwapIntervalEXT)] } ∧
    X11.GLContext_Init X11.GLX.unadvertised GraphicsMode.sample X11.State.created =
      Ended.returned ()
        { X11.State.created with
          ctx_Handle := 200
          ctx_supports_vSync := false
          trace := X11.State.created.trace ++
            [api (NativeCall.glXCreateContext 33 true),
              api (NativeCall.glXIsDirect 200),
              api (NativeCall.glXMakeCurrent 7 200),
              api NativeCall.glXQueryExtensionsString] } := by
  refine ⟨?_, by decide!, by decide!, by decide!⟩
  intro wgl mode s after h
  unfold Win32.GLContext_Init at h
  split at h
  · cases h
  · dsimp only at h
    split_ifs at h <;> (injection h with _ hs; subst hs; rfl)

/-! ## Pumping an empty queue -/

/-- C16, as amended.  With an empty native queue `Window_ProcessEvents` makes a single poll
that fails and nothing else, so it raises no notification and runs no handler: on Win32
the one `PeekMessage`, on Carbon the one `ReceiveNextEvent` (and the function returns), on
X11 the one round of `Window_GetPendingEvent` when the window exists; when the X11
window does not exist it returns without polling at all. -/
theorem Window_ProcessEvents_empty_queue (C : Collab) (os : Win32.OS) (w : Win32.State)
    (srv : X11.Server) (A : X11.Atoms) (x : X11.State)
    (sys : Carbon.System) (c : Carbon.State) (n : Nat)
    (hw : os.deliver (w.trace ++ [PeekMessage]) = [])
    (hx : x.queue ++ srv.arrivals x.trace = [])
    (hc : sys.receiveNextEvent (c.trace ++ [api NativeCall.ReceiveNextEvent]) =
      Carbon.Received.timedOut) :
    (Win32.Window_ProcessEvents os C w).trace = w.trace ++ [PeekMessage] ∧
    (X11.Window_ProcessEvents srv A C x).trace =
      x.trace ++ (if x.Window_Exists then [XCheckEvent] else []) ∧
    Carbon.Window_ProcessEvents sys C (n + 1) c =
      some (Carbon.Outcome.returned ()
        { c with trace := c.trace ++ [api NativeCall.ReceiveNextEvent] }) := by
  refine ⟨?_, ?_, ?_⟩
  · simp only [Win32.Window_ProcessEvents, hw, List.foldl_nil, Win32.call]
    split_ifs <;> rfl
  · simp only [X11.Window_ProcessEvents, hx, List.length_nil, Nat.zero_add,
      X11.Window_ProcessEvents_loop]
    cases hex : x.Window_Exists
    · simp
    · simp [X11.call, X11.Window_GetPendingEvent, X11.takeFirst]
  · simp only [Carbon.Window_ProcessEvents, Carbon.call, hc]

/-- Witness for C16: the three sample windows with nothing queued. -/
theorem Window_ProcessEvents_empty_queue_witness :
    (Win32.Window_ProcessEvents Win32.OS.plain Collab.ascii Win32.State.sample).trace =
      Win32.State.sample.trace ++ [PeekMessage] ∧
    (X11.Window_ProcessEvents X11.Server.noOwner X11.Atoms.sample Collab.ascii
        X11.State.sample).trace =
      X11.State.sample.trace ++ (if X11.State.sample.Window_Exists then [XCheckEvent] else []) ∧
    Carbon.Window_ProcessEvents Carbon.System.sample Collab.ascii (0 + 1) Carbon.State.sample =
      some (Carbon.Outcome.returned ()
        { Carbon.State.sample with
          trace := Carbon.State.sample.trace ++ [api NativeCall.ReceiveNextEvent] }) :=
  Window_ProcessEvents_empty_queue Collab.ascii Win32.OS.plain Win32.State.sample
    X11.Server.noOwner X11.Atoms.sample X11.State.sample Carbon.System.sample
    Carbon.State.sample 0 rfl rfl rfl

/-- Counterexample to C16 as stated: on X11, after `Window_Destroy` the queue is empty and
`Window_ProcessEvents` returns the state as it found it, without a single poll. -/
theorem Window_ProcessEvents_no_poll_without_window :
    X11.State.destroyed.queue ++ X11.Server.noOwner.arrivals X11.State.destroyed.trace = [] ∧
    X11.State.destroyed.trace = [XSync true, XDestroyWindow 7] ∧
    X11.Window_ProcessEvents X11.Server.noOwner X11.Atoms.sample Collab.ascii
      X11.State.destroyed = X11.State.destroyed := by
  decide!

/-! ## Deferred fullscreen (Carbon) -/

/-- The function `GLContext_Check` changes neither the pending flags nor the first-time
flag, whether it returns or fails. -/
theorem Carbon.GLContext_Check_flags (sys : Carbon.System) (code : Int) (s : Carbon.State)
    (r : Carbon.Outcome Unit) (hr : Carbon.GLContext_Check sys code s = r) :
    r.state.ctx_pendingFullscreen = s.ctx_pendingFullscreen ∧
    r.state.ctx_pendingWindowed = s.ctx_pendingWindowed ∧
    r.state.ctx_firstFullscreen = s.ctx_firstFullscreen := by
  subst hr
  simp only [Carbon.GLContext_Check]
  split_ifs <;> simp [Carbon.Outcome.state, Carbon.call]

/-- The first steps of `GLContext_SetFullscreen`, up to `GLContext_MakeCurrent`, change
neither the pending flags nor the first-time flag. -/
theorem Carbon.GLContext_MakeCurrent_flags (sys : Carbon.System) (code : Int)
    (s : Carbon.State) (r : Carbon.Outcome Unit)
    (hr : ((Carbon.GLContext_Check sys code s).andThen fun _ s =>
      Carbon.GLContext_MakeCurrent sys s) = r) :
    r.state.ctx_pendingFullscreen = s.ctx_pendingFullscreen ∧
    r.state.ctx_pendingWindowed = s.ctx_pendingWindowed ∧
    r.state.ctx_firstFullscreen = s.ctx_firstFullscreen := by
  subst hr
  have h1 := Carbon.GLContext_Check_flags sys code s _ rfl
  cases hc : Carbon.GLContext_Check sys code s with
  | failed s1 =>
    rw [hc] at h1
    simpa [Carbon.Outcome.andThen] using h1
  | returned v s1 =>
    rw [hc] at h1
    simp only [Carbon.Outcome.andThen, Carbon.GLContext_MakeCurrent]
    have h2 := Carbon.GLContext_Check_flags sys
      (sys.agl (Carbon.call (api (NativeCall.aglSetCurrentContext s1.ctx_handle)) s1).trace)
      (Carbon.call (api (NativeCall.aglSetCurrentContext s1.ctx_handle)) s1) _ rfl
    simp only [Carbon.Outcome.state, Carbon.call] at h1 h2 ⊢
    exact ⟨h2.1.trans h1.1, h2.2.1.trans h1.2.1, h2.2.2.trans h1.2.2⟩

/-- From a window that is neither Fullscreen nor minimised, `Window_SetWindowState` for
Fullscreen records the request and raises the two notifications, and nothing else. -/
theorem Carbon.Window_SetWindowState_to_fullscreen (sys : Carbon.System) (s : Carbon.State)
    (hs : s.win_state ≠ WINDOW_STATE_FULLSCREEN)
    (hmin : Carbon.Window_GetWindowState sys s ≠ WINDOW_STATE_MINIMISED) :
    Carbon.Window_SetWindowState sys WINDOW_STATE_FULLSCREEN s =
      Carbon.Outcome.returned ()
        { s with
          win_state := WINDOW_STATE_FULLSCREEN
          ctx_pendingFullscreen := true
          trace := s.trace ++ [Event_RaiseVoid WindowEvents_StateChanged,
            Event_RaiseVoid WindowEvents_Resized] } := by
  have hold : Carbon.Window_GetWindowState sys s ≠ WINDOW_STATE_FULLSCREEN := by
    unfold Carbon.Window_GetWindowState
    rw [if_neg hs]
    split_ifs <;> simp
  have hne : ¬ (WINDOW_STATE_FULLSCREEN = Carbon.Window_GetWindowState sys s) :=
    fun h => hold h.symm
  simp only [Carbon.Window_SetWindowState, if_neg hne, if_neg hold, if_neg hmin,
    Carbon.Outcome.andThen, Carbon.Window_UpdateWindowState, Carbon.call,
    Carbon.Window_UpdateSize, if_true, List.append_assoc, List.singleton_append]

/-- From Fullscreen, `Window_SetWindowState` for another state records the request and does
nothing else. -/
theorem Carbon.Window_SetWindowState_from_fullscreen (sys : Carbon.System) (s : Carbon.State)
    (state : WindowState) (hs : s.win_state = WINDOW_STATE_FULLSCREEN)
    (hstate : state ≠ WINDOW_STATE_FULLSCREEN) :
    Carbon.Window_SetWindowState sys state s =
      Carbon.Outcome.returned () { s with win_state := state, ctx_pendingWindowed := true } := by
  have hold : Carbon.Window_GetWindowState sys s = WINDOW_STATE_FULLSCREEN := by
    simp [Carbon.Window_GetWindowState, hs]
  simp only [Carbon.Window_SetWindowState, hold, if_neg hstate, if_true]

/-- Once the context has been fullscreen before, `GLContext_Update` with a pending switch
to fullscreen ends, whether it returns or fails, with the pending flag cleared. -/
theorem Carbon.GLContext_Update_later_switch (sys : Carbon.System) (n : Nat)
    (s : Carbon.State) (hp : s.ctx_pendingFullscreen = true)
    (hf : s.ctx_firstFullscreen = true) :
    ∃ r, Carbon.GLContext_Update sys (n + 1) s = some r ∧
      r.state.ctx_pendingFullscreen = false := by
  simp only [Carbon.GLContext_Update, hp, if_true, Carbon.GLContext_SetFullscreen]
  split
  · next s2 heq =>
    have h := Carbon.GLContext_MakeCurrent_flags sys _ _ _ heq
    exact ⟨_, rfl, by simpa [Carbon.Outcome.state, Carbon.call] using h.1⟩
  · next v s2 heq =>
    have h := Carbon.GLContext_MakeCurrent_flags sys _ _ _ heq
    simp only [Carbon.Outcome.state, Carbon.call] at h
    have hf2 : s2.ctx_firstFullscreen = true := h.2.2.trans hf
    simp only [hf2, Bool.not_true, Bool.false_eq_true, if_false]
    exact ⟨_, rfl, by simpa [Carbon.Outcome.state] using h.1⟩

/-- C17 (the code at the failing input).  The two requests are deferred as claimed:
`Window_SetWindowState(FULLSCREEN)` from a window that is neither Fullscreen nor minimised
only records the request (`win_state`, `ctx_pendingFullscreen`) and raises the two
notifications, and `Window_SetWindowState` for another state from Fullscreen only records
`win_state` and `ctx_pendingWindowed`; neither makes an OpenGL or display call or changes
`ctx_fullscreen`.  Once the context has been fullscreen before, `GLContext_Update` ends
with the pending flag cleared.  The first switch does not: on the sample window with a
context that was never fullscreen, `GLContext_Update` carries the switch out
(`ctx_fullscreen` is true afterwards) but returns with `ctx_pendingFullscreen` true, because
the `GLContext_UnsetFullscreen` nested in the first `GLContext_SetFullscreen` runs
`Window_UpdateWindowState`, which sets the flag again. -/
theorem GLContext_Update_leaves_pendingFullscreen_set :
    (∀ (sys : Carbon.System) (s : Carbon.State),
      s.win_state ≠ WINDOW_STATE_FULLSCREEN →
      Carbon.Window_GetWindowState sys s ≠ WINDOW_STATE_MINIMISED →
      Carbon.Window_SetWindowState sys WINDOW_STATE_FULLSCREEN s =
        Carbon.Outcome.returned ()
          { s with
            win_state := WINDOW_STATE_FULLSCREEN
            ctx_pendingFullscreen := true
            trace := s.trace ++ [Event_RaiseVoid WindowEvents_StateChanged,
              Event_RaiseVoid WindowEvents_Resized] }) ∧
    (∀ (sys : Carbon.System) (s : Carbon.State) (state : WindowState),
      s.win_state = WINDOW_STATE_FULLSCREEN → state ≠ WINDOW_STATE_FULLSCREEN →
      Carbon.Window_SetWindowState sys state s =
        Carbon.Outcome.returned ()
          { s with win_state := state, ctx_pendingWindowed := true }) ∧
    (∀ (sys : Carbon.System) (n : Nat) (s : Carbon.State),
      s.ctx_pendingFullscreen = true → s.ctx_firstFullscreen = true →
      ∃ r, Carbon.GLContext_Update sys (n + 1) s = some r ∧
        r.state.ctx_pendingFullscreen = false) ∧
    Carbon.Window_SetWindowState Carbon.System.sample WINDOW_STATE_FULLSCREEN
        Carbon.State.ready =
      Carbon.Outcome.returned ()
        { Carbon.State.ready with
          win_state := WINDOW_STATE_FULLSCREEN
          ctx_pendingFullscreen := true
          trace := [Event_RaiseVoid WindowEvents_StateChanged,
            Event_RaiseVoid WindowEvents_Resized] } ∧
    Carbon.GLContext_Update Carbon.System.sample 2
        (Carbon.Window_SetWindowState Carbon.System.sample WINDOW_STATE_FULLSCREEN
          Carbon.State.ready).state =
      some (Carbon.Outcome.returned ()
        { Carbon.State.ready with
          win_state := WINDOW_STATE_FULLSCREEN
          ctx_pendingFullscreen := true
          ctx_fullscreen := true
          ctx_firstFullscreen := true
          ctx_windowedBounds := { X := 0, Y := 0, Width := 640, Height := 502 }
          Window_Bounds := { X := 0, Y := 0, Width := 1440, Height := 900 }
          Window_ClientSize := { Width := 900, Height := 480 }
          trace :=
            [Event_RaiseVoid WindowEvents_StateChanged,
              Event_RaiseVoid WindowEvents_Resized,
              Platform_Log LogLine.switchingToFullscreen,
              api NativeCall.CGDisplayCapture,
              api (NativeCall.aglSetFullScreen 9 1440 900),
              api (NativeCall.aglSetCurrentContext 9),
              Platform_Log LogLine.unsettingFullscreen,
              api (NativeCall.aglSetDrawable 9 0),
              api (NativeCall.aglUpdateContext 9),
              api NativeCall.CGDisplayRelease,
              api (NativeCall.aglSetDrawable 9 5),
              Event_RaiseVoid WindowEvents_StateChanged,
              Event_RaiseVoid WindowEvents_Resized,
              api (NativeCall.SizeWindow 5 0 (-22)),
              Platform_Log LogLine.switchingToFullscreen,
              api NativeCall.CGDisplayCapture,
              api (NativeCall.aglSetFullScreen 9 1440 900),
              api (NativeCall.aglSetCurrentContext 9)] }) := by
  exact ⟨Carbon.Window_SetWindowState_to_fullscreen, Carbon.Window_SetWindowState_from_fullscreen,
    Carbon.GLContext_Update_later_switch, by decide!, by decide!⟩

/-! ## Client size and bounds (X11) -/

/-- C18 (the code at the failing input).  A resize that the window manager answers with a
frame is not taken over: after `Window_Create` of a 640 by 480 window,
`Window_SetClientSize(630, 470)` processes the ConfigureNotify that reports the client
size 630 by 470 inside a frame of 5 on every side, and returns with `Window_ClientSize`
still 640 by 480: the outer size, 640 by 480, equals the stored bounds, and only a change
of the outer size updates the client size. -/
theorem Window_SetClientSize_keeps_old_ClientSize :
    X11.Window_Create X11.Server.decorating X11.GLX.sample X11.Atoms.sample 0 0 640 480
        GraphicsMode.sample X11.State.initial = Ended.returned () X11.State.created ∧
    X11.Server.decorating.arrivals
        (X11.State.created.trace ++ [api (NativeCall.XResizeWindow 7 630 470)]) =
      [X11.XEvent.ConfigureNotify 5 5 630 470
        { data := some [5, 5, 5, 5], items := 4, prop_type := 6 }] ∧
    X11.Window_SetClientSize X11.Server.decorating X11.Atoms.sample Collab.ascii 630 470
        X11.State.created =
      { X11.State.created with
        borderLeft := 5
        borderRight := 5
        borderTop := 5
        borderBottom := 5
        Window_ClientSize := { Width := 640, Height := 480 }
        Window_Bounds := { X := 0, Y := 0, Width := 640, Height := 480 }
        trace := X11.State.created.trace ++ [api (NativeCall.XResizeWindow 7 630 470), XCheckEvent,
          XCheckEvent] } := by
  decide!

/-- The function `Window_RefreshBorders` changes the borders only. -/
theorem X11.Window_RefreshBorders_bounds (reply : X11.PropertyReply) (s : X11.State) :
    (X11.Window_RefreshBorders reply s).Window_Bounds = s.Window_Bounds := by
  unfold X11.Window_RefreshBorders
  split
  · rfl
  · split_ifs <;> rfl

/-- C19 (the code at the failing input).  The bounds always follow the event, the client
size does not: after every `Window_RefreshBounds` the width and height of `Window_Bounds`
are the client size of the event plus the current borders, and the client size is the one
of the event whenever that outer size differs from the bounds stored before.  When it
does not differ the client size is left as it was: on the window `Window_Create` made 640
by 480 without a frame, the event that reports a client size of 630 by 470 inside a frame
of 5 leaves `Window_ClientSize` at 640 by 480. -/
theorem Window_RefreshBounds_keeps_old_ClientSize :
    (∀ (x y width height : Int) (reply : X11.PropertyReply) (s : X11.State),
      let after := X11.Window_RefreshBounds x y width height reply s
      after.Window_Bounds.Width = width + after.borderLeft + after.borderRight ∧
      after.Window_Bounds.Height = height + after.borderTop + after.borderBottom ∧
      ((s.Window_Bounds.Width ≠ width + after.borderLeft + after.borderRight ∨
          s.Window_Bounds.Height ≠ height + after.borderTop + after.borderBottom) →
        after.Window_ClientSize = { Width := width, Height := height })) ∧
    X11.State.created.Window_ClientSize = { Width := 640, Height := 480 } ∧
    X11.State.created.Window_Bounds = { X := 0, Y := 0, Width := 640, Height := 480 } ∧
    (X11.Window_RefreshBounds 5 5 630 470
        { data := some [5, 5, 5, 5], items := 4, prop_type := 6 }
        X11.State.created).Window_ClientSize = { Width := 640, Height := 480 } := by
  refine ⟨?_, by decide!, by decide!, by decide!⟩
  intro x y width height reply s
  have hb := X11.Window_RefreshBorders_bounds reply s
  simp only [X11.Window_RefreshBounds]
  generalize X11.Window_RefreshBorders reply s = s1 at hb ⊢
  rw [← hb]
  split_ifs <;> simp_all [X11.call]

/-- C20.  On X11, a SelectionRequest for CLIPBOARD with target UTF8_STRING, while copy text
is stored, writes the UTF-8 conversion of the stored text with format 8; one with target
TARGETS writes the two atoms UTF8_STRING and TARGETS with format 32; in both cases the
property written, and named in the reply, is the property of the request, or its target
when that property is None; a UTF8_STRING request while no text is stored, and every
other request, writes nothing and is answered with the property None. -/
theorem Window_ProcessEvent_SelectionRequest_serves (A : X11.Atoms) (C : Collab)
    (s : X11.State) (requestor selection target property time : Nat)
    (hatoms : A.xa_utf8_string ≠ A.xa_targets) :
    let after := (X11.Window_ProcessEvent A C
      (X11.XEvent.SelectionRequest requestor selection target property time) s).trace
    let used := if property ≠ 0 then property else target
    (selection = A.xa_clipboard → target = A.xa_utf8_string →
      s.clipboard_copy_text.length ≠ 0 →
      after = s.trace ++
        [XChangeProperty requestor used A.xa_utf8_string 8
          (C.Platform_ConvertString s.clipboard_copy_text),
         XSendEvent_SelectionNotify requestor selection target used time]) ∧
    (selection = A.xa_clipboard → target = A.xa_targets →
      after = s.trace ++
        [XChangeProperty requestor used A.xa_atom 32 [A.xa_utf8_string, A.xa_targets],
         XSendEvent_SelectionNotify requestor selection target used time]) ∧
    ((selection ≠ A.xa_clipboard ∨
        (target ≠ A.xa_utf8_string ∧ target ≠ A.xa_targets) ∨
        (target = A.xa_utf8_string ∧ s.clipboard_copy_text.length = 0)) →
      after = s.trace ++ [XSendEvent_SelectionNotify requestor selection target 0 time]) := by
  intro after used
  refine ⟨?_, ?_, ?_⟩
  · intro h1 h2 h3
    have h : selection = A.xa_clipboard ∧ target = A.xa_utf8_string ∧
        s.clipboard_copy_text.length ≠ 0 := ⟨h1, h2, h3⟩
    simp only [after, used, X11.Window_ProcessEvent, if_pos h, X11.call,
      X11.Window_GetSelectionProperty, List.append_assoc, List.singleton_append]
  · intro h1 h2
    have hn : ¬ (selection = A.xa_clipboard ∧ target = A.xa_utf8_string ∧
        s.clipboard_copy_text.length ≠ 0) := fun h => hatoms (h.2.1.symm.trans h2)
    have h : selection = A.xa_clipboard ∧ target = A.xa_targets := ⟨h1, h2⟩
    simp only [after, used, X11.Window_ProcessEvent, if_neg hn, if_pos h, X11.call,
      X11.Window_GetSelectionProperty, List.append_assoc, List.singleton_append]
  · intro h
    have hn1 : ¬ (selection = A.xa_clipboard ∧ target = A.xa_utf8_string ∧
        s.clipboard_copy_text.length ≠ 0) := by
      rintro ⟨a, b, c⟩
      rcases h with h | h | h
      · exact h a
      · exact h.1 b
      · exact c h.2
    have hn2 : ¬ (selection = A.xa_clipboard ∧ target = A.xa_targets) := by
      rintro ⟨a, b⟩
      rcases h with h | h | h
      · exact h a
      · exact h.2 b
      · exact hatoms (h.1.symm.trans b)
    simp only [after, X11.Window_ProcessEvent, if_neg hn1, if_neg hn2, X11.call]

/-- Witness for C20: a request for TARGETS with the property None on the sample
window. -/
theorem Window_ProcessEvent_SelectionRequest_serves_witness :
    X11.Atoms.sample.xa_utf8_string ≠ X11.Atoms.sample.xa_targets ∧
    (X11.Window_ProcessEvent X11.Atoms.sample Collab.ascii
      (X11.XEvent.SelectionRequest 9 308 309 0 12345) X11.State.sample).trace =
      X11.State.sample.trace ++
        [XChangeProperty 9 309 4 32 [310, 309], XSendEvent_SelectionNotify 9 308 309 309 12345] :=
  ⟨by decide,
    (Window_ProcessEvent_SelectionRequest_serves X11.Atoms.sample Collab.ascii
      X11.State.sample 9 308 309 0 12345 (by decide)).2.1 rfl rfl⟩

/-! ## The modifier keys in the Win32 window procedure -/

/-- C21, as amended.  On Win32, a keyboard message for `VK_SHIFT` never uses its own
pressed flag as a key state: a key-up message (`WM_KEYUP`, `WM_SYSKEYUP`), and a key-down
message at which the polled states of the two Shift keys differ, sets `Key_ShiftLeft` and
then `Key_ShiftRight` to the polled states of the left and the right Shift key and does
nothing else; a key-down message at which the two polled states are equal leaves the
state as it was. -/
theorem Window_Procedure_VK_SHIFT (C : Collab) (message : Win32.KeyMessage) (lParam : Nat)
    (lShiftDown rShiftDown : Bool) (s : Win32.State) :
    Win32.Window_Procedure C
        (Win32.Msg.key message Win32.VK_SHIFT lParam lShiftDown rShiftDown) s =
      if message = Win32.KeyMessage.WM_KEYUP ∨ message = Win32.KeyMessage.WM_SYSKEYUP ∨
          lShiftDown ≠ rShiftDown then
        { s with trace := s.trace ++
          [Key_SetPressed (C.K Key_ShiftLeft) lShiftDown,
            Key_SetPressed (C.K Key_ShiftRight) rShiftDown] }
      else s := by
  cases message <;> cases lShiftDown <;> cases rShiftDown <;>
    simp [Win32.Window_Procedure, Win32.Window_Procedure_key, Win32.call]

/-- Counterexample to C21 as stated: a `WM_KEYDOWN` for `VK_SHIFT` that arrives while both
Shift keys are polled as down (the second Shift key was pressed while the first is held)
sets neither key: the state, trace included, is as before. -/
theorem Window_Procedure_VK_SHIFT_both_down_sets_nothing :
    Win32.Window_Procedure Collab.ascii
      (Win32.Msg.key Win32.KeyMessage.WM_KEYDOWN Win32.VK_SHIFT 0 true true)
      Win32.State.sample = Win32.State.sample := by
  decide!

/-- C22 (the code at the failing input).  On Win32 a key-up message for `VK_CONTROL` or
`VK_MENU` releases one key only, the right one when the extended bit (bit 24 of `lParam`)
is set and the left one otherwise; the other key of the pair is not touched.  So the
release of the left Control key, `WM_KEYUP` with `lParam` 0, makes the single call
`Key_SetPressed(Key_ControlLeft, false)`. -/
theorem Window_Procedure_releases_one_key_of_the_pair :
    (∀ (C : Collab) (message : Win32.KeyMessage) (lParam : Nat)
        (lShiftDown rShiftDown : Bool) (s : Win32.State),
      message = Win32.KeyMessage.WM_KEYUP ∨ message = Win32.KeyMessage.WM_SYSKEYUP →
      Win32.Window_Procedure C
          (Win32.Msg.key message Win32.VK_CONTROL lParam lShiftDown rShiftDown) s =
        { s with trace := s.trace ++
          [Key_SetPressed
            (if (lParam / 2 ^ 24) % 2 ≠ 0 then C.K Key_ControlRight else C.K Key_ControlLeft)
            false] } ∧
      Win32.Window_Procedure C
          (Win32.Msg.key message Win32.VK_MENU lParam lShiftDown rShiftDown) s =
        { s with trace := s.trace ++
          [Key_SetPressed
            (if (lParam / 2 ^ 24) % 2 ≠ 0 then C.K Key_AltRight else C.K Key_AltLeft)
            false] }) ∧
    Win32.Window_Procedure Collab.ascii
        (Win32.Msg.key Win32.KeyMessage.WM_KEYUP Win32.VK_CONTROL 0 false false)
        Win32.State.sample =
      { Win32.State.sample with
        trace := [Key_SetPressed (Collab.ascii.K Key_ControlLeft) false] } := by
  refine ⟨?_, by decide!⟩
  intro C message lParam lShiftDown rShiftDown s hm
  rcases hm with rfl | rfl <;>
    (constructor <;>
      (simp only [Win32.Window_Procedure, Win32.Window_Procedure_key, Win32.call]
       split_ifs <;> simp_all [Win32.VK_SHIFT, Win32.VK_CONTROL, Win32.VK_MENU]))

/-! ## The choice of the visual (GLX) -/

/-- C23 (the code at the failing input).  On X11 `GLContext_SelectVisual` asks
`glXChooseFBConfig` exactly when the reported major version is at least 1 and the
reported minor version is at least 3, each compared on its own: whenever the version
query succeeds, the call that follows it is `glXChooseFBConfig` in that case and the
fallback (the log line and `glXChooseVisual`) otherwise.  For the version 2.0, which is
above 1.3, the minor version 0 fails the test: the function logs the fallback and calls
`glXChooseVisual` without having tried `glXChooseFBConfig`. -/
theorem GLContext_SelectVisual_compares_minor_alone :
    (∀ (glx : X11.GLX) (mode : GraphicsMode) (s : X11.State) (major minor : Int),
      glx.glXQueryVersion (s.trace ++ [api NativeCall.glXQueryVersion]) = some (major, minor) →
      (if major ≥ 1 ∧ minor ≥ 3 then
        s.trace ++ [api NativeCall.glXQueryVersion,
          api (NativeCall.glXChooseFBConfig (X11.GLContext_GetAttribs mode))]
      else
        s.trace ++ [api NativeCall.glXQueryVersion,
          Platform_Log LogLine.fallingBackToChooseVisual,
          api (NativeCall.glXChooseVisual (X11.GLContext_GetAttribs mode))]) <+:
        (X11.GLContext_SelectVisual glx mode s).state.trace) ∧
    X11.GLContext_SelectVisual X11.GLX.version2 GraphicsMode.sample X11.State.initial =
      Ended.returned { visual := 33, depth := 24 }
        { X11.State.initial with
          trace :=
            [api NativeCall.glXQueryVersion,
              Platform_Log LogLine.fallingBackToChooseVisual,
              api (NativeCall.glXChooseVisual [4, 8, 8, 9, 8, 10, 8, 11, 8, 12, 24, 5, 0])] } := by
  refine ⟨?_, by decide!⟩
  intro glx mode s major minor hv
  simp only [X11.GLContext_SelectVisual, X11.call, hv]
  by_cases hver : major ≥ 1 ∧ minor ≥ 3
  · simp only [if_pos hver]
    split_ifs
    · cases hvis : glx.glXGetVisualFromFBConfig
        (s.trace ++ [api NativeCall.glXQueryVersion] ++
          [api (NativeCall.glXChooseFBConfig (X11.GLContext_GetAttribs mode))] ++
          [api NativeCall.glXGetVisualFromFBConfig]) with
      | none =>
        simp only []
        split <;> simp [Ended.state, X11.call, List.prefix_append_right_inj]
      | some v => simp [Ended.state, X11.call, List.prefix_append_right_inj]
    · simp only []
      split <;> simp [Ended.state, X11.call, List.prefix_append_right_inj]
  · simp only [if_neg hver]
    split <;> simp [Ended.state, X11.call, List.prefix_append_right_inj]
/-! ## Fullscreen on Carbon: sizes and the order of requests -/

/-- A property of the state that holds where the first step ended and is kept by the
second step holds where the two steps ended. -/
theorem Carbon.Outcome.andThen_state {α β : Type} (P : Carbon.State → Prop)
    (r : Carbon.Outcome α) (f : α → Carbon.State → Carbon.Outcome β) (hr : P r.state)
    (hf : ∀ v s, P s → P (f v s).state) : P (r.andThen f).state := by
  cases r with
  | returned v s => exact hf v s hr
  | failed s => exact hr

/-- The function `Window_UpdateSize` does not change the first-time flag. -/
theorem Carbon.Window_UpdateSize_first (a b : Int × Int × Int × Int × Int)
    (s : Carbon.State) :
    (Carbon.Window_UpdateSize a b s).state.ctx_firstFullscreen = s.ctx_firstFullscreen := by
  simp only [Carbon.Window_UpdateSize]
  split_ifs <;> simp [Carbon.Outcome.state, Carbon.call]

/-- The check after a window call does not change the first-time flag. -/
theorem Carbon.checked_first (sys : Carbon.System) (s : Carbon.State) :
    (Carbon.checked sys s).state.ctx_firstFullscreen = s.ctx_firstFullscreen := by
  simp only [Carbon.checked]
  split_ifs <;> simp [Carbon.Outcome.state, Carbon.call]

/-- The function `Window_UpdateWindowState` does not change the first-time flag. -/
theorem Carbon.Window_UpdateWindowState_first (sys : Carbon.System) (s : Carbon.State) :
    (Carbon.Window_UpdateWindowState sys s).state.ctx_firstFullscreen =
      s.ctx_firstFullscreen := by
  simp only [Carbon.Window_UpdateWindowState]
  apply Carbon.Outcome.andThen_state (fun t => t.ctx_firstFullscreen = s.ctx_firstFullscreen)
  · split
    · rfl
    · exact Carbon.checked_first sys _
    · split_ifs
      · exact Carbon.checked_first sys _
      · rfl
    · exact Carbon.checked_first sys _
  · intro _ t ht
    apply Carbon.Outcome.andThen_state (fun t => t.ctx_firstFullscreen = s.ctx_firstFullscreen)
    · rw [Carbon.Window_UpdateSize_first]; exact ht
    · intro _ u hu; exact hu

/-- The function `GLContext_UnsetFullscreen` does not change the first-time flag. -/
theorem Carbon.GLContext_UnsetFullscreen_first (sys : Carbon.System) (s : Carbon.State) :
    (Carbon.GLContext_UnsetFullscreen sys s).state.ctx_firstFullscreen =
      s.ctx_firstFullscreen := by
  simp only [Carbon.GLContext_UnsetFullscreen]
  apply Carbon.Outcome.andThen_state (fun t => t.ctx_firstFullscreen = s.ctx_firstFullscreen)
  · exact (Carbon.GLContext_Check_flags sys _ _ _ rfl).2.2
  · intro _ t ht
    apply Carbon.Outcome.andThen_state (fun t => t.ctx_firstFullscreen = s.ctx_firstFullscreen)
    · exact ((Carbon.GLContext_Check_flags sys _ _ _ rfl).2.2).trans ht
    · intro _ u hu
      apply Carbon.Outcome.andThen_state
        (fun t => t.ctx_firstFullscreen = s.ctx_firstFullscreen)
      · exact ((Carbon.GLContext_Check_flags sys _ _ _ rfl).2.2).trans hu
      · intro _ v hv
        apply Carbon.Outcome.andThen_state
          (fun t => t.ctx_firstFullscreen = s.ctx_firstFullscreen)
        · rw [Carbon.Window_UpdateWindowState_first]; exact hv
        · intro _ w hw; exact hw

/-- Once the first-time flag is set, `GLContext_SetFullscreen` ends without a nested
call. -/
theorem Carbon.GLContext_SetFullscreen_later_ends (sys : Carbon.System) (n : Nat)
    (s : Carbon.State) (hfirst : s.ctx_firstFullscreen = true) :
    ∃ r, Carbon.GLContext_SetFullscreen sys (n + 1) s = some r := by
  simp only [Carbon.GLContext_SetFullscreen]
  split
  · exact ⟨_, rfl⟩
  · next v s1 heq =>
    have h := (Carbon.GLContext_MakeCurrent_flags sys _ _ _ heq).2.2
    simp only [Carbon.Outcome.state, Carbon.call, hfirst] at h
    simp only [h, Bool.not_true, Bool.false_eq_true, if_false]
    exact ⟨_, rfl⟩

/-- Two levels of nesting are enough for `GLContext_SetFullscreen`: it ends, by returning
or by failing, whatever the system answers. -/
theorem Carbon.GLContext_SetFullscreen_ends (sys : Carbon.System) (n : Nat)
    (s : Carbon.State) : ∃ r, Carbon.GLContext_SetFullscreen sys (n + 2) s = some r := by
  rw [Carbon.GLContext_SetFullscreen]
  simp only []
  split
  · exact ⟨_, rfl⟩
  · split_ifs
    · next v s1 heq hfirst =>
      have hu := Carbon.GLContext_UnsetFullscreen_first sys
        { s1 with ctx_firstFullscreen := true }
      split
      · exact ⟨_, rfl⟩
      · next v2 s2 heq2 =>
        rw [heq2] at hu
        exact Carbon.GLContext_SetFullscreen_later_ends sys n s2 hu
    · exact ⟨_, rfl⟩

/-- C24 (the code at the failing input).  On Carbon, whenever `GLContext_SetFullscreen`
returns, `Window_Bounds` is the bounds of the default display, but the width of
`Window_ClientSize` is the height of the display: the second assignment goes to `Width`
again, so the height of `Window_ClientSize` is never assigned.  On a display of 1440 by 900
a window with a client size of 640 by 480 ends with the client size 900 by 480; on a
display of 900 by 1440 it ends with the client size 1440 by 480 inside bounds 900 wide.
Two levels of nesting are enough for the function to end. -/
theorem GLContext_SetFullscreen_assigns_Width_twice :
    (∀ (sys : Carbon.System) (n : Nat) (s after : Carbon.State),
      Carbon.GLContext_SetFullscreen sys n s = some (Carbon.Outcome.returned () after) →
      after.Window_Bounds = sys.displayBounds ∧
      after.Window_ClientSize.Width = sys.displayBounds.Height) ∧
    (∀ (sys : Carbon.System) (n : Nat) (s : Carbon.State),
      ∃ r, Carbon.GLContext_SetFullscreen sys (n + 2) s = some r) ∧
    Carbon.GLContext_Update Carbon.System.sample 1
        (Carbon.Window_SetWindowState Carbon.System.sample WINDOW_STATE_FULLSCREEN
          Carbon.State.later).state =
      some (Carbon.Outcome.returned ()
        { Carbon.State.later with
          win_state := WINDOW_STATE_FULLSCREEN
          ctx_fullscreen := true
          ctx_windowedBounds := { X := 0, Y := 0, Width := 640, Height := 502 }
          Window_Bounds := { X := 0, Y := 0, Width := 1440, Height := 900 }
          Window_ClientSize := { Width := 900, Height := 480 }
          trace :=
            [Event_RaiseVoid WindowEvents_StateChanged,
              Event_RaiseVoid WindowEvents_Resized,
              Platform_Log LogLine.switchingToFullscreen,
              api NativeCall.CGDisplayCapture,
              api (NativeCall.aglSetFullScreen 9 1440 900),
              api (NativeCall.aglSetCurrentContext 9)] }) ∧
    (Carbon.GLContext_Update Carbon.System.portrait 1
        (Carbon.Window_SetWindowState Carbon.System.portrait WINDOW_STATE_FULLSCREEN
          Carbon.State.later).state).map
        (fun r => (r.state.Window_Bounds, r.state.Window_ClientSize)) =
      some ({ X := 0, Y := 0, Width := 900, Height := 1440 }, { Width := 1440, Height := 480 }) := by
  refine ⟨?_, Carbon.GLContext_SetFullscreen_ends, by decide!, by decide!⟩
  intro sys n
  induction n with
  | zero => intro s after h; simp [Carbon.GLContext_SetFullscreen] at h
  | succ n ih =>
    intro s after h
    simp only [Carbon.GLContext_SetFullscreen] at h
    split at h
    · simp at h
    · split_ifs at h
      · split at h
        · simp at h
        · exact ih _ _ h
      · simp only [Option.some.injEq, Carbon.Outcome.returned.injEq, true_and] at h
        subst h
        exact ⟨rfl, rfl⟩
/-- C25 (the code at the failing input).  On Carbon the earlier of two state requests
wins.  From a window that is neither Fullscreen nor minimised,
`Window_SetWindowState(FULLSCREEN)` followed by `Window_SetWindowState(NORMAL)` leaves both
pending flags set with `win_state` Normal.  On the sample window, whose context has been
fullscreen before, the first `GLContext_Update` then switches to fullscreen and stores
Fullscreen in `win_state`, the second leaves fullscreen and, finding `win_state`
Fullscreen, sets `ctx_pendingFullscreen` again, and the third switches to fullscreen once
more: only then is neither flag set, and `Window_GetWindowState()` is Fullscreen with
`ctx_fullscreen` true.  A fourth call changes none of this, and the outcome is the same
for a context that has never been fullscreen. -/
theorem GLContext_Update_serves_the_earlier_request :
    (∀ (sys : Carbon.System) (s : Carbon.State),
      s.win_state ≠ WINDOW_STATE_FULLSCREEN →
      Carbon.Window_GetWindowState sys s ≠ WINDOW_STATE_MINIMISED →
      Carbon.Window_SetWindowState sys WINDOW_STATE_NORMAL
          (Carbon.Window_SetWindowState sys WINDOW_STATE_FULLSCREEN s).state =
        Carbon.Outcome.returned ()
          { s with
            win_state := WINDOW_STATE_NORMAL
            ctx_pendingFullscreen := true
            ctx_pendingWindowed := true
            trace := s.trace ++ [Event_RaiseVoid WindowEvents_StateChanged,
              Event_RaiseVoid WindowEvents_Resized] }) ∧
    (List.range 5).map (fun k =>
        (Carbon.updates Carbon.System.sample 2 k
          (Carbon.Window_SetWindowState Carbon.System.sample WINDOW_STATE_NORMAL
            (Carbon.Window_SetWindowState Carbon.System.sample WINDOW_STATE_FULLSCREEN
              Carbon.State.later).state).state).map
          (fun s => (s.ctx_pendingFullscreen, s.ctx_pendingWindowed, s.ctx_fullscreen,
            Carbon.Window_GetWindowState Carbon.System.sample s))) =
      [some (true, true, false, WINDOW_STATE_NORMAL),
        some (false, true, true, WINDOW_STATE_FULLSCREEN),
        some (true, false, false, WINDOW_STATE_FULLSCREEN),
        some (false, false, true, WINDOW_STATE_FULLSCREEN),
        some (false, false, true, WINDOW_STATE_FULLSCREEN)] ∧
    (List.range 5).map (fun k =>
        (Carbon.updates Carbon.System.sample 2 k
          (Carbon.Window_SetWindowState Carbon.System.sample WINDOW_STATE_NORMAL
            (Carbon.Window_SetWindowState Carbon.System.sample WINDOW_STATE_FULLSCREEN
              Carbon.State.ready).state).state).map
          (fun s => (s.ctx_pendingFullscreen, s.ctx_pendingWindowed, s.ctx_fullscreen,
            Carbon.Window_GetWindowState Carbon.System.sample s))) =
      [some (true, true, false, WINDOW_STATE_NORMAL),
        some (false, true, true, WINDOW_STATE_FULLSCREEN),
        some (true, false, false, WINDOW_STATE_FULLSCREEN),
        some (false, false, true, WINDOW_STATE_FULLSCREEN),
        some (false, false, true, WINDOW_STATE_FULLSCREEN)] := by
  refine ⟨?_, by decide!, by decide!⟩
  intro sys s hs hmin
  rw [Carbon.Window_SetWindowState_to_fullscreen sys s hs hmin]
  simp only [Carbon.Outcome.state]
  rw [Carbon.Window_SetWindowState_from_fullscreen sys _ WINDOW_STATE_NORMAL rfl (by decide)]
/-! ## Creating the window on Carbon -/

/-- A value that fits a `short` is stored unchanged. -/
theorem Carbon.toShort_of_fits (v : Int) (h1 : -32768 ≤ v) (h2 : v ≤ 32767) :
    Carbon.toShort v = v := by
  unfold Carbon.toShort
  omega

/-- C26 (the code at the failing input).  On Carbon, `Window_Create(x, y, width, height,
mode)` stores `x`, `x + width`, `y` and `y + height` in a `Rect` of `short` fields and,
when `CreateNewWindow` succeeds, calls `Window_SetLocation(r.left, r.right)`: the second
argument is the right edge of the rectangle, not `r.top`, so the window is moved with
`MoveWindow(win_handle, x, x + width)` whenever the edges fit a `short`.  The size passed
to `Window_SetSize` is the width and height of the stored rectangle, which is
`(width, height)` as claimed when the edges fit.  For `x = 100`, `y = 50` and a size of
640 by 480 the window is moved to (100, 740).  For `x = 40000` the stored edges wrap and
the window is moved to (-25536, -24896). -/
theorem Window_Create_passes_the_right_edge_as_y :
    (∀ (sys : Carbon.System) (x y width height : Int) (mode : GraphicsMode)
        (s : Carbon.State),
      (-2147483648 ≤ x + width ∧ x + width ≤ 2147483647) →
      (-2147483648 ≤ y + height ∧ y + height ≤ 2147483647) →
      sys.status (s.trace ++ [api (NativeCall.carbon
        (CarbonCall.CreateNewWindow (Carbon.toShort x) (Carbon.toShort y)
          (Carbon.toShort (x + width)) (Carbon.toShort (y + height))))]) = 0 →
      (Carbon.Window_SetSize (Carbon.toShort (x + width) - Carbon.toShort x)
        (Carbon.toShort (y + height) - Carbon.toShort y)
        (Carbon.Window_SetLocation (Carbon.toShort x) (Carbon.toShort (x + width))
          { Carbon.call (api (NativeCall.carbon
              (CarbonCall.CreateNewWindow (Carbon.toShort x) (Carbon.toShort y)
                (Carbon.toShort (x + width)) (Carbon.toShort (y + height))))) s with
            win_handle := sys.createNewWindow (s.trace ++ [api (NativeCall.carbon
              (CarbonCall.CreateNewWindow (Carbon.toShort x) (Carbon.toShort y)
                (Carbon.toShort (x + width)) (Carbon.toShort (y + height))))]) })).trace <+:
        (Carbon.Window_Create sys x y width height mode s).state.trace ∧
      (Carbon.Window_SetLocation (Carbon.toShort x) (Carbon.toShort (x + width)) s).trace =
        s.trace ++ [api (NativeCall.carbon
          (CarbonCall.MoveWindow s.win_handle (Carbon.toShort x)
            (Carbon.toShort (x + width))))] ∧
      ((-32768 ≤ x ∧ x + width ≤ 32767 ∧ 0 ≤ width) →
        Carbon.toShort x = x ∧ Carbon.toShort (x + width) = x + width ∧
        Carbon.toShort (x + width) - Carbon.toShort x = width) ∧
      ((-32768 ≤ y ∧ y + height ≤ 32767 ∧ 0 ≤ height) →
        Carbon.toShort (y + height) - Carbon.toShort y = height)) ∧
    Carbon.Window_Create Carbon.System.sample 100 50 640 480 GraphicsMode.sample
        Carbon.State.initial =
      Carbon.Outcome.returned ()
        { Carbon.State.initial with
          Window_Exists := true
          win_handle := 5
          title_height := 22
          Window_Bounds := { X := 0, Y := 0, Width := 640, Height := 502 }
          Window_ClientSize := { Width := 640, Height := 480 }
          trace :=
            [api (NativeCall.carbon (CarbonCall.CreateNewWindow 100 50 740 530)),
              api (NativeCall.carbon (CarbonCall.MoveWindow 5 100 740)),
              api (NativeCall.SizeWindow 5 640 480),
              api (NativeCall.carbon CarbonCall.AcquireRootMenu),
              api (NativeCall.carbon CarbonCall.GetCurrentProcess),
              api (NativeCall.carbon CarbonCall.TransformProcessType),
              api (NativeCall.carbon CarbonCall.SetFrontProcess),
              api (NativeCall.carbon CarbonCall.InstallEventHandler)] } ∧
    (Carbon.Window_Create Carbon.System.sample 40000 50 640 480 GraphicsMode.sample
        Carbon.State.initial).state.trace.take 3 =
      [api (NativeCall.carbon (CarbonCall.CreateNewWindow (-25536) 50 (-24896) 530)),
        api (NativeCall.carbon (CarbonCall.MoveWindow 5 (-25536) (-24896))),
        api (NativeCall.SizeWindow 5 640 480)] := by
  refine ⟨?_, by decide!, by decide!⟩
  intro sys x y width height mode s _ _ hstatus
  refine ⟨?_, by simp [Carbon.Window_SetLocation, Carbon.call], ?_, ?_⟩
  · simp only [Carbon.Window_Create, hstatus, Carbon.call, ne_eq, not_true_eq_false,
      if_false]
    apply Carbon.Outcome.andThen_state (fun t => _ <+: t.trace)
    · simp only [Carbon.Window_UpdateSize]
      split_ifs <;> simp [Carbon.Outcome.state, Carbon.call, Carbon.Window_SetSize,
        Carbon.Window_SetLocation]
    · intro _ t ht
      split_ifs
      · apply Carbon.Outcome.andThen_state (fun t => _ <+: t.trace)
        · simp only [Carbon.Window_ConnectEvents, Carbon.checked]
          split_ifs <;>
            exact ht.trans (by simp [Carbon.Outcome.state, Carbon.call])
        · intro _ u hu; exact hu
      · exact ht.trans (by simp [Carbon.Outcome.state, Carbon.call])
  · intro h
    rw [Carbon.toShort_of_fits x (by omega) (by omega),
      Carbon.toShort_of_fits (x + width) (by omega) (by omega)]
    exact ⟨rfl, rfl, by omega⟩
  · intro h
    rw [Carbon.toShort_of_fits y (by omega) (by omega),
      Carbon.toShort_of_fits (y + height) (by omega) (by omega)]
    omega
/-! ## The window state read from the X11 property -/

/-- Reading a list by index from `0` to its length gives the list back. -/
theorem X11.map_getD_range (data : List Int) :
    (List.range data.length).map (fun i => data.getD i 0) = data := by
  apply List.ext_getElem
  · simp
  · intro i h1 h2
    simp at h1
    simp [List.getD_eq_getElem, h1]

/-- The locals of `Window_GetWindowState` after its loop has read the whole list, for atoms
that are pairwise different: the minimised and fullscreen flags say whether the atom is in
the list, and the counter is the number of entries that are one of the two maximised
atoms. -/
theorem X11.Window_GetWindowState_loop_all (A : X11.Atoms) (data : List Int)
    (hmh : A.net_wm_state_minimized ≠ A.net_wm_state_maximized_horizontal)
    (hmv : A.net_wm_state_minimized ≠ A.net_wm_state_maximized_vertical)
    (hfh : A.net_wm_state_fullscreen ≠ A.net_wm_state_maximized_horizontal)
    (hfv : A.net_wm_state_fullscreen ≠ A.net_wm_state_maximized_vertical)
    (hfm : A.net_wm_state_fullscreen ≠ A.net_wm_state_minimized) :
    X11.Window_GetWindowState_loop A data data.length =
      (decide ((A.net_wm_state_fullscreen : Int) ∈ data),
        decide ((A.net_wm_state_minimized : Int) ∈ data),
        data.countP (fun (atom : Int) => decide (atom = A.net_wm_state_maximized_horizontal ∨
          atom = A.net_wm_state_maximized_vertical))) := by
  have key : ∀ (l : List Int) (f m : Bool) (k : Nat),
      l.foldl (fun (locals : Bool × Bool × Nat) (atom : Int) =>
        if atom = A.net_wm_state_maximized_horizontal ∨
            atom = A.net_wm_state_maximized_vertical then
          (locals.1, locals.2.1, locals.2.2 + 1)
        else if atom = A.net_wm_state_minimized then (locals.1, true, locals.2.2)
        else if atom = A.net_wm_state_fullscreen then (true, locals.2.1, locals.2.2)
        else locals) (f, m, k) =
      (f || decide ((A.net_wm_state_fullscreen : Int) ∈ l),
        m || decide ((A.net_wm_state_minimized : Int) ∈ l),
        k + l.countP (fun (atom : Int) => decide (atom = A.net_wm_state_maximized_horizontal ∨
          atom = A.net_wm_state_maximized_vertical))) := by
    intro l
    induction l with
    | nil => intro f m k; simp
    | cons a l ih =>
      intro f m k
      simp only [List.foldl_cons]
      by_cases hmax : a = A.net_wm_state_maximized_horizontal ∨
          a = A.net_wm_state_maximized_vertical
      · rw [if_pos hmax, ih]
        rcases hmax with h | h <;> subst h <;>
          simp [List.countP_cons, hmh, hmv, hfh, hfv, hfm] <;> omega
      · rw [if_neg hmax]
        by_cases hmin : a = A.net_wm_state_minimized
        · rw [if_pos hmin, ih]
          subst hmin
          simp [List.countP_cons, hmh, hmv, hfh, hfv, hfm]
        · rw [if_neg hmin]
          by_cases hfs : a = A.net_wm_state_fullscreen
          · rw [if_pos hfs, ih]
            subst hfs
            simp [List.countP_cons, hmh, hmv, hfh, hfv, hfm, Ne.symm hfm]
          · rw [if_neg hfs, ih]
            have h1 : (A.net_wm_state_fullscreen : Int) ≠ a := fun h => hfs h.symm
            have h2 : (A.net_wm_state_minimized : Int) ≠ a := fun h => hmin h.symm
            simp [List.countP_cons, hmax, h1, h2]
  have h := key data false false 0
  simp only [Bool.false_or, Nat.zero_add] at h
  rw [← h]
  unfold X11.Window_GetWindowState_loop
  conv_rhs => rw [← X11.map_getD_range data]
  rw [List.foldl_map]

/-- C27 (the code at the failing input).  On X11, `Window_GetWindowState` counts the
entries of the `_NET_WM_STATE` list that are one of the two maximised atoms and reports
Maximised when the count is exactly 2; it does not look at which of the two atoms it saw.
For pairwise different atoms and a reply whose item count is the length of the list, the
result is Minimised if the minimised atom is in the list, otherwise Maximised if and only if
exactly two entries are maximised atoms, otherwise Fullscreen if the fullscreen atom is in
the list, otherwise Normal.  So the list with the horizontal atom twice, which has no
vertical atom, is Maximised; the list horizontal, vertical, horizontal, which has both, is
Normal; and with the fullscreen atom added it is Fullscreen.  Without repeated atoms the
answers are the claimed ones: horizontal and vertical give Maximised, and an absent or
empty property gives Normal. -/
theorem Window_GetWindowState_counts_the_maximised_atoms :
    (∀ (A : X11.Atoms) (data : List Int) (prop_type : Nat),
      A.net_wm_state_minimized ≠ A.net_wm_state_maximized_horizontal →
      A.net_wm_state_minimized ≠ A.net_wm_state_maximized_vertical →
      A.net_wm_state_fullscreen ≠ A.net_wm_state_maximized_horizontal →
      A.net_wm_state_fullscreen ≠ A.net_wm_state_maximized_vertical →
      A.net_wm_state_fullscreen ≠ A.net_wm_state_minimized →
      X11.Window_GetWindowState A
          { data := some data, items := data.length, prop_type := prop_type } =
        if (A.net_wm_state_minimized : Int) ∈ data then WINDOW_STATE_MINIMISED
        else if data.countP (fun (atom : Int) =>
            decide (atom = A.net_wm_state_maximized_horizontal ∨
              atom = A.net_wm_state_maximized_vertical)) = 2 then WINDOW_STATE_MAXIMISED
        else if (A.net_wm_state_fullscreen : Int) ∈ data then WINDOW_STATE_FULLSCREEN
        else WINDOW_STATE_NORMAL) ∧
    X11.Window_GetWindowState X11.Atoms.sample
        { data := some [304, 304], items := 2, prop_type := 4 } = WINDOW_STATE_MAXIMISED ∧
    X11.Window_GetWindowState X11.Atoms.sample
        { data := some [304, 305, 304], items := 3, prop_type := 4 } = WINDOW_STATE_NORMAL ∧
    X11.Window_GetWindowState X11.Atoms.sample
        { data := some [304, 305, 304, 303], items := 4, prop_type := 4 } =
      WINDOW_STATE_FULLSCREEN ∧
    X11.Window_GetWindowState X11.Atoms.sample
        { data := some [304, 305], items := 2, prop_type := 4 } = WINDOW_STATE_MAXIMISED ∧
    X11.Window_GetWindowState X11.Atoms.sample
        { data := some [], items := 0, prop_type := 4 } = WINDOW_STATE_NORMAL ∧
    X11.Window_GetWindowState X11.Atoms.sample
        { data := none, items := 0, prop_type := 0 } = WINDOW_STATE_NORMAL := by
  refine ⟨?_, by decide!, by decide!, by decide!, by decide!, by decide!, by decide!⟩
  intro A data prop_type hmh hmv hfh hfv hfm
  cases data with
  | nil => simp [X11.Window_GetWindowState]
  | cons a l =>
    have h := X11.Window_GetWindowState_loop_all A (a :: l) hmh hmv hfh hfv hfm
    simp only [X11.Window_GetWindowState, List.length_cons, ne_eq, Nat.add_one_ne_zero,
      not_false_eq_true, if_true] at h ⊢
    rw [h]
    simp only [decide_eq_true_eq]
/-! ## Win32: the border restore and the resize-suppression counter -/

/-- A balanced step followed by a balanced step is balanced. -/
theorem Win32.Balanced.followedBy {least : Int} {s₁ s₂ s₃ : Win32.State}
    (h₁ : Win32.Balanced least s₁ s₂) (h₂ : Win32.Balanced least s₂ s₃) :
    Win32.Balanced least s₁ s₃ :=
  ⟨h₂.1.trans h₁.1, fun h => (h₂.2 (h₁.1 ▸ h)).trans (h₁.2 h)⟩

/-- A step that changes nothing is balanced. -/
theorem Win32.Balanced.unchanged (least : Int) (s : Win32.State) : Win32.Balanced least s s :=
  ⟨rfl, fun _ => rfl⟩

/-- The keyboard case of the window procedure keeps the counter and raises no `Resized`
and makes no `SetWindowLong` call. -/
theorem Win32.Window_Procedure_key_quiet (C : Collab) (message : Win32.KeyMessage)
    (wParam lParam : Nat) (l r : Bool) (s : Win32.State) :
    (Win32.Window_Procedure_key C message wParam lParam l r s).suppress_resize =
      s.suppress_resize ∧
    (Win32.Window_Procedure_key C message wParam lParam l r s).trace.countP Win32.isResized =
      s.trace.countP Win32.isResized ∧
    (Win32.Window_Procedure_key C message wParam lParam l r s).trace.countP
      Win32.isSetWindowLong = s.trace.countP Win32.isSetWindowLong := by
  simp only [Win32.Window_Procedure_key]
  split_ifs <;> simp [Win32.call, List.countP_append, Win32.isResized, Win32.isSetWindowLong]

/-- The window procedure keeps the counter, makes no `SetWindowLong` call, and raises no
`Resized` while the counter is 1 or more. -/
theorem Win32.Window_Procedure_quiet (C : Collab) (m : Win32.Msg) (s : Win32.State) :
    Win32.Balanced 1 s (Win32.Window_Procedure C m s) ∧
    (Win32.Window_Procedure C m s).trace.countP Win32.isSetWindowLong =
      s.trace.countP Win32.isSetWindowLong := by
  cases m with
  | key message wParam lParam l r =>
    have h := Win32.Window_Procedure_key_quiet C message wParam lParam l r s
    exact ⟨⟨h.1, fun _ => h.2.1⟩, h.2.2⟩
  | WM_CLOSE =>
    simp only [Win32.Window_Procedure, Win32.Window_Destroy, Win32.Balanced]
    split_ifs <;>
      simp [Win32.call, List.countP_append, Win32.isResized, Win32.isSetWindowLong]
  | WM_CHAR wParam =>
    simp only [Win32.Window_Procedure, Win32.Balanced]
    split <;> simp [Win32.call, List.countP_append, Win32.isResized, Win32.isSetWindowLong]
  | WM_WINDOWPOSCHANGED hwnd x y cx cy client =>
    simp only [Win32.Window_Procedure, Win32.Window_UpdateClientSize, Win32.Balanced,
      Win32.call]
    split_ifs <;>
      simp_all [List.countP_append, Win32.isResized, Win32.isSetWindowLong] <;> omega
  | _ =>
    simp only [Win32.Window_Procedure, Win32.Window_UpdateClientSize, Win32.Balanced]
    (try split_ifs) <;>
      simp [Win32.call, List.countP_append, Win32.isResized, Win32.isSetWindowLong]

/-- Dispatching a delivery keeps the counter, makes no `SetWindowLong` call, and raises no
`Resized` while the counter is 1 or more. -/
theorem Win32.dispatch_quiet (C : Collab) (msgs : List Win32.Msg) (s : Win32.State) :
    Win32.Balanced 1 s (Win32.dispatch C msgs s) ∧
    (Win32.dispatch C msgs s).trace.countP Win32.isSetWindowLong =
      s.trace.countP Win32.isSetWindowLong := by
  induction msgs generalizing s with
  | nil => exact ⟨Win32.Balanced.unchanged 1 s, rfl⟩
  | cons m rest ih =>
    have h1 := Win32.Window_Procedure_quiet C m s
    have h2 := ih (Win32.Window_Procedure C m s)
    exact ⟨h1.1.followedBy h2.1, h2.2.trans h1.2⟩

/-- A native call that is not itself a notification keeps the counter and raises no
`Resized` while the counter is 1 or more; the only `SetWindowLong` call it adds is
itself. -/
theorem Win32.native_quiet (os : Win32.OS) (C : Collab) (c : Call) (s : Win32.State)
    (hc : Win32.isResized c = false) :
    Win32.Balanced 1 s (Win32.native os C c s) ∧
    (Win32.native os C c s).trace.countP Win32.isSetWindowLong =
      s.trace.countP Win32.isSetWindowLong + (if Win32.isSetWindowLong c then 1 else 0) := by
  have h := Win32.dispatch_quiet C (os.deliver (Win32.call c s).trace) (Win32.call c s)
  have h0 : Win32.Balanced 1 s (Win32.call c s) :=
    ⟨rfl, fun _ => by simp [Win32.call, List.countP_append, hc]⟩
  refine ⟨h0.followedBy h.1, h.2.trans ?_⟩
  simp only [Win32.call, List.countP_append, List.countP_singleton]

/-- The end of `Window_SetWindowState` when the window is not leaving fullscreen: the
`ShowWindow` call, and after the restore command the saved bounds. -/
theorem Win32.Window_SetWindowState_tail_staying (os : Win32.OS) (C : Collab)
    (restoreBorder : Win32.State → Option Win32.State) (command : Nat) (s : Win32.State)
    (hc : command ≠ 0) :
    Win32.Window_SetWindowState_tail os C restoreBorder command false s =
      some (if command = Win32.SW_RESTORE then
        Win32.restoreSavedBounds os C (Win32.native os C (ShowWindow s.win_handle command) s)
        else Win32.native os C (ShowWindow s.win_handle command) s) := by
  simp only [Win32.Window_SetWindowState_tail, hc, ne_eq, not_false_eq_true, if_true,
    Bool.false_eq_true, if_false, Option.map_some', Win32.restoreSavedBounds]
  by_cases h : command = Win32.SW_RESTORE
  · simp [h]
  · simp [h]

/-- The end of `Window_SetWindowState` when the window is leaving fullscreen: the
`ShowWindow` call with the restore command, then the border restore, then the saved
bounds. -/
theorem Win32.Window_SetWindowState_tail_exiting (os : Win32.OS) (C : Collab)
    (restoreBorder : Win32.State → Option Win32.State) (s : Win32.State) :
    Win32.Window_SetWindowState_tail os C restoreBorder Win32.SW_RESTORE true s =
      (restoreBorder (Win32.native os C (ShowWindow s.win_handle Win32.SW_RESTORE) s)).map
        (Win32.restoreSavedBounds os C) := by
  have hc : Win32.SW_RESTORE ≠ 0 := by decide
  simp only [Win32.Window_SetWindowState_tail, hc, ne_eq, not_false_eq_true, if_true,
    true_and]
  rfl

/-- Restoring the saved bounds makes no `SetWindowLong` call. -/
theorem Win32.restoreSavedBounds_style (os : Win32.OS) (C : Collab) (s : Win32.State) :
    (Win32.restoreSavedBounds os C s).trace.countP Win32.isSetWindowLong =
      s.trace.countP Win32.isSetWindowLong := by
  simp only [Win32.restoreSavedBounds]
  split_ifs
  · have h := (Win32.native_quiet os C (SetWindowPos s.win_handle s.prev_bounds.X
      s.prev_bounds.Y s.prev_bounds.Width s.prev_bounds.Height 0) s rfl).2
    simpa [Win32.isSetWindowLong, Win32.Window_SetBounds] using h
  · rfl

/-- C28.  On Win32, `Window_SetWindowState` calls `Window_SetHiddenBorder(false)` exactly
when the requested state is Normal and `win_state` at the call is Fullscreen, and it does
so after `ShowWindow` with `SW_RESTORE` and before the saved bounds are restored.  A
request for Normal from Minimised or Maximised only shows the window and restores the
saved bounds; a request for Minimised only shows the window; neither makes a
`SetWindowLong` call.  A request for Maximised is the reset followed by `ShowWindow`, and
the reset is the request for Normal followed by the message pump, so from Fullscreen it
reaches the border restore through the reset.  On the plain Windows, leaving the
fullscreen sample window for Normal or for Maximised changes the style after the restore
command and ends with the border shown, while minimising it and then asking for Normal
makes the two `ShowWindow` calls only and ends Normal with `win_hiddenBorder` still
true. -/
theorem Window_SetWindowState_restores_border_leaving_fullscreen (os : Win32.OS)
    (C : Collab) (fuel : Nat) (s : Win32.State) :
    (s.win_state = WINDOW_STATE_FULLSCREEN →
      Win32.Window_SetWindowState os C (fuel + 1) WINDOW_STATE_NORMAL s =
        (Win32.Window_SetHiddenBorder os C fuel false
          (Win32.native os C (ShowWindow s.win_handle Win32.SW_RESTORE) s)).map
          (Win32.restoreSavedBounds os C)) ∧
    (s.win_state ≠ WINDOW_STATE_NORMAL → s.win_state ≠ WINDOW_STATE_FULLSCREEN →
      Win32.Window_SetWindowState os C (fuel + 1) WINDOW_STATE_NORMAL s =
        some (Win32.restoreSavedBounds os C
          (Win32.native os C (ShowWindow s.win_handle Win32.SW_RESTORE) s)) ∧
      (Win32.restoreSavedBounds os C
        (Win32.native os C (ShowWindow s.win_handle Win32.SW_RESTORE) s)).trace.countP
          Win32.isSetWindowLong = s.trace.countP Win32.isSetWindowLong) ∧
    (s.win_state ≠ WINDOW_STATE_MINIMISED →
      Win32.Window_SetWindowState os C (fuel + 1) WINDOW_STATE_MINIMISED s =
        some (Win32.native os C (ShowWindow s.win_handle Win32.SW_MINIMIZE) s) ∧
      (Win32.native os C (ShowWindow s.win_handle Win32.SW_MINIMIZE) s).trace.countP
          Win32.isSetWindowLong = s.trace.countP Win32.isSetWindowLong) ∧
    (s.win_state ≠ WINDOW_STATE_MAXIMISED →
      Win32.Window_SetWindowState os C (fuel + 1) WINDOW_STATE_MAXIMISED s =
        (Win32.Window_ResetWindowState os C fuel s).map fun t =>
          Win32.native os C (ShowWindow t.win_handle Win32.SW_MAXIMIZE) t) ∧
    (s.win_state ≠ WINDOW_STATE_FULLSCREEN →
      Win32.Window_SetWindowState os C (fuel + 1) WINDOW_STATE_FULLSCREEN s =
        (Win32.Window_ResetWindowState os C fuel s).bind fun t =>
          (Win32.Window_SetHiddenBorder os C fuel true
            { t with prev_bounds := t.Window_Bounds }).map fun u =>
            Win32.native os C
              (ShowWindow (Win32.native os C (SetForegroundWindow u.win_handle) u).win_handle
                Win32.SW_MAXIMIZE)
              (Win32.native os C (SetForegroundWindow u.win_handle) u)) ∧
    Win32.Window_ResetWindowState os C (fuel + 1) s =
      (Win32.Window_SetWindowState os C fuel WINDOW_STATE_NORMAL
        { s with suppress_resize := s.suppress_resize + 1 }).map (fun t =>
          { Win32.Window_ProcessEvents os C t with
            suppress_resize := (Win32.Window_ProcessEvents os C t).suppress_resize - 1 }) ∧
    (Win32.Window_SetWindowState Win32.OS.plain Collab.ascii 6 WINDOW_STATE_NORMAL
        Win32.State.fullscreen).map
        (fun t => (t.win_state, t.win_hiddenBorder, t.trace.filter Win32.isShowOrStyle)) =
      some (WINDOW_STATE_NORMAL, false,
        [ShowWindow 1 Win32.SW_RESTORE, ShowWindow 1 Win32.SW_HIDE,
          SetWindowLong 1 Win32.GWL_STYLE
            (Win32.WS_CLIPCHILDREN ||| Win32.WS_CLIPSIBLINGS ||| Win32.WS_OVERLAPPEDWINDOW),
          ShowWindow 1 Win32.SW_SHOW]) ∧
    (Win32.Window_SetWindowState Win32.OS.plain Collab.ascii 8 WINDOW_STATE_MAXIMISED
        Win32.State.fullscreen).map
        (fun t => (t.win_state, t.win_hiddenBorder, t.trace.filter Win32.isShowOrStyle)) =
      some (WINDOW_STATE_MAXIMISED, false,
        [ShowWindow 1 Win32.SW_RESTORE, ShowWindow 1 Win32.SW_HIDE,
          SetWindowLong 1 Win32.GWL_STYLE
            (Win32.WS_CLIPCHILDREN ||| Win32.WS_CLIPSIBLINGS ||| Win32.WS_OVERLAPPEDWINDOW),
          ShowWindow 1 Win32.SW_SHOW, ShowWindow 1 Win32.SW_MAXIMIZE]) ∧
    ((Win32.Window_SetWindowState Win32.OS.plain Collab.ascii 1 WINDOW_STATE_MINIMISED
        Win32.State.fullscreen).bind
        (Win32.Window_SetWindowState Win32.OS.plain Collab.ascii 1 WINDOW_STATE_NORMAL)).map
        (fun t => (t.win_state, t.win_hiddenBorder, t.trace.filter Win32.isShowOrStyle)) =
      some (WINDOW_STATE_NORMAL, true,
        [ShowWindow 1 Win32.SW_MINIMIZE, ShowWindow 1 Win32.SW_RESTORE]) := by
  have hr : Win32.SW_RESTORE ≠ 0 := by decide
  have hm : Win32.SW_MINIMIZE ≠ 0 := by decide
  have hx : Win32.SW_MAXIMIZE ≠ 0 := by decide
  have hmr : Win32.SW_MINIMIZE ≠ Win32.SW_RESTORE := by decide
  have hxr : Win32.SW_MAXIMIZE ≠ Win32.SW_RESTORE := by decide
  refine ⟨?_, ?_, ?_, ?_, ?_, ?_, by decide!, by decide!, by decide!⟩
  · intro hs
    have hne : ¬ s.win_state = WINDOW_STATE_NORMAL := by rw [hs]; decide
    simp only [Win32.Window_SetWindowState, hne, if_false, hs, decide_True]
    exact Win32.Window_SetWindowState_tail_exiting os C _ s
  · intro hn hf
    refine ⟨?_, ?_⟩
    · simp only [Win32.Window_SetWindowState, hn, if_false, hf, decide_False]
      rw [Win32.Window_SetWindowState_tail_staying os C _ _ s hr, if_pos rfl]
    · rw [Win32.restoreSavedBounds_style]
      have h := (Win32.native_quiet os C (ShowWindow s.win_handle Win32.SW_RESTORE) s rfl).2
      simpa [Win32.isSetWindowLong] using h
  · intro hn
    refine ⟨?_, ?_⟩
    · simp only [Win32.Window_SetWindowState, hn, if_false]
      rw [Win32.Window_SetWindowState_tail_staying os C _ _ s hm, if_neg hmr]
    · have h := (Win32.native_quiet os C (ShowWindow s.win_handle Win32.SW_MINIMIZE) s rfl).2
      simpa [Win32.isSetWindowLong] using h
  · intro hn
    simp only [Win32.Window_SetWindowState, hn, if_false]
    cases Win32.Window_ResetWindowState os C fuel s with
    | none => rfl
    | some t =>
      simp only [Option.some_bind, Option.map_some']
      rw [Win32.Window_SetWindowState_tail_staying os C _ _ t hx, if_neg hxr]
  · intro hn
    simp only [Win32.Window_SetWindowState, hn, if_false]
    cases Win32.Window_ResetWindowState os C fuel s with
    | none => rfl
    | some t =>
      simp only [Option.some_bind]
      cases Win32.Window_SetHiddenBorder os C fuel true
          { t with prev_bounds := t.Window_Bounds } with
      | none => rfl
      | some u =>
        simp only [Option.some_bind, Option.map_some']
        rw [Win32.Window_SetWindowState_tail_staying os C _ _ _ hx, if_neg hxr]
  · simp only [Win32.Window_ResetWindowState]
/-! ## Win32: when the state functions return -/

/-- The X11 attribute list, read attribute by attribute. -/
theorem X11.attribEntries_GLX (mode : GraphicsMode) :
    attribEntries [X11.GLX_RGBA, X11.GLX_DOUBLEBUFFER] (X11.GLContext_GetAttribs mode) =
      (if mode.IsIndexed then [] else [(X11.GLX_RGBA, none)]) ++
      [(X11.GLX_RED_SIZE, some mode.R), (X11.GLX_GREEN_SIZE, some mode.G),
        (X11.GLX_BLUE_SIZE, some mode.B), (X11.GLX_ALPHA_SIZE, some mode.A)] ++
      (if mode.DepthBits ≠ 0 then [(X11.GLX_DEPTH_SIZE, some mode.DepthBits)] else []) ++
      (if mode.StencilBits ≠ 0 then [(X11.GLX_STENCIL_SIZE, some mode.StencilBits)]
        else []) ++
      (if mode.Buffers > 1 then [(X11.GLX_DOUBLEBUFFER, none)] else []) := by
  obtain ⟨R, G, B, A, DepthBits, StencilBits, Buffers, IsIndexed⟩ := mode
  simp only [X11.GLContext_GetAttribs]
  cases IsIndexed <;> by_cases hd : DepthBits = 0 <;> by_cases hs : StencilBits = 0 <;>
    by_cases hb : Buffers > 1 <;>
    simp [attribEntries, hd, hs, hb, X11.GLX_RGBA, X11.GLX_DOUBLEBUFFER, X11.GLX_RED_SIZE,
      X11.GLX_GREEN_SIZE, X11.GLX_BLUE_SIZE, X11.GLX_ALPHA_SIZE, X11.GLX_DEPTH_SIZE,
      X11.GLX_STENCIL_SIZE]

/-- The Carbon attribute list, read attribute by attribute. -/
theorem Carbon.attribEntries_AGL (mode : GraphicsMode) (fullscreen : Bool) :
    attribEntries [Carbon.AGL_RGBA, Carbon.AGL_DOUBLEBUFFER, Carbon.AGL_FULLSCREEN]
        (Carbon.GLContext_GetAttribs mode fullscreen) =
      (if mode.IsIndexed then [] else [(Carbon.AGL_RGBA, none)]) ++
      [(Carbon.AGL_RED_SIZE, some mode.R), (Carbon.AGL_GREEN_SIZE, some mode.G),
        (Carbon.AGL_BLUE_SIZE, some mode.B), (Carbon.AGL_ALPHA_SIZE, some mode.A)] ++
      (if mode.DepthBits ≠ 0 then [(Carbon.AGL_DEPTH_SIZE, some mode.DepthBits)] else []) ++
      (if mode.StencilBits ≠ 0 then [(Carbon.AGL_STENCIL_SIZE, some mode.StencilBits)]
        else []) ++
      (if mode.Buffers > 1 then [(Carbon.AGL_DOUBLEBUFFER, none)] else []) ++
      (if fullscreen then [(Carbon.AGL_FULLSCREEN, none)] else []) := by
  obtain ⟨R, G, B, A, DepthBits, StencilBits, Buffers, IsIndexed⟩ := mode
  simp only [Carbon.GLContext_GetAttribs]
  cases IsIndexed <;> cases fullscreen <;> by_cases hd : DepthBits = 0 <;>
    by_cases hs : StencilBits = 0 <;> by_cases hb : Buffers > 1 <;>
    simp [attribEntries, hd, hs, hb, Carbon.AGL_RGBA, Carbon.AGL_DOUBLEBUFFER,
      Carbon.AGL_RED_SIZE, Carbon.AGL_GREEN_SIZE, Carbon.AGL_BLUE_SIZE,
      Carbon.AGL_ALPHA_SIZE, Carbon.AGL_DEPTH_SIZE, Carbon.AGL_STENCIL_SIZE,
      Carbon.AGL_FULLSCREEN]

/-- C30.  For every `GraphicsMode`, the list `GLContext_GetAttribs` writes ends with the
terminator 0 and has at most 15 entries on X11 and at most 16 on Carbon (15 without the
fullscreen flag), so it fits the 20 ints its callers pass.  Read attribute by attribute (a
flag stands alone, any other attribute is followed by its value), the list has the RGBA
flag if and only if the mode is not indexed, the depth attribute if and only if `DepthBits`
is not zero and then with the value `DepthBits`, the stencil attribute if and only if
`StencilBits` is not zero and then with the value `StencilBits`, the double-buffer flag if
and only if `Buffers > 1`, and on Carbon the fullscreen flag if and only if it was asked
for. -/
theorem GLContext_GetAttribs_terminated_and_in_bounds (mode : GraphicsMode)
    (fullscreen : Bool) :
    ((X11.GLContext_GetAttribs mode).getLast? = some 0 ∧
      (X11.GLContext_GetAttribs mode).length ≤ 15 ∧
      ((X11.GLX_RGBA, none) ∈ attribEntries [X11.GLX_RGBA, X11.GLX_DOUBLEBUFFER]
          (X11.GLContext_GetAttribs mode) ↔ mode.IsIndexed = false) ∧
      (∀ v, (X11.GLX_DEPTH_SIZE, v) ∈ attribEntries [X11.GLX_RGBA, X11.GLX_DOUBLEBUFFER]
          (X11.GLContext_GetAttribs mode) ↔ mode.DepthBits ≠ 0 ∧ v = some mode.DepthBits) ∧
      (∀ v, (X11.GLX_STENCIL_SIZE, v) ∈ attribEntries [X11.GLX_RGBA, X11.GLX_DOUBLEBUFFER]
          (X11.GLContext_GetAttribs mode) ↔
        mode.StencilBits ≠ 0 ∧ v = some mode.StencilBits) ∧
      ((X11.GLX_DOUBLEBUFFER, none) ∈ attribEntries [X11.GLX_RGBA, X11.GLX_DOUBLEBUFFER]
          (X11.GLContext_GetAttribs mode) ↔ mode.Buffers > 1)) ∧
    ((Carbon.GLContext_GetAttribs mode fullscreen).getLast? = some 0 ∧
      (Carbon.GLContext_GetAttribs mode fullscreen).length ≤ 16 ∧
      (Carbon.GLContext_GetAttribs mode false).length ≤ 15 ∧
      ((Carbon.AGL_RGBA, none) ∈
          attribEntries [Carbon.AGL_RGBA, Carbon.AGL_DOUBLEBUFFER, Carbon.AGL_FULLSCREEN]
            (Carbon.GLContext_GetAttribs mode fullscreen) ↔ mode.IsIndexed = false) ∧
      (∀ v, (Carbon.AGL_DEPTH_SIZE, v) ∈
          attribEntries [Carbon.AGL_RGBA, Carbon.AGL_DOUBLEBUFFER, Carbon.AGL_FULLSCREEN]
            (Carbon.GLContext_GetAttribs mode fullscreen) ↔
        mode.DepthBits ≠ 0 ∧ v = some mode.DepthBits) ∧
      (∀ v, (Carbon.AGL_STENCIL_SIZE, v) ∈
          attribEntries [Carbon.AGL_RGBA, Carbon.AGL_DOUBLEBUFFER, Carbon.AGL_FULLSCREEN]
            (Carbon.GLContext_GetAttribs mode fullscreen) ↔
        mode.StencilBits ≠ 0 ∧ v = some mode.StencilBits) ∧
      ((Carbon.AGL_DOUBLEBUFFER, none) ∈
          attribEntries [Carbon.AGL_RGBA, Carbon.AGL_DOUBLEBUFFER, Carbon.AGL_FULLSCREEN]
            (Carbon.GLContext_GetAttribs mode fullscreen) ↔ mode.Buffers > 1) ∧
      ((Carbon.AGL_FULLSCREEN, none) ∈
          attribEntries [Carbon.AGL_RGBA, Carbon.AGL_DOUBLEBUFFER, Carbon.AGL_FULLSCREEN]
            (Carbon.GLContext_GetAttribs mode fullscreen) ↔ fullscreen = true)) := by
  rw [X11.attribEntries_GLX, Carbon.attribEntries_AGL]
  refine ⟨⟨?_, ?_, ?_, ?_, ?_, ?_⟩, ?_, ?_, ?_, ?_, ?_, ?_, ?_, ?_⟩
  · simp only [X11.GLContext_GetAttribs]
    exact List.getLast?_concat _
  · simp only [X11.GLContext_GetAttribs, List.length_append]
    split_ifs <;> simp
  · cases mode.IsIndexed <;> simp [X11.GLX_RGBA, X11.GLX_DOUBLEBUFFER, X11.GLX_RED_SIZE,
      X11.GLX_GREEN_SIZE, X11.GLX_BLUE_SIZE, X11.GLX_ALPHA_SIZE, X11.GLX_DEPTH_SIZE,
      X11.GLX_STENCIL_SIZE]
  · intro v
    by_cases hd : mode.DepthBits = 0 <;> simp [hd, X11.GLX_RGBA,
      X11.GLX_DOUBLEBUFFER, X11.GLX_RED_SIZE,
      X11.GLX_GREEN_SIZE, X11.GLX_BLUE_SIZE, X11.GLX_ALPHA_SIZE, X11.GLX_DEPTH_SIZE,
      X11.GLX_STENCIL_SIZE]
  · intro v
    by_cases hd : mode.StencilBits = 0 <;> simp [hd, X11.GLX_RGBA,
      X11.GLX_DOUBLEBUFFER, X11.GLX_RED_SIZE,
      X11.GLX_GREEN_SIZE, X11.GLX_BLUE_SIZE, X11.GLX_ALPHA_SIZE, X11.GLX_DEPTH_SIZE,
      X11.GLX_STENCIL_SIZE]
  · by_cases hb : mode.Buffers > 1 <;> simp [hb, X11.GLX_RGBA,
      X11.GLX_DOUBLEBUFFER, X11.GLX_RED_SIZE,
      X11.GLX_GREEN_SIZE, X11.GLX_BLUE_SIZE, X11.GLX_ALPHA_SIZE, X11.GLX_DEPTH_SIZE,
      X11.GLX_STENCIL_SIZE]
  · simp only [Carbon.GLContext_GetAttribs]
    exact List.getLast?_concat _
  · simp only [Carbon.GLContext_GetAttribs, List.length_append]
    split_ifs <;> simp
  · simp only [Carbon.GLContext_GetAttribs, List.length_append, Bool.false_eq_true, if_false]
    split_ifs <;> simp
  · cases mode.IsIndexed <;> simp [Carbon.AGL_RGBA, Carbon.AGL_DOUBLEBUFFER,
      Carbon.AGL_RED_SIZE, Carbon.AGL_GREEN_SIZE, Carbon.AGL_BLUE_SIZE,
      Carbon.AGL_ALPHA_SIZE, Carbon.AGL_DEPTH_SIZE, Carbon.AGL_STENCIL_SIZE,
      Carbon.AGL_FULLSCREEN]
  · intro v
    by_cases hd : mode.DepthBits = 0 <;> simp [hd, Carbon.AGL_RGBA,
      Carbon.AGL_DOUBLEBUFFER,
      Carbon.AGL_RED_SIZE, Carbon.AGL_GREEN_SIZE, Carbon.AGL_BLUE_SIZE,
      Carbon.AGL_ALPHA_SIZE, Carbon.AGL_DEPTH_SIZE, Carbon.AGL_STENCIL_SIZE,
      Carbon.AGL_FULLSCREEN]
  · intro v
    by_cases hd : mode.StencilBits = 0 <;> simp [hd, Carbon.AGL_RGBA,
      Carbon.AGL_DOUBLEBUFFER,
      Carbon.AGL_RED_SIZE, Carbon.AGL_GREEN_SIZE, Carbon.AGL_BLUE_SIZE,
      Carbon.AGL_ALPHA_SIZE, Carbon.AGL_DEPTH_SIZE, Carbon.AGL_STENCIL_SIZE,
      Carbon.AGL_FULLSCREEN]
  · by_cases hb : mode.Buffers > 1 <;> simp [hb, Carbon.AGL_RGBA,
      Carbon.AGL_DOUBLEBUFFER,
      Carbon.AGL_RED_SIZE, Carbon.AGL_GREEN_SIZE, Carbon.AGL_BLUE_SIZE,
      Carbon.AGL_ALPHA_SIZE, Carbon.AGL_DEPTH_SIZE, Carbon.AGL_STENCIL_SIZE,
      Carbon.AGL_FULLSCREEN]
  · cases fullscreen <;> simp [Carbon.AGL_RGBA,
      Carbon.AGL_DOUBLEBUFFER,
      Carbon.AGL_RED_SIZE, Carbon.AGL_GREEN_SIZE, Carbon.AGL_BLUE_SIZE,
      Carbon.AGL_ALPHA_SIZE, Carbon.AGL_DEPTH_SIZE, Carbon.AGL_STENCIL_SIZE,
      Carbon.AGL_FULLSCREEN]
